import Mathlib

/-!
Verification of the Morton-key octree core of the `rusty-tree` repository.

The development shallowly embeds the relevant Rust sources:

* `src/morton.rs` — Morton (Z-order) key encoding/decoding and key algebra.
* `crates/rusty-tree/src/octree.rs` — local tree operations
  (`linearize_keys`, `complete_region`, `balance`).
* `crates/rusty-tree/src/distributed.rs` — `assign_nodes_to_leaves`,
  `split_blocks`, and the phase-7/8 fragment of `balanced_tree`.

Modelling conventions:

* A Rust `MortonKey` carries a cached `anchor: [u64; 3]` and the packed
  64-bit `morton` value.  Equality, ordering and hashing are defined solely
  on `morton`, and for every key the program constructs the cached anchor
  equals `decode_key morton` (the constructors `from_morton`,
  `from_anchor`, `from_point`, `find_key_in_direction` set it that way, and
  `parent`/`children`/`finest_last_child` go through `from_morton`;
  `first_child`/`finest_first_child` keep the anchor while only changing
  the level bits, which leaves `decode_key` unchanged).  We therefore model
  a key as its packed `morton` value (a `Nat`) and recover the anchor with
  `decode_key` where the source reads the cached field.
* `u64` arithmetic is modelled on `Nat`.  All values arising from valid
  keys stay far below `2 ^ 64`, so no wraparound modelling is needed; the
  one place the Rust source can underflow (`parent` on the root, which the
  spec declares caller-guarded undefined behaviour) is noted at its
  definition.
* Rust `HashSet`/`HashMap` iteration orders are only used by the source in
  ways that do not affect the final results (sets are only inserted into and
  queried, maps are keyed deterministically); the embedding uses lists with
  set/map semantics and documents each such point.
* Loops whose termination is a verification subject (`complete_region`'s
  work list, `split_blocks`' refinement loop, `finest_ancestor`'s climb)
  are modelled with explicit fuel returning `Option`; `none` corresponds to
  the Rust loop failing to terminate (or panicking on `u64` underflow).
  Sufficiency of the fuel on the verified input domain is proved where the
  claims require it.
-/

namespace Morton

def X_LOOKUP_ENCODE : List Nat := [
  0x00000000, 0x00000001, 0x00000008, 0x00000009, 0x00000040, 0x00000041, 0x00000048, 0x00000049, 0x00000200, 0x00000201, 0x00000208, 0x00000209, 0x00000240, 0x00000241, 0x00000248, 0x00000249,
  0x00001000, 0x00001001, 0x00001008, 0x00001009, 0x00001040, 0x00001041, 0x00001048, 0x00001049, 0x00001200, 0x00001201, 0x00001208, 0x00001209, 0x00001240, 0x00001241, 0x00001248, 0x00001249,
  0x00008000, 0x00008001, 0x00008008, 0x00008009, 0x00008040, 0x00008041, 0x00008048, 0x00008049, 0x00008200, 0x00008201, 0x00008208, 0x00008209, 0x00008240, 0x00008241, 0x00008248, 0x00008249,
  0x00009000, 0x00009001, 0x00009008, 0x00009009, 0x00009040, 0x00009041, 0x00009048, 0x00009049, 0x00009200, 0x00009201, 0x00009208, 0x00009209, 0x00009240, 0x00009241, 0x00009248, 0x00009249,
  0x00040000, 0x00040001, 0x00040008, 0x00040009, 0x00040040, 0x00040041, 0x00040048, 0x00040049, 0x00040200, 0x00040201, 0x00040208, 0x00040209, 0x00040240, 0x00040241, 0x00040248, 0x00040249,
  0x00041000, 0x00041001, 0x00041008, 0x00041009, 0x00041040, 0x00041041, 0x00041048, 0x00041049, 0x00041200, 0x00041201, 0x00041208, 0x00041209, 0x00041240, 0x00041241, 0x00041248, 0x00041249,
  0x00048000, 0x00048001, 0x00048008, 0x00048009, 0x00048040, 0x00048041, 0x00048048, 0x00048049, 0x00048200, 0x00048201, 0x00048208, 0x00048209, 0x00048240, 0x00048241, 0x00048248, 0x00048249,
  0x00049000, 0x00049001, 0x00049008, 0x00049009, 0x00049040, 0x00049041, 0x00049048, 0x00049049, 0x00049200, 0x00049201, 0x00049208, 0x00049209, 0x00049240, 0x00049241, 0x00049248, 0x00049249,
  0x00200000, 0x00200001, 0x00200008, 0x00200009, 0x00200040, 0x00200041, 0x00200048, 0x00200049, 0x00200200, 0x00200201, 0x00200208, 0x00200209, 0x00200240, 0x00200241, 0x00200248, 0x00200249,
  0x00201000, 0x00201001, 0x00201008, 0x00201009, 0x00201040, 0x00201041, 0x00201048, 0x00201049, 0x00201200, 0x00201201, 0x00201208, 0x00201209, 0x00201240, 0x00201241, 0x00201248, 0x00201249,
  0x00208000, 0x00208001, 0x00208008, 0x00208009, 0x00208040, 0x00208041, 0x00208048, 0x00208049, 0x00208200, 0x00208201, 0x00208208, 0x00208209, 0x00208240, 0x00208241, 0x00208248, 0x00208249,
  0x00209000, 0x00209001, 0x00209008, 0x00209009, 0x00209040, 0x00209041, 0x00209048, 0x00209049, 0x00209200, 0x00209201, 0x00209208, 0x00209209, 0x00209240, 0x00209241, 0x00209248, 0x00209249,
  0x00240000, 0x00240001, 0x00240008, 0x00240009, 0x00240040, 0x00240041, 0x00240048, 0x00240049, 0x00240200, 0x00240201, 0x00240208, 0x00240209, 0x00240240, 0x00240241, 0x00240248, 0x00240249,
  0x00241000, 0x00241001, 0x00241008, 0x00241009, 0x00241040, 0x00241041, 0x00241048, 0x00241049, 0x00241200, 0x00241201, 0x00241208, 0x00241209, 0x00241240, 0x00241241, 0x00241248, 0x00241249,
  0x00248000, 0x00248001, 0x00248008, 0x00248009, 0x00248040, 0x00248041, 0x00248048, 0x00248049, 0x00248200, 0x00248201, 0x00248208, 0x00248209, 0x00248240, 0x00248241, 0x00248248, 0x00248249,
  0x00249000, 0x00249001, 0x00249008, 0x00249009, 0x00249040, 0x00249041, 0x00249048, 0x00249049, 0x00249200, 0x00249201, 0x00249208, 0x00249209, 0x00249240, 0x00249241, 0x00249248, 0x00249249]

def Y_LOOKUP_ENCODE : List Nat := [
  0x00000000, 0x00000002, 0x00000010, 0x00000012, 0x00000080, 0x00000082, 0x00000090, 0x00000092, 0x00000400, 0x00000402, 0x00000410, 0x00000412, 0x00000480, 0x00000482, 0x00000490, 0x00000492,
  0x00002000, 0x00002002, 0x00002010, 0x00002012, 0x00002080, 0x00002082, 0x00002090, 0x00002092, 0x00002400, 0x00002402, 0x00002410, 0x00002412, 0x00002480, 0x00002482, 0x00002490, 0x00002492,
  0x00010000, 0x00010002, 0x00010010, 0x00010012, 0x00010080, 0x00010082, 0x00010090, 0x00010092, 0x00010400, 0x00010402, 0x00010410, 0x00010412, 0x00010480, 0x00010482, 0x00010490, 0x00010492,
  0x00012000, 0x00012002, 0x00012010, 0x00012012, 0x00012080, 0x00012082, 0x00012090, 0x00012092, 0x00012400, 0x00012402, 0x00012410, 0x00012412, 0x00012480, 0x00012482, 0x00012490, 0x00012492,
  0x00080000, 0x00080002, 0x00080010, 0x00080012, 0x00080080, 0x00080082, 0x00080090, 0x00080092, 0x00080400, 0x00080402, 0x00080410, 0x00080412, 0x00080480, 0x00080482, 0x00080490, 0x00080492,
  0x00082000, 0x00082002, 0x00082010, 0x00082012, 0x00082080, 0x00082082, 0x00082090, 0x00082092, 0x00082400, 0x00082402, 0x00082410, 0x00082412, 0x00082480, 0x00082482, 0x00082490, 0x00082492,
  0x00090000, 0x00090002, 0x00090010, 0x00090012, 0x00090080, 0x00090082, 0x00090090, 0x00090092, 0x00090400, 0x00090402, 0x00090410, 0x00090412, 0x00090480, 0x00090482, 0x00090490, 0x00090492,
  0x00092000, 0x00092002, 0x00092010, 0x00092012, 0x00092080, 0x00092082, 0x00092090, 0x00092092, 0x00092400, 0x00092402, 0x00092410, 0x00092412, 0x00092480, 0x00092482, 0x00092490, 0x00092492,
  0x00400000, 0x00400002, 0x00400010, 0x00400012, 0x00400080, 0x00400082, 0x00400090, 0x00400092, 0x00400400, 0x00400402, 0x00400410, 0x00400412, 0x00400480, 0x00400482, 0x00400490, 0x00400492,
  0x00402000, 0x00402002, 0x00402010, 0x00402012, 0x00402080, 0x00402082, 0x00402090, 0x00402092, 0x00402400, 0x00402402, 0x00402410, 0x00402412, 0x00402480, 0x00402482, 0x00402490, 0x00402492,
  0x00410000, 0x00410002, 0x00410010, 0x00410012, 0x00410080, 0x00410082, 0x00410090, 0x00410092, 0x00410400, 0x00410402, 0x00410410, 0x00410412, 0x00410480, 0x00410482, 0x00410490, 0x00410492,
  0x00412000, 0x00412002, 0x00412010, 0x00412012, 0x00412080, 0x00412082, 0x00412090, 0x00412092, 0x00412400, 0x00412402, 0x00412410, 0x00412412, 0x00412480, 0x00412482, 0x00412490, 0x00412492,
  0x00480000, 0x00480002, 0x00480010, 0x00480012, 0x00480080, 0x00480082, 0x00480090, 0x00480092, 0x00480400, 0x00480402, 0x00480410, 0x00480412, 0x00480480, 0x00480482, 0x00480490, 0x00480492,
  0x00482000, 0x00482002, 0x00482010, 0x00482012, 0x00482080, 0x00482082, 0x00482090, 0x00482092, 0x00482400, 0x00482402, 0x00482410, 0x00482412, 0x00482480, 0x00482482, 0x00482490, 0x00482492,
  0x00490000, 0x00490002, 0x00490010, 0x00490012, 0x00490080, 0x00490082, 0x00490090, 0x00490092, 0x00490400, 0x00490402, 0x00490410, 0x00490412, 0x00490480, 0x00490482, 0x00490490, 0x00490492,
  0x00492000, 0x00492002, 0x00492010, 0x00492012, 0x00492080, 0x00492082, 0x00492090, 0x00492092, 0x00492400, 0x00492402, 0x00492410, 0x00492412, 0x00492480, 0x00492482, 0x00492490, 0x00492492]

def Z_LOOKUP_ENCODE : List Nat := [
  0x00000000, 0x00000004, 0x00000020, 0x00000024, 0x00000100, 0x00000104, 0x00000120, 0x00000124, 0x00000800, 0x00000804, 0x00000820, 0x00000824, 0x00000900, 0x00000904, 0x00000920, 0x00000924,
  0x00004000, 0x00004004, 0x00004020, 0x00004024, 0x00004100, 0x00004104, 0x00004120, 0x00004124, 0x00004800, 0x00004804, 0x00004820, 0x00004824, 0x00004900, 0x00004904, 0x00004920, 0x00004924,
  0x00020000, 0x00020004, 0x00020020, 0x00020024, 0x00020100, 0x00020104, 0x00020120, 0x00020124, 0x00020800, 0x00020804, 0x00020820, 0x00020824, 0x00020900, 0x00020904, 0x00020920, 0x00020924,
  0x00024000, 0x00024004, 0x00024020, 0x00024024, 0x00024100, 0x00024104, 0x00024120, 0x00024124, 0x00024800, 0x00024804, 0x00024820, 0x00024824, 0x00024900, 0x00024904, 0x00024920, 0x00024924,
  0x00100000, 0x00100004, 0x00100020, 0x00100024, 0x00100100, 0x00100104, 0x00100120, 0x00100124, 0x00100800, 0x00100804, 0x00100820, 0x00100824, 0x00100900, 0x00100904, 0x00100920, 0x00100924,
  0x00104000, 0x00104004, 0x00104020, 0x00104024, 0x00104100, 0x00104104, 0x00104120, 0x00104124, 0x00104800, 0x00104804, 0x00104820, 0x00104824, 0x00104900, 0x00104904, 0x00104920, 0x00104924,
  0x00120000, 0x00120004, 0x00120020, 0x00120024, 0x00120100, 0x00120104, 0x00120120, 0x00120124, 0x00120800, 0x00120804, 0x00120820, 0x00120824, 0x00120900, 0x00120904, 0x00120920, 0x00120924,
  0x00124000, 0x00124004, 0x00124020, 0x00124024, 0x00124100, 0x00124104, 0x00124120, 0x00124124, 0x00124800, 0x00124804, 0x00124820, 0x00124824, 0x00124900, 0x00124904, 0x00124920, 0x00124924,
  0x00800000, 0x00800004, 0x00800020, 0x00800024, 0x00800100, 0x00800104, 0x00800120, 0x00800124, 0x00800800, 0x00800804, 0x00800820, 0x00800824, 0x00800900, 0x00800904, 0x00800920, 0x00800924,
  0x00804000, 0x00804004, 0x00804020, 0x00804024, 0x00804100, 0x00804104, 0x00804120, 0x00804124, 0x00804800, 0x00804804, 0x00804820, 0x00804824, 0x00804900, 0x00804904, 0x00804920, 0x00804924,
  0x00820000, 0x00820004, 0x00820020, 0x00820024, 0x00820100, 0x00820104, 0x00820120, 0x00820124, 0x00820800, 0x00820804, 0x00820820, 0x00820824, 0x00820900, 0x00820904, 0x00820920, 0x00820924,
  0x00824000, 0x00824004, 0x00824020, 0x00824024, 0x00824100, 0x00824104, 0x00824120, 0x00824124, 0x00824800, 0x00824804, 0x00824820, 0x00824824, 0x00824900, 0x00824904, 0x00824920, 0x00824924,
  0x00900000, 0x00900004, 0x00900020, 0x00900024, 0x00900100, 0x00900104, 0x00900120, 0x00900124, 0x00900800, 0x00900804, 0x00900820, 0x00900824, 0x00900900, 0x00900904, 0x00900920, 0x00900924,
  0x00904000, 0x00904004, 0x00904020, 0x00904024, 0x00904100, 0x00904104, 0x00904120, 0x00904124, 0x00904800, 0x00904804, 0x00904820, 0x00904824, 0x00904900, 0x00904904, 0x00904920, 0x00904924,
  0x00920000, 0x00920004, 0x00920020, 0x00920024, 0x00920100, 0x00920104, 0x00920120, 0x00920124, 0x00920800, 0x00920804, 0x00920820, 0x00920824, 0x00920900, 0x00920904, 0x00920920, 0x00920924,
  0x00924000, 0x00924004, 0x00924020, 0x00924024, 0x00924100, 0x00924104, 0x00924120, 0x00924124, 0x00924800, 0x00924804, 0x00924820, 0x00924824, 0x00924900, 0x00924904, 0x00924920, 0x00924924]

def X_LOOKUP_DECODE : List Nat := [
  0, 1, 0, 1, 0, 1, 0, 1, 2, 3, 2, 3, 2, 3, 2, 3,
  0, 1, 0, 1, 0, 1, 0, 1, 2, 3, 2, 3, 2, 3, 2, 3,
  0, 1, 0, 1, 0, 1, 0, 1, 2, 3, 2, 3, 2, 3, 2, 3,
  0, 1, 0, 1, 0, 1, 0, 1, 2, 3, 2, 3, 2, 3, 2, 3,
  4, 5, 4, 5, 4, 5, 4, 5, 6, 7, 6, 7, 6, 7, 6, 7,
  4, 5, 4, 5, 4, 5, 4, 5, 6, 7, 6, 7, 6, 7, 6, 7,
  4, 5, 4, 5, 4, 5, 4, 5, 6, 7, 6, 7, 6, 7, 6, 7,
  4, 5, 4, 5, 4, 5, 4, 5, 6, 7, 6, 7, 6, 7, 6, 7,
  0, 1, 0, 1, 0, 1, 0, 1, 2, 3, 2, 3, 2, 3, 2, 3,
  0, 1, 0, 1, 0, 1, 0, 1, 2, 3, 2, 3, 2, 3, 2, 3,
  0, 1, 0, 1, 0, 1, 0, 1, 2, 3, 2, 3, 2, 3, 2, 3,
  0, 1, 0, 1, 0, 1, 0, 1, 2, 3, 2, 3, 2, 3, 2, 3,
  4, 5, 4, 5, 4, 5, 4, 5, 6, 7, 6, 7, 6, 7, 6, 7,
  4, 5, 4, 5, 4, 5, 4, 5, 6, 7, 6, 7, 6, 7, 6, 7,
  4, 5, 4, 5, 4, 5, 4, 5, 6, 7, 6, 7, 6, 7, 6, 7,
  4, 5, 4, 5, 4, 5, 4, 5, 6, 7, 6, 7, 6, 7, 6, 7,
  0, 1, 0, 1, 0, 1, 0, 1, 2, 3, 2, 3, 2, 3, 2, 3,
  0, 1, 0, 1, 0, 1, 0, 1, 2, 3, 2, 3, 2, 3, 2, 3,
  0, 1, 0, 1, 0, 1, 0, 1, 2, 3, 2, 3, 2, 3, 2, 3,
  0, 1, 0, 1, 0, 1, 0, 1, 2, 3, 2, 3, 2, 3, 2, 3,
  4, 5, 4, 5, 4, 5, 4, 5, 6, 7, 6, 7, 6, 7, 6, 7,
  4, 5, 4, 5, 4, 5, 4, 5, 6, 7, 6, 7, 6, 7, 6, 7,
  4, 5, 4, 5, 4, 5, 4, 5, 6, 7, 6, 7, 6, 7, 6, 7,
  4, 5, 4, 5, 4, 5, 4, 5, 6, 7, 6, 7, 6, 7, 6, 7,
  0, 1, 0, 1, 0, 1, 0, 1, 2, 3, 2, 3, 2, 3, 2, 3,
  0, 1, 0, 1, 0, 1, 0, 1, 2, 3, 2, 3, 2, 3, 2, 3,
  0, 1, 0, 1, 0, 1, 0, 1, 2, 3, 2, 3, 2, 3, 2, 3,
  0, 1, 0, 1, 0, 1, 0, 1, 2, 3, 2, 3, 2, 3, 2, 3,
  4, 5, 4, 5, 4, 5, 4, 5, 6, 7, 6, 7, 6, 7, 6, 7,
  4, 5, 4, 5, 4, 5, 4, 5, 6, 7, 6, 7, 6, 7, 6, 7,
  4, 5, 4, 5, 4, 5, 4, 5, 6, 7, 6, 7, 6, 7, 6, 7,
  4, 5, 4, 5, 4, 5, 4, 5, 6, 7, 6, 7, 6, 7, 6, 7]

def Y_LOOKUP_DECODE : List Nat := [
  0, 0, 1, 1, 0, 0, 1, 1, 0, 0, 1, 1, 0, 0, 1, 1,
  2, 2, 3, 3, 2, 2, 3, 3, 2, 2, 3, 3, 2, 2, 3, 3,
  0, 0, 1, 1, 0, 0, 1, 1, 0, 0, 1, 1, 0, 0, 1, 1,
  2, 2, 3, 3, 2, 2, 3, 3, 2, 2, 3, 3, 2, 2, 3, 3,
  0, 0, 1, 1, 0, 0, 1, 1, 0, 0, 1, 1, 0, 0, 1, 1,
  2, 2, 3, 3, 2, 2, 3, 3, 2, 2, 3, 3, 2, 2, 3, 3,
  0, 0, 1, 1, 0, 0, 1, 1, 0, 0, 1, 1, 0, 0, 1, 1,
  2, 2, 3, 3, 2, 2, 3, 3, 2, 2, 3, 3, 2, 2, 3, 3,
  4, 4, 5, 5, 4, 4, 5, 5, 4, 4, 5, 5, 4, 4, 5, 5,
  6, 6, 7, 7, 6, 6, 7, 7, 6, 6, 7, 7, 6, 6, 7, 7,
  4, 4, 5, 5, 4, 4, 5, 5, 4, 4, 5, 5, 4, 4, 5, 5,
  6, 6, 7, 7, 6, 6, 7, 7, 6, 6, 7, 7, 6, 6, 7, 7,
  4, 4, 5, 5, 4, 4, 5, 5, 4, 4, 5, 5, 4, 4, 5, 5,
  6, 6, 7, 7, 6, 6, 7, 7, 6, 6, 7, 7, 6, 6, 7, 7,
  4, 4, 5, 5, 4, 4, 5, 5, 4, 4, 5, 5, 4, 4, 5, 5,
  6, 6, 7, 7, 6, 6, 7, 7, 6, 6, 7, 7, 6, 6, 7, 7,
  0, 0, 1, 1, 0, 0, 1, 1, 0, 0, 1, 1, 0, 0, 1, 1,
  2, 2, 3, 3, 2, 2, 3, 3, 2, 2, 3, 3, 2, 2, 3, 3,
  0, 0, 1, 1, 0, 0, 1, 1, 0, 0, 1, 1, 0, 0, 1, 1,
  2, 2, 3, 3, 2, 2, 3, 3, 2, 2, 3, 3, 2, 2, 3, 3,
  0, 0, 1, 1, 0, 0, 1, 1, 0, 0, 1, 1, 0, 0, 1, 1,
  2, 2, 3, 3, 2, 2, 3, 3, 2, 2, 3, 3, 2, 2, 3, 3,
  0, 0, 1, 1, 0, 0, 1, 1, 0, 0, 1, 1, 0, 0, 1, 1,
  2, 2, 3, 3, 2, 2, 3, 3, 2, 2, 3, 3, 2, 2, 3, 3,
  4, 4, 5, 5, 4, 4, 5, 5, 4, 4, 5, 5, 4, 4, 5, 5,
  6, 6, 7, 7, 6, 6, 7, 7, 6, 6, 7, 7, 6, 6, 7, 7,
  4, 4, 5, 5, 4, 4, 5, 5, 4, 4, 5, 5, 4, 4, 5, 5,
  6, 6, 7, 7, 6, 6, 7, 7, 6, 6, 7, 7, 6, 6, 7, 7,
  4, 4, 5, 5, 4, 4, 5, 5, 4, 4, 5, 5, 4, 4, 5, 5,
  6, 6, 7, 7, 6, 6, 7, 7, 6, 6, 7, 7, 6, 6, 7, 7,
  4, 4, 5, 5, 4, 4, 5, 5, 4, 4, 5, 5, 4, 4, 5, 5,
  6, 6, 7, 7, 6, 6, 7, 7, 6, 6, 7, 7, 6, 6, 7, 7]

def Z_LOOKUP_DECODE : List Nat := [
  0, 0, 0, 0, 1, 1, 1, 1, 0, 0, 0, 0, 1, 1, 1, 1,
  0, 0, 0, 0, 1, 1, 1, 1, 0, 0, 0, 0, 1, 1, 1, 1,
  2, 2, 2, 2, 3, 3, 3, 3, 2, 2, 2, 2, 3, 3, 3, 3,
  2, 2, 2, 2, 3, 3, 3, 3, 2, 2, 2, 2, 3, 3, 3, 3,
  0, 0, 0, 0, 1, 1, 1, 1, 0, 0, 0, 0, 1, 1, 1, 1,
  0, 0, 0, 0, 1, 1, 1, 1, 0, 0, 0, 0, 1, 1, 1, 1,
  2, 2, 2, 2, 3, 3, 3, 3, 2, 2, 2, 2, 3, 3, 3, 3,
  2, 2, 2, 2, 3, 3, 3, 3, 2, 2, 2, 2, 3, 3, 3, 3,
  0, 0, 0, 0, 1, 1, 1, 1, 0, 0, 0, 0, 1, 1, 1, 1,
  0, 0, 0, 0, 1, 1, 1, 1, 0, 0, 0, 0, 1, 1, 1, 1,
  2, 2, 2, 2, 3, 3, 3, 3, 2, 2, 2, 2, 3, 3, 3, 3,
  2, 2, 2, 2, 3, 3, 3, 3, 2, 2, 2, 2, 3, 3, 3, 3,
  0, 0, 0, 0, 1, 1, 1, 1, 0, 0, 0, 0, 1, 1, 1, 1,
  0, 0, 0, 0, 1, 1, 1, 1, 0, 0, 0, 0, 1, 1, 1, 1,
  2, 2, 2, 2, 3, 3, 3, 3, 2, 2, 2, 2, 3, 3, 3, 3,
  2, 2, 2, 2, 3, 3, 3, 3, 2, 2, 2, 2, 3, 3, 3, 3,
  4, 4, 4, 4, 5, 5, 5, 5, 4, 4, 4, 4, 5, 5, 5, 5,
  4, 4, 4, 4, 5, 5, 5, 5, 4, 4, 4, 4, 5, 5, 5, 5,
  6, 6, 6, 6, 7, 7, 7, 7, 6, 6, 6, 6, 7, 7, 7, 7,
  6, 6, 6, 6, 7, 7, 7, 7, 6, 6, 6, 6, 7, 7, 7, 7,
  4, 4, 4, 4, 5, 5, 5, 5, 4, 4, 4, 4, 5, 5, 5, 5,
  4, 4, 4, 4, 5, 5, 5, 5, 4, 4, 4, 4, 5, 5, 5, 5,
  6, 6, 6, 6, 7, 7, 7, 7, 6, 6, 6, 6, 7, 7, 7, 7,
  6, 6, 6, 6, 7, 7, 7, 7, 6, 6, 6, 6, 7, 7, 7, 7,
  4, 4, 4, 4, 5, 5, 5, 5, 4, 4, 4, 4, 5, 5, 5, 5,
  4, 4, 4, 4, 5, 5, 5, 5, 4, 4, 4, 4, 5, 5, 5, 5,
  6, 6, 6, 6, 7, 7, 7, 7, 6, 6, 6, 6, 7, 7, 7, 7,
  6, 6, 6, 6, 7, 7, 7, 7, 6, 6, 6, 6, 7, 7, 7, 7,
  4, 4, 4, 4, 5, 5, 5, 5, 4, 4, 4, 4, 5, 5, 5, 5,
  4, 4, 4, 4, 5, 5, 5, 5, 4, 4, 4, 4, 5, 5, 5, 5,
  6, 6, 6, 6, 7, 7, 7, 7, 6, 6, 6, 6, 7, 7, 7, 7,
  6, 6, 6, 6, 7, 7, 7, 7, 6, 6, 6, 6, 7, 7, 7, 7]


/-- Constant `DEEPEST_LEVEL` from `src/morton.rs`. -/
def DEEPEST_LEVEL : Nat := 16

/-- Constant `LEVEL_SIZE = 1 << DEEPEST_LEVEL` from `src/morton.rs`. -/
def LEVEL_SIZE : Nat := 1 <<< DEEPEST_LEVEL

/-- Constant `ROOT` from `src/morton.rs`: packed value 0 (anchor `[0,0,0]`, level 0). -/
def ROOT : Nat := 0

/-- Number of bits used for level information (`LEVEL_DISPLACEMENT`). -/
def LEVEL_DISPLACEMENT : Nat := 15

/-- Mask for the last 15 bits (`LEVEL_MASK`). -/
def LEVEL_MASK : Nat := 0x7FFF

/-- Mask for the lowest-order byte (`BYTE_MASK`). -/
def BYTE_MASK : Nat := 0xFF

/-- Byte shift (`BYTE_DISPLACEMENT`). -/
def BYTE_DISPLACEMENT : Nat := 8

/-- Mask for nine bits (`NINE_BIT_MASK`). -/
def NINE_BIT_MASK : Nat := 0x1FF

/-- Mirrors `find_level` in `src/morton.rs`: the level stored in the low 15 bits. -/
def find_level (morton : Nat) : Nat := morton &&& LEVEL_MASK

/-- Mirrors `decode_key_helper` in `src/morton.rs`: reads the 63 relevant bits in
seven 9-bit chunks through a 512-entry lookup table (`N_LOOPS = 7`). -/
def decode_key_helper (key : Nat) (lookup_table : List Nat) : Nat :=
  (List.range 7).foldl
    (fun coord index =>
      coord ||| ((lookup_table.getD ((key >>> (index * 9)) &&& NINE_BIT_MASK) 0) <<< (3 * index)))
    0

/-- Mirrors `decode_key` in `src/morton.rs`: strips the level bits and recovers the
three anchor coordinates. -/
def decode_key (morton : Nat) : Nat × Nat × Nat :=
  let key := morton >>> LEVEL_DISPLACEMENT
  (decode_key_helper key X_LOOKUP_DECODE,
   decode_key_helper key Y_LOOKUP_DECODE,
   decode_key_helper key Z_LOOKUP_DECODE)

/-- Mirrors `encode_anchor` in `src/morton.rs`: interleaves the three anchor
coordinates byte-by-byte through the encode tables and appends the level in the
low 15 bits. -/
def encode_anchor (anchor : Nat × Nat × Nat) (level : Nat) : Nat :=
  let x := anchor.1
  let y := anchor.2.1
  let z := anchor.2.2
  let key : Nat := Z_LOOKUP_ENCODE.getD ((z >>> BYTE_DISPLACEMENT) &&& BYTE_MASK) 0
    ||| Y_LOOKUP_ENCODE.getD ((y >>> BYTE_DISPLACEMENT) &&& BYTE_MASK) 0
    ||| X_LOOKUP_ENCODE.getD ((x >>> BYTE_DISPLACEMENT) &&& BYTE_MASK) 0
  let key := (key <<< 24)
    ||| Z_LOOKUP_ENCODE.getD (z &&& BYTE_MASK) 0
    ||| Y_LOOKUP_ENCODE.getD (y &&& BYTE_MASK) 0
    ||| X_LOOKUP_ENCODE.getD (x &&& BYTE_MASK) 0
  let key := key <<< LEVEL_DISPLACEMENT
  key ||| level

/-- Mirrors `MortonKey::parent` in `src/morton.rs`.  On the root (level 0) the Rust
code underflows `level - 1` on `u64` (caller-guarded undefined behaviour per the
spec); the `Nat` truncated subtraction used here returns the root itself instead.
All verified uses guard `level > 0`. -/
def parent (k : Nat) : Nat :=
  let level := find_level k
  let morton := k >>> LEVEL_DISPLACEMENT
  let parent_level := level - 1
  let bit_multiplier := DEEPEST_LEVEL - parent_level
  let parent_morton_without_level := (morton >>> (3 * bit_multiplier)) <<< (3 * bit_multiplier)
  (parent_morton_without_level <<< LEVEL_DISPLACEMENT) ||| parent_level

/-- Mirrors `MortonKey::first_child` in `src/morton.rs`. -/
def first_child (k : Nat) : Nat := 1 + k

/-- Mirrors `MortonKey::finest_first_child` in `src/morton.rs`. -/
def finest_first_child (k : Nat) : Nat := (DEEPEST_LEVEL - find_level k) + k

/-- Mirrors `MortonKey::finest_last_child` in `src/morton.rs`, verbatim: the level
bits are stripped, the low `3 * (16 - level)` interleave bits are set, and
`DEEPEST_LEVEL` is added to the result of `>> LEVEL_DISPLACEMENT` without shifting
the interleave part back into place. -/
def finest_last_child (k : Nat) : Nat :=
  let morton := k >>> LEVEL_DISPLACEMENT
  let nlevels := DEEPEST_LEVEL - find_level k
  let mask : Nat := (1 <<< (3 * nlevels)) - 1
  let morton := morton ||| mask
  morton + DEEPEST_LEVEL

/-- Mirrors `MortonKey::children` in `src/morton.rs`: the eight children in
ascending order of their Morton indices. -/
def children (k : Nat) : List Nat :=
  let level := find_level k
  let morton := k >>> LEVEL_DISPLACEMENT
  let bit_shift := 3 * (DEEPEST_LEVEL - level - 1)
  (List.range 8).map
    (fun index => ((morton ||| (index <<< bit_shift)) <<< LEVEL_DISPLACEMENT) ||| (level + 1))

/-- Mirrors `MortonKey::siblings` in `src/morton.rs`. -/
def siblings (k : Nat) : List Nat := children (parent k)

/-- Iteration core of `MortonKey::ancestors` in `src/morton.rs`.  The Rust loop
`while current.level() > 0 { current = current.parent(); insert(current) }`
executes exactly `level` iterations because `parent` decrements the stored level
by one; the fuel argument is that level.  The Rust result is a `HashSet`; the
list returned here enumerates the same elements (strict parent chain). -/
def ancestorsGo : Nat → Nat → List Nat
  | 0, _ => []
  | fuel + 1, k => parent k :: ancestorsGo fuel (parent k)

/-- Mirrors `MortonKey::ancestors` in `src/morton.rs`: the set of strict ancestors
up to the root. -/
def ancestors (k : Nat) : List Nat := ancestorsGo (find_level k) k

/-- Mirrors `MortonKey::is_ancestor` in `src/morton.rs`:
`a.is_ancestor(b) = b.ancestors().contains(a)` (containment compares packed
values, since `MortonKey` equality is equality of `morton`). -/
def is_ancestor (a b : Nat) : Bool := (ancestors b).contains a

/-- Mirrors `MortonKey::is_descendent` in `src/morton.rs`. -/
def is_descendent (a b : Nat) : Bool := is_ancestor b a

/-- Climb loop of `MortonKey::finest_ancestor` in `src/morton.rs`:
`while !my_ancestors.contains(&current) { current = current.parent() }`.
Starting from `parent other` the loop visits the parent chain; after
`level other` steps it has passed the chain entry at level 0, and in Rust any
further step underflows `u64` subtraction inside `parent` and panics on a shift
overflow.  The fuel is therefore `level other`, and `none` models that panic
(it is proved unreachable when `a` has an ancestor at all, i.e. `level a > 0`). -/
def finestAncestorGo (my_ancestors : List Nat) : Nat → Nat → Option Nat
  | 0, _ => none
  | fuel + 1, current =>
      if current ∈ my_ancestors then some current
      else finestAncestorGo my_ancestors fuel (parent current)

/-- Mirrors `MortonKey::finest_ancestor` in `src/morton.rs`. -/
def finest_ancestor (a b : Nat) : Option Nat :=
  if a = b then some b
  else finestAncestorGo (ancestors a) (find_level b) (parent b)

/-- Mirrors `MortonKey::find_key_in_direction` in `src/morton.rs`, including its
bound `max_number_of_boxes = 1 << level` (not `1 << DEEPEST_LEVEL`).  The source
reads the cached anchor field, which for every constructible key equals
`decode_key` of the packed value. -/
def find_key_in_direction (k : Nat) (direction : Int × Int × Int) : Option Nat :=
  let level := find_level k
  let max_number_of_boxes : Int := 1 <<< level
  let step_multiplier : Int := 1 <<< (DEEPEST_LEVEL - level)
  let a := decode_key k
  let x : Int := (a.1 : Int) + step_multiplier * direction.1
  let y : Int := (a.2.1 : Int) + step_multiplier * direction.2.1
  let z : Int := (a.2.2 : Int) + step_multiplier * direction.2.2
  if 0 ≤ x ∧ 0 ≤ y ∧ 0 ≤ z ∧
     x < max_number_of_boxes ∧ y < max_number_of_boxes ∧ z < max_number_of_boxes then
    some (encode_anchor (x.toNat, y.toNat, z.toNat) level)
  else
    none

/-- Level of a packed key, arithmetically: the low 15 bits. -/
def lvl (k : Nat) : Nat := k % 2 ^ 15

/-- Interleave part of a packed key, arithmetically: the bits above the level. -/
def idx (k : Nat) : Nat := k / 2 ^ 15

/-- Valid packed Morton keys: the shapes reachable through the constructors of
`src/morton.rs` (data-model invariants of spec §3): a level in `0..=16`, a
48-bit interleave part, and interleave bits below the level zeroed (anchors are
multiples of `2^(16 - level)`). -/
def ValidKey (k : Nat) : Prop :=
  lvl k ≤ 16 ∧ idx k < 2 ^ 48 ∧ idx k % 2 ^ (3 * (16 - lvl k)) = 0

instance : DecidablePred ValidKey := fun _ => by unfold ValidKey; infer_instance

end Morton

/-- Stable ascending sort, modelling Rust's `Vec::sort` on packed key values. -/
def sortKeys (l : List Nat) : List Nat := List.insertionSort (· ≤ ·) l

namespace Tree

/-- Pairwise walk of `Tree::linearize_keys` in `crates/rusty-tree/src/octree.rs`:
for each consecutive pair `(a, b)` the element `a` is kept unless it is an
ancestor of `b`, and the final element is always emitted.  This helper realizes
the `tuple_windows` iteration for lists with at least one element; on a
one-element list `tuple_windows` yields no pairs, which `linearize_keys` below
accounts for. -/
def linPairs : List Nat → List Nat
  | a :: b :: rest =>
      if Morton.is_ancestor a b then linPairs (b :: rest) else a :: linPairs (b :: rest)
  | [b] => [b]
  | [] => []

/-- Mirrors `Tree::linearize_keys` in `crates/rusty-tree/src/octree.rs` (the same
code appears in `src/serial_octree.rs`).  The `tuple_windows::<((_,_),(_,_))>`
iterator yields nothing on inputs of length `< 2`, so such inputs produce the
empty output. -/
def linearize_keys (keys : List Nat) : List Nat :=
  match keys with
  | a :: b :: rest => linPairs (a :: b :: rest)
  | _ => []

/-- Iteration bound for the `complete_region` work list: each list entry `k`
contributes `9 ^ (17 - level k)`.  Popping any entry costs at least 1, and
expanding an entry of level `L ≤ 15` replaces weight `9 ^ (17 - L)` by
`8 * 9 ^ (16 - L)`, a strict decrease; the total is therefore an upper bound on
the number of loop iterations (proved below for valid inputs). -/
def crFuel (work_list : List Nat) : Nat :=
  (work_list.map (fun k => 9 ^ (17 - Morton.find_level k))).sum

/-- Work-list loop of `Tree::complete_region` in `crates/rusty-tree/src/octree.rs`:
pop an item; if it lies strictly between `a` and `b` and is not an ancestor of
`b`, emit it; otherwise, if it is an ancestor of `a` or of `b`, push its
children.  The Rust `Vec` is used as a LIFO stack (pop from the end, append
children at the end); this embedding pops from the head and pushes children at
the head — the same stack discipline up to the order in which children are
visited, which cannot influence the emitted multiset because the treatment of
each popped item depends only on the fixed ancestor sets, and the emitted list
is sorted afterwards.  `none` models a non-terminating Rust loop and is proved
unreachable for valid inputs. -/
def crLoop (a b : Nat) (a_ancestors b_ancestors : List Nat) :
    Nat → List Nat → List Nat → Option (List Nat)
  | _, [], minimal_tree => some minimal_tree
  | 0, _ :: _, _ => none
  | fuel + 1, current :: work_list, minimal_tree =>
      if a < current ∧ current < b ∧ current ∉ b_ancestors then
        crLoop a b a_ancestors b_ancestors fuel work_list (current :: minimal_tree)
      else if current ∈ a_ancestors ∨ current ∈ b_ancestors then
        crLoop a b a_ancestors b_ancestors fuel
          (Morton.children current ++ work_list) minimal_tree
      else
        crLoop a b a_ancestors b_ancestors fuel work_list minimal_tree

/-- Mirrors `Tree::complete_region` in `crates/rusty-tree/src/octree.rs`.  The
`HashSet::remove` calls on `a` and `b` are mirrored by `List.erase` (they are
no-ops, since `ancestors` never contains the key itself).  A `none` result
models a panicking or non-terminating Rust execution: `finest_ancestor` fails to
terminate when `a` is the root (its ancestor set is empty, so the climb in the
source underflows past the root), and the work-list fuel is proved sufficient
for valid inputs. -/
def complete_region (a b : Nat) : Option (List Nat) :=
  let a_ancestors := (Morton.ancestors a).erase a
  let b_ancestors := (Morton.ancestors b).erase b
  match Morton.finest_ancestor a b with
  | none => none
  | some fa =>
      match crLoop a b a_ancestors b_ancestors
          (crFuel (Morton.children fa)) (Morton.children fa) [] with
      | none => none
      | some minimal_tree => some (sortKeys minimal_tree)

/-- Modelled from the spec: bit-interleave of spec §6 ("Bits 15..62: 48-bit
interleave of three 16-bit anchor coordinates in order (x lowest of each triple,
then y, then z)"): spreads the low 16 bits of a coordinate three bits apart. -/
def specSpread : Nat → Nat → Nat
  | 0, _ => 0
  | n + 1, x => x % 2 + 8 * specSpread n (x / 2)

/-- Modelled from the spec: the packed identifier of the node with the given
anchor and level, per the bit layout of spec §6. -/
def specEncode (anchor : Nat × Nat × Nat) (level : Nat) : Nat :=
  (specSpread 16 anchor.1 + 2 * specSpread 16 anchor.2.1 + 4 * specSpread 16 anchor.2.2)
    * 2 ^ 15 + level

/-- Modelled from the spec: inverse of `specSpread`, reading every third bit. -/
def specCompress : Nat → Nat → Nat
  | 0, _ => 0
  | n + 1, w => w % 2 + 2 * specCompress n (w / 8)

/-- Modelled from the spec: the anchor carried by a key, decoded from the packed
identifier per the bit layout of spec §6. -/
def specAnchor (k : Nat) : Nat × Nat × Nat :=
  let interleave := k / 2 ^ 15
  (specCompress 16 interleave, specCompress 16 (interleave / 2), specCompress 16 (interleave / 4))

/-- Modelled from the spec: `MortonKey::find_key_in_direction` as used by the
missing `crates/rusty-tree/src/types/morton.rs` (only `src/morton.rs` is
available, and its copy bounds the shifted anchor by `1 << level`; spec §4.A
fixes the contract as "returns the key of the node at the same level obtained by
shifting the anchor by `d[i] · 2^(DEEPEST_LEVEL − level)` along each axis;
returns none if any shifted anchor leaves `[0, 2¹⁶)`"). -/
def spec_find_key_in_direction (k : Nat) (direction : Int × Int × Int) : Option Nat :=
  let level := Morton.find_level k
  let step_multiplier : Int := 1 <<< (Morton.DEEPEST_LEVEL - level)
  let anchor := specAnchor k
  let x : Int := (anchor.1 : Int) + step_multiplier * direction.1
  let y : Int := (anchor.2.1 : Int) + step_multiplier * direction.2.1
  let z : Int := (anchor.2.2 : Int) + step_multiplier * direction.2.2
  if 0 ≤ x ∧ 0 ≤ y ∧ 0 ≤ z ∧
      x < (Morton.LEVEL_SIZE : Int) ∧ y < (Morton.LEVEL_SIZE : Int) ∧
      z < (Morton.LEVEL_SIZE : Int) then
    some (specEncode (x.toNat, y.toNat, z.toNat) level)
  else
    none

/-- The 26 non-zero unit directions, each coordinate in `{-1, 0, 1}`. -/
def spec_directions : List (Int × Int × Int) :=
  (([-1, 0, 1] : List Int).flatMap fun i =>
    (([-1, 0, 1] : List Int).flatMap fun j =>
      (([-1, 0, 1] : List Int).map fun l => (i, j, l)))).filter
    (fun d => d ≠ ((0 : Int), (0 : Int), (0 : Int)))

/-- Modelled from the spec: `MortonKey::neighbors` (not under `src/`): "The 26
unit directions (excluding zero) yield the face/edge/corner neighbor set
`neighbors(k)`" (spec §4.A). -/
def neighbors (k : Nat) : List Nat :=
  spec_directions.filterMap (spec_find_key_in_direction k)

/-- `HashSet::insert`: append the element if it is not yet present. -/
def balanceInsert (s : List Nat) (k : Nat) : List Nat := if k ∈ s then s else s ++ [k]

/-- Body of the inner neighbor loop of `Tree::balance` in
`crates/rusty-tree/src/octree.rs`, including the source's duplicated condition
`!balanced.contains(&neighbor) && !balanced.contains(&neighbor)`. -/
def balanceKeyStep (s : List Nat) (key : Nat) : List Nat :=
  (neighbors key).foldl
    (fun s neighbor =>
      let parent := Morton.parent neighbor
      if neighbor ∉ s ∧ neighbor ∉ s then
        let s := balanceInsert s parent
        if 0 < Morton.find_level parent then (Morton.siblings parent).foldl balanceInsert s
        else s
      else s)
    s

/-- One level of `Tree::balance`: the work list is the set of keys currently at
this level, computed before the inner loop runs.  The inner loop only inserts
keys one level coarser, so membership tests on same-level neighbors are
unaffected by the iteration order of the Rust `HashSet`; the resulting set is
therefore order-independent and a list with set semantics is a faithful model. -/
def balanceLevelStep (s : List Nat) (level : Nat) : List Nat :=
  (s.filter (fun key => Morton.find_level key = level)).foldl balanceKeyStep s

/-- Mirrors `Tree::balance` in `crates/rusty-tree/src/octree.rs` (lines 95-128):
levels are processed from `DEEPEST_LEVEL - 1` down to 0 (`(0..DEEPEST_LEVEL)
.rev()`), then the accumulated set is sorted and linearized.  Uses the
spec-modelled `neighbors`. -/
def balance (keys : List Nat) : List Nat :=
  let balanced := keys.foldl balanceInsert []
  let balanced := ((List.range Morton.DEEPEST_LEVEL).reverse).foldl balanceLevelStep balanced
  linearize_keys (sortKeys balanced)

end Tree

namespace DistributedTree

/-- Constant `NCRIT` from `crates/rusty-tree/src/constants.rs`. -/
def NCRIT : Nat := 150

/-- Lookup in an association-list model of `HashMap<MortonKey, MortonKey>`. -/
def lookupMap (map : List (Nat × Nat)) (k : Nat) : Option Nat :=
  (map.find? (fun p => p.1 == k)).map (fun p => p.2)

/-- `HashMap::insert`: replace the binding for `k` if present, else append it. -/
def mapInsert (map : List (Nat × Nat)) (k v : Nat) : List (Nat × Nat) :=
  if map.any (fun p => p.1 == k) then
    map.map (fun p => if p.1 == k then (k, v) else p)
  else map ++ [(k, v)]

/-- Mirrors `DistributedTree::assign_nodes_to_leaves` in
`crates/rusty-tree/src/distributed.rs`: each leaf that is itself a node maps to
itself; otherwise its ancestors are sorted ascending (coarsest first, since an
ancestor's packed value is smaller than its descendants') and the first ancestor
contained in the node set is taken (`break`); leaves with no containing node are
skipped.  The `HashMap` is modelled as an association list built in leaf order;
the bound value is a function of the leaf key alone, so hash-iteration order is
immaterial. -/
def assign_nodes_to_leaves (leaves nodes : List Nat) : List (Nat × Nat) :=
  leaves.foldl
    (fun map leaf =>
      if leaf ∈ nodes then mapInsert map leaf leaf
      else
        match (sortKeys (Morton.ancestors leaf)).find? (fun ancestor => nodes.contains ancestor) with
        | some ancestor => mapInsert map leaf ancestor
        | none => map)
    []

/-- The `blocks_to_npoints` counting map of `DistributedTree::split_blocks`:
insert 1 for a vacant entry, else increment. -/
def bumpCount (counts : List (Nat × Nat)) (block : Nat) : List (Nat × Nat) :=
  if counts.any (fun p => p.1 == block) then
    counts.map (fun p => if p.1 == block then (p.1, p.2 + 1) else p)
  else counts ++ [(block, 1)]

/-- One-or-more rounds of the refinement loop of `DistributedTree::split_blocks`
in `crates/rusty-tree/src/distributed.rs`: count the distinct map entries per
block (`for (_, block) in blocks_to_leaves`, one entry per distinct leaf key);
blocks holding more than `NCRIT` entries are replaced by their eight children,
the rest are kept and counted in `check`; the loop stops when every block was
kept and returns the assignment of leaves to the final block list.  `none`
models a non-terminating Rust loop.  The iteration order of the Rust `HashMap`s
only permutes `new_blocktree` and the count list, neither of which affects the
resulting map, which is keyed deterministically by leaf. -/
def splitLoop (leaves : List Nat) : Nat → List Nat → Option (List (Nat × Nat))
  | 0, _ => none
  | fuel + 1, blocktree =>
      let blocks_to_leaves := assign_nodes_to_leaves leaves blocktree
      let blocks_to_npoints := blocks_to_leaves.foldl (fun counts p => bumpCount counts p.2) []
      let new_blocktree := blocks_to_npoints.foldl
        (fun nt p => if NCRIT < p.2 then nt ++ Morton.children p.1 else nt ++ [p.1]) []
      let check := (blocks_to_npoints.filter (fun p => ¬ NCRIT < p.2)).length
      if check = blocks_to_npoints.length then
        some (assign_nodes_to_leaves leaves new_blocktree)
      else
        splitLoop leaves fuel new_blocktree

/-- Mirrors `DistributedTree::split_blocks`.  The fuel `16 * leaves.length + 1`
bounds the number of refinement rounds: every round that does not stop moves at
least one distinct leaf's assigned block at least one level deeper, and levels
are bounded by 16. -/
def split_blocks (leaves blocktree : List Nat) : Option (List (Nat × Nat)) :=
  splitLoop leaves (16 * leaves.length + 1) blocktree

/-- Phase 7.i/7.ii fragment of `DistributedTree::balanced_tree` in
`crates/rusty-tree/src/distributed.rs` (lines 392-414), embedded verbatim: the
local block list is the list of values of the `split_blocks` map; `balance()` is
called on it and its returned tree is **discarded** (the source reads
`linearized.balance();` and never uses the result), after which the points are
assigned via `assign_nodes_to_leaves` against the *unbalanced* block list. -/
def phase78_map (unbalanced_tree : List (Nat × Nat)) (point_keys : List Nat) :
    List (Nat × Nat) :=
  let linearized_keys := unbalanced_tree.map (fun p => p.2)
  let _balanced := Tree.balance linearized_keys
  assign_nodes_to_leaves point_keys linearized_keys

end DistributedTree

namespace Morton

theorem lvl_lt (k : Nat) : lvl k < 2 ^ 15 := Nat.mod_lt _ (by norm_num)

theorem key_eq (k : Nat) : k = idx k * 2 ^ 15 + lvl k := by
  rw [lvl, idx, Nat.mul_comm]
  exact (Nat.div_add_mod k (2 ^ 15)).symm

theorem find_level_eq (k : Nat) : find_level k = lvl k := by
  show k &&& LEVEL_MASK = k % 2 ^ 15
  have h : LEVEL_MASK = 2 ^ 15 - 1 := by norm_num [LEVEL_MASK]
  rw [h, Nat.and_pow_two_sub_one_eq_mod]

theorem shiftLeft_or_eq_add (a n : Nat) {b : Nat} (h : b < 2 ^ n) :
    (a <<< n) ||| b = a * 2 ^ n + b := by
  rw [Nat.shiftLeft_eq, Nat.mul_comm a (2 ^ n)]
  exact (Nat.mul_add_lt_is_or h a).symm

theorem lvl_of_form {A r : Nat} (h : r < 2 ^ 15) : lvl (A * 2 ^ 15 + r) = r := by
  unfold lvl; omega

theorem idx_of_form {A r : Nat} (h : r < 2 ^ 15) : idx (A * 2 ^ 15 + r) = A := by
  unfold idx; omega

/-- Truncation of a key to level `j`: the interleave bits below level `j` are
zeroed and the stored level is `j`.  This is the arithmetic normal form of the
parent-chain computations in `src/morton.rs`. -/
def trunc (k j : Nat) : Nat :=
  idx k / 2 ^ (3 * (16 - j)) * 2 ^ (3 * (16 - j)) * 2 ^ 15 + j

theorem lvl_trunc {j : Nat} (k : Nat) (h : j < 2 ^ 15) : lvl (trunc k j) = j :=
  lvl_of_form h

theorem idx_trunc {j : Nat} (k : Nat) (h : j < 2 ^ 15) :
    idx (trunc k j) = idx k / 2 ^ (3 * (16 - j)) * 2 ^ (3 * (16 - j)) :=
  idx_of_form h

theorem div_mul_div_mul {a : Nat} {s t : Nat} (h : s ≤ t) :
    a / 2 ^ s * 2 ^ s / 2 ^ t * 2 ^ t = a / 2 ^ t * 2 ^ t := by
  have h2 : (2 : Nat) ^ t = 2 ^ s * 2 ^ (t - s) := by
    rw [← pow_add]; congr 1; omega
  rw [h2, ← Nat.div_div_eq_div_mul, Nat.mul_div_cancel _ (Nat.two_pow_pos s),
    ← Nat.div_div_eq_div_mul]

theorem trunc_trunc {j j' : Nat} (k : Nat) (hj : j ≤ j') (hj' : j' < 2 ^ 15) :
    trunc (trunc k j') j = trunc k j := by
  show idx (trunc k j') / 2 ^ (3 * (16 - j)) * 2 ^ (3 * (16 - j)) * 2 ^ 15 + j = _
  rw [idx_trunc k hj', div_mul_div_mul (by omega : 3 * (16 - j') ≤ 3 * (16 - j))]
  rfl

theorem parent_eq (k : Nat) : parent k = trunc k (lvl k - 1) := by
  show (((k >>> 15) >>> (3 * (16 - (find_level k - 1))))
      <<< (3 * (16 - (find_level k - 1))) <<< 15)
      ||| (find_level k - 1) = trunc k (lvl k - 1)
  rw [find_level_eq]
  have hr : lvl k - 1 < 2 ^ 15 := lt_of_le_of_lt (Nat.sub_le _ _) (lvl_lt k)
  rw [shiftLeft_or_eq_add _ _ hr]
  rw [Nat.shiftRight_eq_div_pow, Nat.shiftRight_eq_div_pow, Nat.shiftLeft_eq]
  rfl

theorem lvl_parent (k : Nat) : lvl (parent k) = lvl k - 1 := by
  rw [parent_eq]
  exact lvl_trunc k (lt_of_le_of_lt (Nat.sub_le _ _) (lvl_lt k))

theorem ancestorsGo_eq (n : Nat) : ∀ k, n = lvl k →
    ancestorsGo n k = (List.range n).reverse.map (trunc k) := by
  induction n with
  | zero => intro k _; simp [ancestorsGo]
  | succ n ih =>
      intro k hk
      have hpl : lvl (parent k) = n := by rw [lvl_parent, ← hk]; omega
      have hlt : lvl k - 1 < 2 ^ 15 := lt_of_le_of_lt (Nat.sub_le _ _) (lvl_lt k)
      have hn : n = lvl k - 1 := by omega
      show parent k :: ancestorsGo n (parent k) = _
      rw [ih (parent k) hpl.symm]
      rw [List.range_succ, List.reverse_append]
      simp only [List.reverse_cons, List.reverse_nil, List.nil_append, List.cons_append,
        List.map_cons]
      have hhead : parent k = trunc k n := by rw [parent_eq, hn]
      have hmap : (List.range n).reverse.map (trunc (parent k))
          = (List.range n).reverse.map (trunc k) := by
        refine List.map_congr_left (fun j hj => ?_)
        have hjn : j < n := List.mem_range.mp (List.mem_reverse.mp hj)
        rw [parent_eq, trunc_trunc k (by omega) hlt]
      rw [hmap, hhead]

theorem ancestors_eq (k : Nat) :
    ancestors k = (List.range (lvl k)).reverse.map (trunc k) := by
  rw [ancestors, find_level_eq]
  exact ancestorsGo_eq (lvl k) k rfl

theorem mem_ancestors {a k : Nat} : a ∈ ancestors k ↔ ∃ j, j < lvl k ∧ a = trunc k j := by
  rw [ancestors_eq]
  simp only [List.mem_map, List.mem_reverse, List.mem_range]
  constructor
  · rintro ⟨j, hj, rfl⟩; exact ⟨j, hj, rfl⟩
  · rintro ⟨j, hj, rfl⟩; exact ⟨j, hj, rfl⟩

theorem is_ancestor_mem {a k : Nat} : is_ancestor a k = true ↔ a ∈ ancestors k := by
  simp [is_ancestor]

theorem is_ancestor_iff {a k : Nat} :
    is_ancestor a k = true ↔ ∃ j, j < lvl k ∧ a = trunc k j := by
  rw [is_ancestor_mem]; exact mem_ancestors

theorem trunc_valid {k : Nat} (hk : ValidKey k) {j : Nat} (hj : j ≤ 16) :
    ValidKey (trunc k j) := by
  obtain ⟨h1, h2, h3⟩ := hk
  have hj15 : j < 2 ^ 15 := by omega
  refine ⟨?_, ?_, ?_⟩
  · rw [lvl_trunc k hj15]; exact hj
  · rw [idx_trunc k hj15]
    exact lt_of_le_of_lt (Nat.div_mul_le_self _ _) h2
  · rw [idx_trunc k hj15, lvl_trunc k hj15]
    exact Nat.mul_mod_left _ _

theorem mem_ancestors_valid {a k : Nat} (hk : ValidKey k) (ha : a ∈ ancestors k) :
    ValidKey a ∧ lvl a < lvl k := by
  obtain ⟨j, hj, rfl⟩ := mem_ancestors.mp ha
  have hj15 : j < 2 ^ 15 := lt_trans hj (lvl_lt k)
  have hk1 := hk.1
  exact ⟨trunc_valid hk (by omega : j ≤ 16), by rw [lvl_trunc k hj15]; exact hj⟩

theorem idx_mul_self {k : Nat} (hk : ValidKey k) :
    idx k / 2 ^ (3 * (16 - lvl k)) * 2 ^ (3 * (16 - lvl k)) = idx k :=
  Nat.div_mul_cancel (Nat.dvd_of_mod_eq_zero hk.2.2)

/-- Arithmetic characterization of `is_ancestor` on valid keys: `a` is a strict
ancestor of `b` iff its level is strictly smaller and its interleave part is the
level-`lvl a` truncation of `b`'s. -/
theorem is_ancestor_arith {a b : Nat} (ha : ValidKey a) (hb : ValidKey b) :
    is_ancestor a b = true ↔
      lvl a < lvl b ∧
        idx b / 2 ^ (3 * (16 - lvl a)) * 2 ^ (3 * (16 - lvl a)) = idx a := by
  rw [is_ancestor_iff]
  constructor
  · rintro ⟨j, hj, rfl⟩
    have hj15 : j < 2 ^ 15 := lt_trans hj (lvl_lt b)
    rw [lvl_trunc b hj15, idx_trunc b hj15]
    exact ⟨hj, rfl⟩
  · rintro ⟨hlt, hidx⟩
    refine ⟨lvl a, hlt, ?_⟩
    rw [trunc, hidx]
    exact key_eq a

theorem packed_lt_iff {k₁ k₂ : Nat} :
    k₁ < k₂ ↔ idx k₁ < idx k₂ ∨ (idx k₁ = idx k₂ ∧ lvl k₁ < lvl k₂) := by
  have e₁ := key_eq k₁
  have e₂ := key_eq k₂
  have l₁ := lvl_lt k₁
  have l₂ := lvl_lt k₂
  omega

theorem lt_of_is_ancestor {a b : Nat} (ha : ValidKey a) (hb : ValidKey b)
    (h : is_ancestor a b = true) : a < b := by
  obtain ⟨hlt, hidx⟩ := (is_ancestor_arith ha hb).mp h
  have hle : idx a ≤ idx b := by
    rw [← hidx]; exact Nat.div_mul_le_self _ _
  rcases Nat.lt_or_ge (idx a) (idx b) with hcase | hcase
  · exact packed_lt_iff.mpr (Or.inl hcase)
  · exact packed_lt_iff.mpr (Or.inr ⟨by omega, hlt⟩)

theorem not_is_ancestor_self (a : Nat) : ¬ is_ancestor a a = true := by
  intro h
  obtain ⟨j, hj, hEq⟩ := is_ancestor_iff.mp h
  have hj15 : j < 2 ^ 15 := lt_trans hj (lvl_lt a)
  have : lvl a = j := by rw [hEq, lvl_trunc a hj15]
  omega

/-- The Morton-order interval property: every valid key strictly between a valid
ancestor `a` of `c` and `c` itself is also a strict descendant of `a`. -/
theorem is_ancestor_of_between {a b c : Nat} (ha : ValidKey a) (hb : ValidKey b)
    (hc : ValidKey c) (hac : is_ancestor a c = true) (h₁ : a < b) (h₂ : b < c) :
    is_ancestor a b = true := by
  obtain ⟨hlt, hidx⟩ := (is_ancestor_arith ha hc).mp hac
  set s := 3 * (16 - lvl a) with hs
  have hab : idx a ≤ idx b := by
    rcases packed_lt_iff.mp h₁ with h | h
    · exact Nat.le_of_lt h
    · omega
  have hbc : idx b ≤ idx c := by
    rcases packed_lt_iff.mp h₂ with h | h
    · exact Nat.le_of_lt h
    · omega
  have hcu : idx c < idx a + 2 ^ s := by
    have hdm : idx c / 2 ^ s * 2 ^ s + idx c % 2 ^ s = idx c := Nat.div_add_mod' _ _
    have hmod : idx c % 2 ^ s < 2 ^ s := Nat.mod_lt _ (Nat.two_pow_pos s)
    omega
  have hamod : idx a % 2 ^ s = 0 := by
    rw [← hidx]; exact Nat.mul_mod_left _ _
  have hbtr : idx b / 2 ^ s * 2 ^ s = idx a := by
    have hdiva : idx a / 2 ^ s * 2 ^ s = idx a := Nat.div_mul_cancel (Nat.dvd_of_mod_eq_zero hamod)
    have h1 : idx a / 2 ^ s ≤ idx b / 2 ^ s := Nat.div_le_div_right hab
    have h2 : idx b / 2 ^ s ≤ idx a / 2 ^ s := by
      have : idx b < (idx a / 2 ^ s + 1) * 2 ^ s := by
        rw [Nat.add_mul, Nat.one_mul, hdiva]; omega
      have := Nat.div_lt_iff_lt_mul (Nat.two_pow_pos s) |>.mpr this
      omega
    have : idx b / 2 ^ s = idx a / 2 ^ s := Nat.le_antisymm h2 h1
    rw [this, hdiva]
  have hlab : lvl a < lvl b := by
    by_contra hcon
    push_neg at hcon
    have hsmall : 3 * (16 - lvl b) ≥ s := by
      rw [hs]; omega
    have hdvd : (2 : Nat) ^ s ∣ idx b :=
      dvd_trans (pow_dvd_pow 2 hsmall) (Nat.dvd_of_mod_eq_zero hb.2.2)
    have hbself : idx b / 2 ^ s * 2 ^ s = idx b := Nat.div_mul_cancel hdvd
    have hbeq : idx b = idx a := by rw [← hbself, hbtr]
    rcases packed_lt_iff.mp h₁ with h | h
    · omega
    · omega
  exact (is_ancestor_arith ha hb).mpr ⟨hlab, hbtr⟩

theorem mul_pow_add_div {A r n : Nat} (h : r < 2 ^ n) : (A * 2 ^ n + r) / 2 ^ n = A := by
  rw [Nat.mul_comm A (2 ^ n), Nat.mul_add_div (Nat.two_pow_pos n), Nat.div_eq_of_lt h]
  rfl

theorem children_eq {k : Nat} (hk : ValidKey k) (hlvl : lvl k ≤ 15) :
    children k = (List.range 8).map
      (fun i => (idx k + i * 2 ^ (3 * (15 - lvl k))) * 2 ^ 15 + (lvl k + 1)) := by
  unfold children
  simp only [DEEPEST_LEVEL, LEVEL_DISPLACEMENT, find_level_eq]
  refine List.map_congr_left (fun i hi => ?_)
  have hi8 : i < 8 := List.mem_range.mp hi
  have hbs : 3 * (16 - lvl k - 1) = 3 * (15 - lvl k) := by omega
  rw [hbs]
  have hq : 2 ^ (3 * (15 - lvl k) + 3) * (idx k / 2 ^ (3 * (16 - lvl k))) = idx k := by
    have h1 : 3 * (16 - lvl k) = 3 * (15 - lvl k) + 3 := by omega
    rw [← h1, Nat.mul_comm]
    exact idx_mul_self hk
  have hb : i * 2 ^ (3 * (15 - lvl k)) < 2 ^ (3 * (15 - lvl k) + 3) := by
    rw [pow_add]
    calc i * 2 ^ (3 * (15 - lvl k)) < 8 * 2 ^ (3 * (15 - lvl k)) :=
          (Nat.mul_lt_mul_right (Nat.two_pow_pos _)).mpr hi8
      _ = 2 ^ (3 * (15 - lvl k)) * 2 ^ 3 := by ring
  have key : (k >>> 15) ||| i <<< (3 * (15 - lvl k)) = idx k + i * 2 ^ (3 * (15 - lvl k)) := by
    rw [Nat.shiftRight_eq_div_pow, Nat.shiftLeft_eq]
    show idx k ||| i * 2 ^ (3 * (15 - lvl k)) = idx k + i * 2 ^ (3 * (15 - lvl k))
    rw [← hq]
    exact (Nat.mul_add_lt_is_or hb _).symm
  rw [key, shiftLeft_or_eq_add _ _ (show lvl k + 1 < 2 ^ 15 by omega)]

theorem mem_children {k x : Nat} (hk : ValidKey k) (hlvl : lvl k ≤ 15) :
    x ∈ children k ↔
      ∃ i, i < 8 ∧ x = (idx k + i * 2 ^ (3 * (15 - lvl k))) * 2 ^ 15 + (lvl k + 1) := by
  rw [children_eq hk hlvl]
  simp only [List.mem_map, List.mem_range]
  constructor
  · rintro ⟨i, hi, rfl⟩; exact ⟨i, hi, rfl⟩
  · rintro ⟨i, hi, rfl⟩; exact ⟨i, hi, rfl⟩

theorem child_facts {k x : Nat} (hk : ValidKey k) (hlvl : lvl k ≤ 15)
    (hx : x ∈ children k) :
    lvl x = lvl k + 1 ∧ ValidKey x ∧ parent x = k := by
  obtain ⟨i, hi8, rfl⟩ := (mem_children hk hlvl).mp hx
  set bs := 3 * (15 - lvl k) with hbs
  have h15 : lvl k + 1 < 2 ^ 15 := by omega
  have hlv : lvl ((idx k + i * 2 ^ bs) * 2 ^ 15 + (lvl k + 1)) = lvl k + 1 := lvl_of_form h15
  have hix : idx ((idx k + i * 2 ^ bs) * 2 ^ 15 + (lvl k + 1)) = idx k + i * 2 ^ bs :=
    idx_of_form h15
  have hsplit : 3 * (16 - lvl k) = bs + 3 := by rw [hbs]; omega
  have hqq : idx k = idx k / 2 ^ (3 * (16 - lvl k)) * 2 ^ (3 * (16 - lvl k)) :=
    (idx_mul_self hk).symm
  have hblt : i * 2 ^ bs < 2 ^ (3 * (16 - lvl k)) := by
    rw [hsplit, pow_add]
    calc i * 2 ^ bs < 8 * 2 ^ bs := (Nat.mul_lt_mul_right (Nat.two_pow_pos _)).mpr hi8
      _ = 2 ^ bs * 2 ^ 3 := by ring
  have htr : (idx k + i * 2 ^ bs) / 2 ^ (3 * (16 - lvl k)) * 2 ^ (3 * (16 - lvl k)) = idx k := by
    conv_lhs => rw [hqq]
    rw [mul_pow_add_div hblt]
    exact hqq.symm
  have hvalid : ValidKey ((idx k + i * 2 ^ bs) * 2 ^ 15 + (lvl k + 1)) := by
    refine ⟨?_, ?_, ?_⟩
    · rw [hlv]; omega
    · rw [hix]
      have h48 : (2 : Nat) ^ 48 = 2 ^ (48 - (bs + 3)) * 2 ^ (bs + 3) := by
        rw [← pow_add]; congr 1; rw [hbs]; omega
      have hqlt : idx k / 2 ^ (3 * (16 - lvl k)) < 2 ^ (48 - (bs + 3)) := by
        by_contra hcon
        push_neg at hcon
        have : 2 ^ (48 - (bs + 3)) * 2 ^ (bs + 3) ≤
            idx k / 2 ^ (3 * (16 - lvl k)) * 2 ^ (bs + 3) :=
          Nat.mul_le_mul_right _ hcon
        have hik : idx k / 2 ^ (3 * (16 - lvl k)) * 2 ^ (bs + 3) = idx k := by
          rw [← hsplit]; exact idx_mul_self hk
        have := hk.2.1
        omega
      calc idx k + i * 2 ^ bs
          < idx k / 2 ^ (3 * (16 - lvl k)) * 2 ^ (bs + 3) + 2 ^ (bs + 3) := by
            have hik : idx k / 2 ^ (3 * (16 - lvl k)) * 2 ^ (bs + 3) = idx k := by
              rw [← hsplit]; exact idx_mul_self hk
            rw [hik, hsplit] at *
            omega
        _ = (idx k / 2 ^ (3 * (16 - lvl k)) + 1) * 2 ^ (bs + 3) := by ring
        _ ≤ 2 ^ (48 - (bs + 3)) * 2 ^ (bs + 3) := Nat.mul_le_mul_right _ (by omega)
        _ = 2 ^ 48 := h48.symm
    · rw [hix, hlv]
      have hb3 : 3 * (16 - (lvl k + 1)) = bs := by rw [hbs]; omega
      rw [hb3]
      have hd1 : (2 : Nat) ^ bs ∣ idx k := by
        refine dvd_trans (pow_dvd_pow 2 (by omega : bs ≤ 3 * (16 - lvl k))) ?_
        exact Nat.dvd_of_mod_eq_zero hk.2.2
      have hd2 : (2 : Nat) ^ bs ∣ i * 2 ^ bs := Dvd.intro_left i rfl
      exact Nat.mod_eq_zero_of_dvd (dvd_add hd1 hd2)
  refine ⟨hlv, hvalid, ?_⟩
  rw [parent_eq, hlv]
  show trunc _ (lvl k + 1 - 1) = k
  have hll : lvl k + 1 - 1 = lvl k := by omega
  rw [hll, trunc, hix, htr]
  exact (key_eq k).symm

theorem ancestors_child {k x : Nat} (hk : ValidKey k) (hlvl : lvl k ≤ 15)
    (hx : x ∈ children k) : ancestors x = k :: ancestors k := by
  obtain ⟨hlv, _, hpc⟩ := child_facts hk hlvl hx
  rw [ancestors, find_level_eq, hlv]
  show parent x :: ancestorsGo (lvl k) (parent x) = _
  rw [hpc, ancestors, find_level_eq]

theorem is_ancestor_child_iff {k x u : Nat} (hk : ValidKey k) (hlvl : lvl k ≤ 15)
    (hx : x ∈ children k) :
    is_ancestor u x = true ↔ u = k ∨ is_ancestor u k = true := by
  rw [is_ancestor_mem, is_ancestor_mem, ancestors_child hk hlvl hx, List.mem_cons]

theorem is_ancestor_parent {x u : Nat} (hx : 1 ≤ lvl x)
    (h : is_ancestor x u = true) : is_ancestor (parent x) u = true := by
  obtain ⟨j, hj, rfl⟩ := is_ancestor_iff.mp h
  have hj15 : j < 2 ^ 15 := lt_trans hj (lvl_lt u)
  have hlx : lvl (trunc u j) = j := lvl_trunc u hj15
  rw [hlx] at hx
  rw [parent_eq, hlx, trunc_trunc u (by omega) hj15]
  exact is_ancestor_iff.mpr ⟨j - 1, by omega, rfl⟩

theorem lvl_mem_children {k x : Nat} (hk : ValidKey k) (hlvl : lvl k ≤ 15)
    (hx : x ∈ children k) : lvl x = lvl k + 1 :=
  (child_facts hk hlvl hx).1

theorem valid_mem_children {k x : Nat} (hk : ValidKey k) (hlvl : lvl k ≤ 15)
    (hx : x ∈ children k) : ValidKey x :=
  (child_facts hk hlvl hx).2.1

theorem not_anc_of_lvl_eq {u v : Nat} (h : lvl u = lvl v) : is_ancestor u v = false := by
  rw [Bool.eq_false_iff]
  intro hanc
  obtain ⟨j, hj, hEq⟩ := is_ancestor_iff.mp hanc
  have hj15 : j < 2 ^ 15 := lt_trans hj (lvl_lt v)
  have : lvl u = j := by rw [hEq, lvl_trunc v hj15]
  omega

theorem children_pairwise_ne {k : Nat} (hk : ValidKey k) (hlvl : lvl k ≤ 15) :
    (children k).Pairwise (fun u v => u ≠ v) := by
  rw [children_eq hk hlvl]
  refine List.Pairwise.map _ ?_ (List.pairwise_lt_range 8)
  intro a b hab hEq
  have hinj : a * 2 ^ (3 * (15 - lvl k)) = b * 2 ^ (3 * (15 - lvl k)) := by
    have h1 := lvl_lt k
    omega
  have := Nat.eq_of_mul_eq_mul_right (Nat.two_pow_pos (3 * (15 - lvl k))) hinj
  omega

/-- Two containing nodes of the same key are comparable: equal or one is a
strict ancestor of the other. -/
theorem containers_comparable {u v l : Nat} (hu : ValidKey u) (hv : ValidKey v)
    (hl : ValidKey l) (hcu : u = l ∨ is_ancestor u l = true)
    (hcv : v = l ∨ is_ancestor v l = true) :
    u = v ∨ is_ancestor u v = true ∨ is_ancestor v u = true := by
  rcases hcu with rfl | hu'
  · rcases hcv with rfl | hv'
    · exact Or.inl rfl
    · exact Or.inr (Or.inr hv')
  · rcases hcv with rfl | hv'
    · exact Or.inr (Or.inl hu')
    · obtain ⟨hul, huidx⟩ := (is_ancestor_arith hu hl).mp hu'
      obtain ⟨hvl, hvidx⟩ := (is_ancestor_arith hv hl).mp hv'
      rcases Nat.lt_trichotomy (lvl u) (lvl v) with hc | hc | hc
      · refine Or.inr (Or.inl ((is_ancestor_arith hu hv).mpr ⟨hc, ?_⟩))
        rw [← hvidx, div_mul_div_mul (by omega : 3 * (16 - lvl v) ≤ 3 * (16 - lvl u)), huidx]
      · refine Or.inl ?_
        have : idx u = idx v := by rw [← huidx, ← hvidx, hc]
        have e1 := key_eq u
        have e2 := key_eq v
        omega
      · refine Or.inr (Or.inr ((is_ancestor_arith hv hu).mpr ⟨hc, ?_⟩))
        rw [← huidx, div_mul_div_mul (by omega : 3 * (16 - lvl u) ≤ 3 * (16 - lvl v)), hvidx]

end Morton


namespace Tree

theorem linPairs_sublist : ∀ l : List Nat, List.Sublist (linPairs l) l
  | [] => List.Sublist.refl []
  | [b] => List.Sublist.refl [b]
  | a :: b :: rest => by
      rw [linPairs]
      split
      · exact List.Sublist.cons a (linPairs_sublist (b :: rest))
      · exact List.Sublist.cons₂ a (linPairs_sublist (b :: rest))

theorem linPairs_ne_nil : ∀ (b : Nat) (rest : List Nat), linPairs (b :: rest) ≠ []
  | _, [] => by simp [linPairs]
  | a, b :: rest => by
      rw [linPairs]
      split
      · exact linPairs_ne_nil b rest
      · simp

theorem linPairs_getLast? : ∀ l : List Nat, (linPairs l).getLast? = l.getLast?
  | [] => rfl
  | [_] => rfl
  | a :: b :: rest => by
      rw [linPairs]
      have ih := linPairs_getLast? (b :: rest)
      have hne := linPairs_ne_nil b rest
      split
      · rw [ih, List.getLast?_cons_cons]
      · obtain ⟨c, t', ht⟩ := List.exists_cons_of_ne_nil hne
        rw [ht, List.getLast?_cons_cons, ← ht, ih, List.getLast?_cons_cons]

theorem linPairs_antichain : ∀ l : List Nat, (∀ k ∈ l, Morton.ValidKey k) →
    List.Pairwise (· < ·) l →
    ∀ u ∈ linPairs l, ∀ v ∈ linPairs l, Morton.is_ancestor u v = false
  | [], _, _ => by simp [linPairs]
  | [b], _, _ => by
      simp only [linPairs, List.mem_singleton]
      intro u hu v hv
      subst hu; subst hv
      exact Bool.eq_false_iff.mpr (Morton.not_is_ancestor_self _)
  | a :: b :: rest, hvalid, hsorted => by
      have hvt : ∀ k ∈ b :: rest, Morton.ValidKey k :=
        fun k hk => hvalid k (List.mem_cons_of_mem a hk)
      have hst : List.Pairwise (· < ·) (b :: rest) := hsorted.of_cons
      have ih := linPairs_antichain (b :: rest) hvt hst
      have hsub : ∀ x ∈ linPairs (b :: rest), x ∈ b :: rest :=
        fun x hx => (linPairs_sublist (b :: rest)).subset hx
      have hva : Morton.ValidKey a := hvalid a (List.mem_cons_self a _)
      have hab : a < b := List.rel_of_pairwise_cons hsorted (List.mem_cons_self b rest)
      rw [linPairs]
      split
      · exact ih
      · rename_i hnab
        have haLtTail : ∀ x ∈ b :: rest, a < x := by
          intro x hx
          rcases List.mem_cons.mp hx with hper | hxrest
          · subst hper; exact hab
          · exact lt_trans hab (List.rel_of_pairwise_cons hst hxrest)
        have haNotAncTail : ∀ x ∈ b :: rest, Morton.is_ancestor a x = false := by
          intro x hx
          rcases List.mem_cons.mp hx with hper | hxrest
          · subst hper; exact Bool.eq_false_iff.mpr hnab
          · by_contra hcon
            rw [Bool.not_eq_false] at hcon
            have hbv : b < x := List.rel_of_pairwise_cons hst hxrest
            have hvb : Morton.ValidKey b := hvt b (List.mem_cons_self b rest)
            have hvv : Morton.ValidKey x := hvt x hx
            exact hnab (Morton.is_ancestor_of_between hva hvb hvv hcon hab hbv)
        intro u hu v hv
        rcases List.mem_cons.mp hu with hu0 | hu'
        · subst hu0
          rcases List.mem_cons.mp hv with hv0 | hv'
          · subst hv0
            exact Bool.eq_false_iff.mpr (Morton.not_is_ancestor_self _)
          · exact haNotAncTail v (hsub v hv')
        · rcases List.mem_cons.mp hv with hv0 | hv'
          · subst hv0
            by_contra hcon
            rw [Bool.not_eq_false] at hcon
            have hau : v < u := haLtTail u (hsub u hu')
            have hvu : Morton.ValidKey u := hvt u (hsub u hu')
            have := Morton.lt_of_is_ancestor hvu hva hcon
            omega
          · exact ih u hu' v hv'

theorem linearize_keys_sublist (keys : List Nat) : List.Sublist (linearize_keys keys) keys := by
  match keys with
  | [] => exact List.Sublist.refl _
  | [x] => exact List.nil_sublist _
  | a :: b :: rest => exact linPairs_sublist (a :: b :: rest)

end Tree


namespace Morton

theorem parent_valid {k : Nat} (hk : ValidKey k) : ValidKey (parent k) := by
  rw [parent_eq]
  exact trunc_valid hk (by have := hk.1; omega)

theorem trunc_zero {k : Nat} (hk : ValidKey k) : trunc k 0 = 0 := by
  have h48 : 3 * (16 - 0) = 48 := by norm_num
  have h : idx k / 2 ^ (3 * (16 - 0)) = 0 := by
    rw [h48]; exact Nat.div_eq_of_lt hk.2.1
  rw [trunc, h]
  simp

theorem root_mem_ancestors {k : Nat} (hk : ValidKey k) (h1 : 1 ≤ lvl k) :
    (0 : Nat) ∈ ancestors k :=
  mem_ancestors.mpr ⟨0, by omega, (trunc_zero hk).symm⟩

theorem not_mem_ancestors_self (k : Nat) : k ∉ ancestors k := by
  intro h
  exact not_is_ancestor_self k (is_ancestor_mem.mpr h)

theorem erase_ancestors_self (k : Nat) : (ancestors k).erase k = ancestors k :=
  List.erase_of_not_mem (not_mem_ancestors_self k)

theorem finestAncestorGo_mem {aanc : List Nat} :
    ∀ fuel c fa, finestAncestorGo aanc fuel c = some fa → fa ∈ aanc := by
  intro fuel
  induction fuel with
  | zero => intro c fa h; exact absurd h (by simp [finestAncestorGo])
  | succ n ih =>
      intro c fa h
      rw [finestAncestorGo] at h
      split at h
      · cases h; assumption
      · exact ih _ _ h

theorem finestAncestorGo_isSome {aanc : List Nat} (h0 : (0 : Nat) ∈ aanc) :
    ∀ fuel c, ValidKey c → lvl c < fuel → (finestAncestorGo aanc fuel c).isSome = true := by
  intro fuel
  induction fuel with
  | zero => intro c _ h; omega
  | succ n ih =>
      intro c hc hlt
      rw [finestAncestorGo]
      split
      · rfl
      · rename_i hnot
        have hc0 : 0 < lvl c := by
          rcases Nat.eq_zero_or_pos (lvl c) with h | h
          · exfalso
            have : c = 0 := by
              have hidx : idx c = 0 := by
                have h2 := hc.2.2
                rw [h] at h2
                have h3 : 3 * (16 - 0) = 48 := by norm_num
                rw [h3] at h2
                have h4 := hc.2.1
                omega
              have := key_eq c
              omega
            rw [this] at hnot
            exact hnot h0
          · exact h
        exact ih (parent c) (parent_valid hc) (by rw [lvl_parent]; omega)

theorem finest_ancestor_facts {a b : Nat} (ha : ValidKey a) (hb : ValidKey b)
    (h1 : 1 ≤ lvl a) (hne : a ≠ b) (hb1 : 1 ≤ lvl b) :
    ∃ fa, finest_ancestor a b = some fa ∧ ValidKey fa ∧ lvl fa ≤ 15 := by
  rw [finest_ancestor, if_neg hne, find_level_eq]
  have hs := finestAncestorGo_isSome (root_mem_ancestors ha h1) (lvl b) (parent b)
    (parent_valid hb) (by rw [lvl_parent]; omega)
  obtain ⟨fa, hfa⟩ := Option.isSome_iff_exists.mp hs
  refine ⟨fa, hfa, ?_⟩
  have hmem := finestAncestorGo_mem _ _ _ hfa
  have hv := mem_ancestors_valid ha hmem
  have ha16 := ha.1
  have hlf := hv.2
  exact ⟨hv.1, by omega⟩

end Morton

/-- Symmetric non-relatedness of two keys: distinct and neither is an ancestor
of the other. -/
def NotRelated (u v : Nat) : Prop :=
  u ≠ v ∧ Morton.is_ancestor u v = false ∧ Morton.is_ancestor v u = false

theorem notRelated_symm : Symmetric NotRelated := by
  rintro u v ⟨h1, h2, h3⟩
  exact ⟨Ne.symm h1, h3, h2⟩

namespace Tree

theorem one_le_nine_pow (n : Nat) : 1 ≤ 9 ^ n := Nat.one_le_pow n 9 (by norm_num)

theorem crFuel_nil : crFuel [] = 0 := rfl

theorem crFuel_cons (c : Nat) (wl : List Nat) :
    crFuel (c :: wl) = 9 ^ (17 - Morton.find_level c) + crFuel wl := by
  simp [crFuel]

theorem crFuel_append (l₁ l₂ : List Nat) : crFuel (l₁ ++ l₂) = crFuel l₁ + crFuel l₂ := by
  simp [crFuel]

theorem crFuel_children {c : Nat} (hc : Morton.ValidKey c) (hlvl : Morton.lvl c ≤ 15) :
    crFuel (Morton.children c) = 8 * 9 ^ (16 - Morton.lvl c) := by
  rw [crFuel, Morton.children_eq hc hlvl, List.map_map]
  have hmap : (List.range 8).map
      ((fun k => 9 ^ (17 - Morton.find_level k)) ∘
        (fun i => (Morton.idx c + i * 2 ^ (3 * (15 - Morton.lvl c))) * 2 ^ 15
          + (Morton.lvl c + 1)))
      = (List.range 8).map (fun _ => 9 ^ (16 - Morton.lvl c)) := by
    refine List.map_congr_left (fun i _ => ?_)
    show 9 ^ (17 - Morton.find_level _) = _
    rw [Morton.find_level_eq, Morton.lvl_of_form (by have := Morton.lvl_lt c; omega)]
    congr 1
    omega
  rw [hmap]
  have hr : List.range 8 = [0, 1, 2, 3, 4, 5, 6, 7] := rfl
  rw [hr]
  simp only [List.map_cons, List.map_nil, List.sum_cons, List.sum_nil]
  ring

theorem crLoop_isSome (A B : Nat) (aanc banc : List Nat)
    (hanc : ∀ c, c ∈ aanc ∨ c ∈ banc → Morton.ValidKey c ∧ Morton.lvl c ≤ 15) :
    ∀ fuel wl acc, crFuel wl ≤ fuel →
      (crLoop A B aanc banc fuel wl acc).isSome = true := by
  intro fuel
  induction fuel with
  | zero =>
      intro wl acc hle
      match wl with
      | [] => rfl
      | c :: rest =>
          exfalso
          rw [crFuel_cons] at hle
          have := one_le_nine_pow (17 - Morton.find_level c)
          omega
  | succ n ih =>
      intro wl acc hle
      match wl with
      | [] => rfl
      | c :: rest =>
          rw [crFuel_cons] at hle
          have h1 := one_le_nine_pow (17 - Morton.find_level c)
          rw [crLoop]
          split
          · exact ih rest _ (by omega)
          · split
            · rename_i hmem
              obtain ⟨hcv, hcl⟩ := hanc c hmem
              apply ih
              rw [crFuel_append, crFuel_children hcv hcl]
              have h9 : 9 ^ (17 - Morton.lvl c) = 9 * 9 ^ (16 - Morton.lvl c) := by
                have h17 : 17 - Morton.lvl c = (16 - Morton.lvl c) + 1 := by omega
                rw [h17, pow_succ, Nat.mul_comm]
              rw [Morton.find_level_eq, h9] at hle
              have h2 := one_le_nine_pow (16 - Morton.lvl c)
              omega
            · exact ih rest _ (by omega)

theorem crLoop_invariant {A B : Nat} (hA : Morton.ValidKey A) (hB : Morton.ValidKey B) :
    ∀ fuel wl acc r,
      (∀ c ∈ wl, Morton.ValidKey c) →
      List.Pairwise NotRelated wl →
      (∀ k ∈ acc, A < k ∧ k < B) →
      List.Pairwise NotRelated acc →
      (∀ u ∈ acc, ∀ v ∈ wl, NotRelated u v) →
      crLoop A B (Morton.ancestors A) (Morton.ancestors B) fuel wl acc = some r →
      ((∀ k ∈ r, A < k ∧ k < B) ∧ List.Pairwise NotRelated r) := by
  intro fuel
  induction fuel with
  | zero =>
      intro wl acc r hW1 hW2 hA1 hA2 hX heq
      match wl, heq with
      | [], heq =>
          cases heq
          exact ⟨hA1, hA2⟩
  | succ n ih =>
      intro wl acc r hW1 hW2 hA1 hA2 hX heq
      match wl, heq with
      | [], heq =>
          cases heq
          exact ⟨hA1, hA2⟩
      | c :: rest, heq =>
          rw [crLoop] at heq
          split at heq
          · rename_i hcond
            refine ih rest (c :: acc) r ?_ ?_ ?_ ?_ ?_ heq
            · exact fun x hx => hW1 x (List.mem_cons_of_mem c hx)
            · exact hW2.of_cons
            · intro k hk
              rcases List.mem_cons.mp hk with hk0 | hk'
              · subst hk0; exact ⟨hcond.1, hcond.2.1⟩
              · exact hA1 k hk'
            · refine List.pairwise_cons.mpr ⟨?_, hA2⟩
              exact fun u hu => notRelated_symm (hX u hu c (List.mem_cons_self c rest))
            · intro u hu v hv
              rcases List.mem_cons.mp hu with hu0 | hu'
              · subst hu0; exact List.rel_of_pairwise_cons hW2 hv
              · exact hX u hu' v (List.mem_cons_of_mem c hv)
          · split at heq
            · rename_i hmem
              have hcv : Morton.ValidKey c ∧ Morton.lvl c ≤ 15 := by
                rcases hmem with hm | hm
                · have h := Morton.mem_ancestors_valid hA hm
                  have := hA.1
                  exact ⟨h.1, by omega⟩
                · have h := Morton.mem_ancestors_valid hB hm
                  have := hB.1
                  exact ⟨h.1, by omega⟩
              have hCx : ∀ x ∈ Morton.children c, Morton.is_ancestor c x = true := by
                intro x hx
                rw [Morton.is_ancestor_mem, Morton.ancestors_child hcv.1 hcv.2 hx]
                exact List.mem_cons_self c _
              have hlx : ∀ x ∈ Morton.children c, Morton.lvl x = Morton.lvl c + 1 :=
                fun x hx => Morton.lvl_mem_children hcv.1 hcv.2 hx
              refine ih (Morton.children c ++ rest) acc r ?_ ?_ hA1 hA2 ?_ heq
              · intro x hx
                rcases List.mem_append.mp hx with hx' | hx'
                · exact Morton.valid_mem_children hcv.1 hcv.2 hx'
                · exact hW1 x (List.mem_cons_of_mem c hx')
              · refine List.pairwise_append.mpr ⟨?_, hW2.of_cons, ?_⟩
                · refine List.Pairwise.imp_of_mem ?_
                    (Morton.children_pairwise_ne hcv.1 hcv.2)
                  intro x y hx hy hxy
                  refine ⟨hxy, ?_, ?_⟩
                  · exact Morton.not_anc_of_lvl_eq (by rw [hlx x hx, hlx y hy])
                  · exact Morton.not_anc_of_lvl_eq (by rw [hlx x hx, hlx y hy])
                · intro x hx v hv
                  have hrelcv : NotRelated c v := List.rel_of_pairwise_cons hW2 hv
                  have hancx := hCx x hx
                  have hpx : Morton.parent x = c :=
                    (Morton.child_facts hcv.1 hcv.2 hx).2.2
                  refine ⟨?_, ?_, ?_⟩
                  · intro hEq
                    subst hEq
                    exact absurd hancx (by rw [hrelcv.2.1]; simp)
                  · by_contra hcon
                    rw [Bool.not_eq_false] at hcon
                    have := Morton.is_ancestor_parent (by rw [hlx x hx]; omega) hcon
                    rw [hpx] at this
                    exact absurd this (by rw [hrelcv.2.1]; simp)
                  · by_contra hcon
                    rw [Bool.not_eq_false] at hcon
                    rw [Morton.is_ancestor_mem, Morton.ancestors_child hcv.1 hcv.2 hx,
                      List.mem_cons] at hcon
                    rcases hcon with hc0 | hc'
                    · exact hrelcv.1 hc0.symm
                    · exact absurd (Morton.is_ancestor_mem.mpr hc')
                        (by rw [hrelcv.2.2]; simp)
              · intro u hu w hw
                rcases List.mem_append.mp hw with hw' | hw'
                · have hXuc := hX u hu c (List.mem_cons_self c rest)
                  have hancw := hCx w hw'
                  have hpw : Morton.parent w = c :=
                    (Morton.child_facts hcv.1 hcv.2 hw').2.2
                  refine ⟨?_, ?_, ?_⟩
                  · intro hEq
                    subst hEq
                    exact absurd hancw (by rw [hXuc.2.2]; simp)
                  · by_contra hcon
                    rw [Bool.not_eq_false] at hcon
                    rw [Morton.is_ancestor_child_iff hcv.1 hcv.2 hw', ] at hcon
                    rcases hcon with hc0 | hc'
                    · exact hXuc.1 hc0
                    · exact absurd hc' (by rw [hXuc.2.1]; simp)
                  · by_contra hcon
                    rw [Bool.not_eq_false] at hcon
                    have := Morton.is_ancestor_parent (by rw [hlx w hw']; omega) hcon
                    rw [hpw] at this
                    exact absurd this (by rw [hXuc.2.2]; simp)
                · exact hX u hu w (List.mem_cons_of_mem c hw')
            · refine ih rest acc r ?_ hW2.of_cons hA1 hA2 ?_ heq
              · exact fun x hx => hW1 x (List.mem_cons_of_mem c hx)
              · exact fun u hu v hv => hX u hu v (List.mem_cons_of_mem c hv)

end Tree

namespace Morton

theorem eq_zero_of_lvl_zero {k : Nat} (hk : ValidKey k) (h : lvl k = 0) : k = 0 := by
  have hidx : idx k = 0 := by
    have h2 := hk.2.2
    rw [h] at h2
    have h3 : 3 * (16 - 0) = 48 := by norm_num
    rw [h3] at h2
    have h4 := hk.2.1
    omega
  have := key_eq k
  omega

end Morton

namespace Tree

theorem pairwise_notRelated_children {c : Nat} (hc : Morton.ValidKey c)
    (hl : Morton.lvl c ≤ 15) : List.Pairwise NotRelated (Morton.children c) := by
  refine List.Pairwise.imp_of_mem ?_ (Morton.children_pairwise_ne hc hl)
  intro x y hx hy hxy
  have hlx := Morton.lvl_mem_children hc hl hx
  have hly := Morton.lvl_mem_children hc hl hy
  exact ⟨hxy, Morton.not_anc_of_lvl_eq (by rw [hlx, hly]),
    Morton.not_anc_of_lvl_eq (by rw [hlx, hly])⟩

theorem sortKeys_sorted (l : List Nat) : List.Sorted (· ≤ ·) (sortKeys l) :=
  List.sorted_insertionSort _ l

theorem sortKeys_mem {x : Nat} {l : List Nat} : x ∈ sortKeys l ↔ x ∈ l :=
  (List.perm_insertionSort _ l).mem_iff

theorem sortKeys_pairwise {R : Nat → Nat → Prop} (hsymm : Symmetric R) {l : List Nat}
    (h : List.Pairwise R l) : List.Pairwise R (sortKeys l) :=
  ((List.perm_insertionSort _ l).pairwise_iff (fun h' => hsymm h')).mpr h

theorem complete_region_spec {a b : Nat} (hA : Morton.ValidKey a) (hB : Morton.ValidKey b)
    (hab : a < b) (ha1 : 1 ≤ Morton.lvl a) :
    ∃ r, complete_region a b = some r ∧
      List.Sorted (· ≤ ·) r ∧ a ∉ r ∧ b ∉ r ∧
      ∀ u ∈ r, ∀ v ∈ r, Morton.is_ancestor u v = false := by
  have hb1 : 1 ≤ Morton.lvl b := by
    by_contra hcon
    push_neg at hcon
    have : b = 0 := Morton.eq_zero_of_lvl_zero hB (by omega)
    omega
  have hne : a ≠ b := Nat.ne_of_lt hab
  obtain ⟨fa, hfa, hfav, hfal⟩ := Morton.finest_ancestor_facts hA hB ha1 hne hb1
  have hanc : ∀ c, c ∈ Morton.ancestors a ∨ c ∈ Morton.ancestors b →
      Morton.ValidKey c ∧ Morton.lvl c ≤ 15 := by
    intro c hc
    rcases hc with hc | hc
    · have h := Morton.mem_ancestors_valid hA hc
      have := hA.1
      exact ⟨h.1, by omega⟩
    · have h := Morton.mem_ancestors_valid hB hc
      have := hB.1
      exact ⟨h.1, by omega⟩
  have hsome := crLoop_isSome a b (Morton.ancestors a) (Morton.ancestors b) hanc
    (crFuel (Morton.children fa)) (Morton.children fa) [] (Nat.le_refl _)
  obtain ⟨r₀, hr₀⟩ := Option.isSome_iff_exists.mp hsome
  have hinv := crLoop_invariant hA hB (crFuel (Morton.children fa))
    (Morton.children fa) [] r₀
    (fun x hx => Morton.valid_mem_children hfav hfal hx)
    (pairwise_notRelated_children hfav hfal)
    (by intro k hk; cases hk)
    List.Pairwise.nil
    (by intro u hu; cases hu)
    hr₀
  refine ⟨sortKeys r₀, ?_, sortKeys_sorted r₀, ?_, ?_, ?_⟩
  · simp only [complete_region, Morton.erase_ancestors_self, hfa, hr₀]
  · intro hmem
    have := (hinv.1 a (sortKeys_mem.mp hmem)).1
    omega
  · intro hmem
    have := (hinv.1 b (sortKeys_mem.mp hmem)).2
    omega
  · have hpw := sortKeys_pairwise notRelated_symm hinv.2
    intro u hu v hv
    by_cases hEq : u = v
    · subst hEq
      exact Bool.eq_false_iff.mpr (Morton.not_is_ancestor_self u)
    · exact (hpw.forall notRelated_symm hu hv hEq).2.1

end Tree


namespace DistributedTree

/-- The value `assign_nodes_to_leaves` binds to a single leaf: the leaf itself if
it is a node, else the first (coarsest) containing ancestor, if any. -/
def leafValue (nodes : List Nat) (leaf : Nat) : Option Nat :=
  if leaf ∈ nodes then some leaf
  else (sortKeys (Morton.ancestors leaf)).find? (fun ancestor => nodes.contains ancestor)

theorem lookupMap_nil (k : Nat) : lookupMap [] k = none := rfl

theorem lookupMap_cons (p : Nat × Nat) (m : List (Nat × Nat)) (k : Nat) :
    lookupMap (p :: m) k = if p.1 = k then some p.2 else lookupMap m k := by
  by_cases h : p.1 = k
  · rw [if_pos h, lookupMap, List.find?_cons_of_pos _ (by simpa using h)]
    rfl
  · rw [if_neg h, lookupMap, List.find?_cons_of_neg _ (by simpa using h)]
    rfl

theorem lookupMap_map_replace (m : List (Nat × Nat)) (k v k' : Nat) :
    lookupMap (m.map (fun p => if p.1 == k then (k, v) else p)) k'
      = if k' = k then (lookupMap m k).map (fun _ => v) else lookupMap m k' := by
  induction m with
  | nil => simp [lookupMap]
  | cons p m ih =>
      by_cases hpk : p.1 = k
      · have hb : (p.1 == k) = true := by simpa using hpk
        simp only [List.map_cons, hb, if_true, lookupMap_cons, ih]
        by_cases hk' : k' = k
        · subst hk'
          simp [hpk]
        · have hkk' : ¬ (k = k') := fun h => hk' h.symm
          simp [hk', hkk', hpk]
      · have hb : (p.1 == k) = false := by simpa using hpk
        simp only [List.map_cons, hb, Bool.false_eq_true, if_false, lookupMap_cons, ih]
        by_cases hpk' : p.1 = k'
        · have hk' : ¬ k' = k := fun h => hpk (hpk'.trans h)
          simp [hpk', hk']
        · by_cases hk' : k' = k
          · simp [hpk', hk', hpk]
          · simp [hpk', hk']

theorem lookupMap_append (m₁ m₂ : List (Nat × Nat)) (k : Nat) :
    lookupMap (m₁ ++ m₂) k = (lookupMap m₁ k).or (lookupMap m₂ k) := by
  rw [lookupMap, List.find?_append]
  cases h : m₁.find? (fun p => p.1 == k) with
  | none => rw [lookupMap, h]; simp [lookupMap]
  | some p => rw [lookupMap, h]; simp

theorem not_any_lookupMap_none {m : List (Nat × Nat)} {k : Nat}
    (h : ¬ m.any (fun p => p.1 == k)) : lookupMap m k = none := by
  rw [lookupMap, List.find?_eq_none.mpr, Option.map_none']
  intro p hp
  intro hcon
  exact h (List.any_eq_true.mpr ⟨p, hp, hcon⟩)

theorem any_lookupMap_isSome {m : List (Nat × Nat)} {k : Nat}
    (h : m.any (fun p => p.1 == k)) : (lookupMap m k).isSome = true := by
  obtain ⟨p, hp, hpe⟩ := List.any_eq_true.mp h
  rw [lookupMap]
  have hs : (m.find? (fun q => q.1 == k)).isSome := List.find?_isSome.mpr ⟨p, hp, hpe⟩
  cases hf : m.find? (fun q => q.1 == k) with
  | none => rw [hf] at hs; simp at hs
  | some q => rfl

theorem lookupMap_mapInsert (m : List (Nat × Nat)) (k v k' : Nat) :
    lookupMap (mapInsert m k v) k' = if k' = k then some v else lookupMap m k' := by
  rw [mapInsert]
  split
  · rename_i hany
    rw [lookupMap_map_replace]
    by_cases hk' : k' = k
    · rw [if_pos hk', if_pos hk']
      obtain ⟨w, hw⟩ := Option.isSome_iff_exists.mp (any_lookupMap_isSome hany)
      rw [hw]
      rfl
    · rw [if_neg hk', if_neg hk']
  · rename_i hany
    rw [lookupMap_append]
    by_cases hk' : k' = k
    · subst hk'
      rw [not_any_lookupMap_none hany, if_pos rfl]
      rw [lookupMap_cons]
      simp
    · rw [if_neg hk']
      have hnone : lookupMap [(k, v)] k' = none := by
        rw [lookupMap_cons, if_neg (fun h => hk' h.symm)]
        rfl
      rw [hnone]
      cases lookupMap m k' <;> rfl

theorem assign_step_eq (nodes : List Nat) (map : List (Nat × Nat)) (leaf : Nat) :
    (if leaf ∈ nodes then mapInsert map leaf leaf
      else
        match (sortKeys (Morton.ancestors leaf)).find? (fun ancestor => nodes.contains ancestor)
          with
        | some ancestor => mapInsert map leaf ancestor
        | none => map)
      = match leafValue nodes leaf with
        | some v => mapInsert map leaf v
        | none => map := by
  rw [leafValue]
  split
  · rfl
  · rfl

theorem lookupMap_assign_go (nodes : List Nat) (l : Nat) :
    ∀ (leaves : List Nat) (m : List (Nat × Nat)),
      lookupMap (leaves.foldl
        (fun map leaf =>
          if leaf ∈ nodes then mapInsert map leaf leaf
          else
            match (sortKeys (Morton.ancestors leaf)).find?
                (fun ancestor => nodes.contains ancestor) with
            | some ancestor => mapInsert map leaf ancestor
            | none => map)
        m) l
      = if l ∈ leaves ∧ (leafValue nodes l).isSome then leafValue nodes l
        else lookupMap m l := by
  intro leaves
  induction leaves with
  | nil => intro m; simp
  | cons x rest ih =>
      intro m
      rw [List.foldl_cons, assign_step_eq, ih]
      by_cases hrest : l ∈ rest ∧ (leafValue nodes l).isSome
      · rw [if_pos hrest, if_pos ⟨List.mem_cons_of_mem x hrest.1, hrest.2⟩]
      · rw [if_neg hrest]
        by_cases hlx : l = x
        · subst hlx
          cases hv : leafValue nodes l with
          | some v =>
              rw [lookupMap_mapInsert, if_pos rfl, if_pos ⟨List.mem_cons_self l rest, rfl⟩]
          | none =>
              rw [if_neg (by simp)]
        · have hng : ¬ (l ∈ x :: rest ∧ (leafValue nodes l).isSome) := by
            intro hcon
            rcases List.mem_cons.mp hcon.1 with h | h
            · exact hlx h
            · exact hrest ⟨h, hcon.2⟩
          cases hv : leafValue nodes x with
          | some v =>
              rw [lookupMap_mapInsert, if_neg hlx, if_neg hng]
          | none =>
              rw [if_neg hng]

theorem lookupMap_assign (leaves nodes : List Nat) (l : Nat) :
    lookupMap (assign_nodes_to_leaves leaves nodes) l
      = if l ∈ leaves ∧ (leafValue nodes l).isSome then leafValue nodes l else none := by
  rw [assign_nodes_to_leaves, lookupMap_assign_go]
  rfl

theorem lookupMap_mem {m : List (Nat × Nat)} {k v : Nat}
    (h : lookupMap m k = some v) : (k, v) ∈ m := by
  rw [lookupMap] at h
  cases hf : m.find? (fun p => p.1 == k) with
  | none => rw [hf] at h; simp at h
  | some p =>
      rw [hf] at h
      have hp : p ∈ m := List.mem_of_find?_eq_some hf
      have hk : p.1 = k := by simpa using List.find?_some hf
      have hv : p.2 = v := by simpa using h
      have : p = (k, v) := by
        cases p; simp_all
      rw [this] at hp
      exact hp

theorem mem_lookupMap {m : List (Nat × Nat)} (hnd : (m.map (fun p => p.1)).Nodup)
    {k v : Nat} (h : (k, v) ∈ m) : lookupMap m k = some v := by
  induction m with
  | nil => cases h
  | cons p m ih =>
      rw [List.map_cons, List.nodup_cons] at hnd
      rcases List.mem_cons.mp h with h0 | h'
      · subst h0
        rw [lookupMap_cons, if_pos rfl]
      · have hpk : ¬ p.1 = k := by
          intro he
          exact hnd.1 (he ▸ List.mem_map.mpr ⟨(k, v), h', rfl⟩)
        rw [lookupMap_cons, if_neg hpk]
        exact ih hnd.2 h'

theorem keys_mapInsert_of_any {m : List (Nat × Nat)} {k : Nat} (v : Nat)
    (h : m.any (fun p => p.1 == k)) :
    (mapInsert m k v).map (fun p => p.1) = m.map (fun p => p.1) := by
  rw [mapInsert, if_pos h, List.map_map]
  refine List.map_congr_left ?_
  intro p _
  by_cases hp : p.1 = k
  · simp [Function.comp, hp]
  · simp [Function.comp, hp]

theorem nodup_keys_mapInsert {m : List (Nat × Nat)} (k v : Nat)
    (hnd : (m.map (fun p => p.1)).Nodup) :
    ((mapInsert m k v).map (fun p => p.1)).Nodup := by
  by_cases h : m.any (fun p => p.1 == k)
  · rw [keys_mapInsert_of_any v h]
    exact hnd
  · rw [mapInsert, if_neg h, List.map_append]
    rw [List.nodup_append]
    refine ⟨hnd, List.nodup_singleton _, ?_⟩
    intro x hx hk
    have hxk : x = k := by simpa using hk
    subst hxk
    obtain ⟨p, hp, hpk⟩ := List.mem_map.mp hx
    exact h (List.any_eq_true.mpr ⟨p, hp, by simpa using hpk⟩)

theorem assign_keys_nodup_go (nodes : List Nat) :
    ∀ (leaves : List Nat) (m : List (Nat × Nat)),
      (m.map (fun p => p.1)).Nodup →
      ((leaves.foldl
        (fun map leaf =>
          if leaf ∈ nodes then mapInsert map leaf leaf
          else
            match (sortKeys (Morton.ancestors leaf)).find?
                (fun ancestor => nodes.contains ancestor) with
            | some ancestor => mapInsert map leaf ancestor
            | none => map)
        m).map (fun p => p.1)).Nodup := by
  intro leaves
  induction leaves with
  | nil => intro m hm; simpa using hm
  | cons x rest ih =>
      intro m hm
      rw [List.foldl_cons, assign_step_eq]
      cases leafValue nodes x with
      | some v => exact ih _ (nodup_keys_mapInsert x v hm)
      | none => exact ih _ hm

theorem assign_keys_nodup (leaves nodes : List Nat) :
    ((assign_nodes_to_leaves leaves nodes).map (fun p => p.1)).Nodup := by
  rw [assign_nodes_to_leaves]
  exact assign_keys_nodup_go nodes leaves [] (by simp)

theorem leafValue_mem {nodes : List Nat} {leaf b : Nat}
    (h : leafValue nodes leaf = some b) : b ∈ nodes := by
  rw [leafValue] at h
  split at h
  · rename_i hmem
    cases h
    exact hmem
  · have hb := List.find?_some h
    simpa using hb

theorem leafValue_isSome_iff (nodes : List Nat) (l : Nat) :
    (leafValue nodes l).isSome = true
      ↔ l ∈ nodes ∨ ∃ n ∈ nodes, Morton.is_ancestor n l = true := by
  rw [leafValue]
  by_cases h : l ∈ nodes
  · simp [h]
  · rw [if_neg h]
    constructor
    · intro hs
      obtain ⟨x, hx, hpx⟩ := List.find?_isSome.mp hs
      refine Or.inr ⟨x, by simpa using hpx, ?_⟩
      rw [Morton.is_ancestor_mem]
      exact Tree.sortKeys_mem.mp hx
    · intro hor
      rcases hor with hmem | ⟨n, hn, hanc⟩
      · exact absurd hmem h
      · refine List.find?_isSome.mpr ⟨n, ?_, by simpa using hn⟩
        exact Tree.sortKeys_mem.mpr (Morton.is_ancestor_mem.mp hanc)

theorem assign_entry_leafValue {leaves nodes : List Nat} {l v : Nat}
    (h : (l, v) ∈ assign_nodes_to_leaves leaves nodes) :
    leafValue nodes l = some v ∧ l ∈ leaves := by
  have hl := mem_lookupMap (assign_keys_nodup leaves nodes) h
  rw [lookupMap_assign] at hl
  split at hl
  · rename_i hc
    exact ⟨hl, hc.1⟩
  · cases hl

end DistributedTree

namespace DistributedTree

theorem lookupMap_bump_map (c : List (Nat × Nat)) (b k : Nat) :
    lookupMap (c.map (fun p => if p.1 == b then (p.1, p.2 + 1) else p)) k
      = if k = b then (lookupMap c b).map (fun n => n + 1) else lookupMap c k := by
  induction c with
  | nil => simp [lookupMap]
  | cons p c ih =>
      by_cases hpb : p.1 = b
      · have hb : (p.1 == b) = true := by simpa using hpb
        simp only [List.map_cons, hb, if_true, lookupMap_cons, ih]
        by_cases hk : k = b
        · subst hk
          simp [hpb]
        · have hpk : ¬ p.1 = k := fun h => hk (h.symm.trans hpb)
          simp [hk, hpk]
      · have hb : (p.1 == b) = false := by simpa using hpb
        simp only [List.map_cons, hb, Bool.false_eq_true, if_false, lookupMap_cons, ih]
        by_cases hpk : p.1 = k
        · have hk : ¬ k = b := fun h => hpb (hpk.trans h)
          simp [hpk, hk]
        · by_cases hk : k = b
          · simp [hpk, hk, hpb]
          · simp [hpk, hk]

theorem lookupMap_bumpCount (c : List (Nat × Nat)) (b k : Nat) :
    lookupMap (bumpCount c b) k
      = if k = b then some ((lookupMap c b).getD 0 + 1) else lookupMap c k := by
  rw [bumpCount]
  split
  · rename_i hany
    rw [lookupMap_bump_map]
    by_cases hk : k = b
    · rw [if_pos hk, if_pos hk]
      obtain ⟨n, hn⟩ := Option.isSome_iff_exists.mp (any_lookupMap_isSome hany)
      rw [hn]
      rfl
    · rw [if_neg hk, if_neg hk]
  · rename_i hany
    rw [lookupMap_append]
    by_cases hk : k = b
    · subst hk
      rw [not_any_lookupMap_none hany, if_pos rfl]
      rw [lookupMap_cons, if_pos rfl]
      rfl
    · rw [if_neg hk]
      have hnone : lookupMap [(b, 1)] k = none := by
        rw [lookupMap_cons, if_neg (fun h => hk h.symm)]
        rfl
      rw [hnone]
      cases lookupMap c k <;> rfl

theorem lookupMap_countFold (k : Nat) :
    ∀ (vs : List Nat) (c : List (Nat × Nat)),
      lookupMap (vs.foldl (fun counts v => bumpCount counts v) c) k
        = if vs.count k = 0 then lookupMap c k
          else some ((lookupMap c k).getD 0 + vs.count k) := by
  intro vs
  induction vs with
  | nil => intro c; simp
  | cons v vs ih =>
      intro c
      rw [List.foldl_cons, ih]
      by_cases hk : k = v
      · subst hk
        rw [List.count_cons_self, lookupMap_bumpCount, if_pos rfl]
        by_cases h0 : vs.count k = 0
        · rw [if_pos h0, h0, if_neg (by omega)]
        · rw [if_neg h0, if_neg (by omega)]
          simp only [Option.getD_some]
          congr 1
          omega
      · rw [List.count_cons_of_ne hk, lookupMap_bumpCount, if_neg hk]

theorem count_le_of_check {vs : List Nat}
    (h : ∀ p ∈ vs.foldl (fun counts v => bumpCount counts v) ([] : List (Nat × Nat)),
          p.2 ≤ NCRIT)
    (b : Nat) : vs.count b ≤ NCRIT := by
  by_cases h0 : vs.count b = 0
  · rw [h0]
    exact Nat.zero_le _
  · have hl := lookupMap_countFold b vs []
    rw [if_neg h0] at hl
    have hmem := lookupMap_mem hl
    have := h _ hmem
    simp only [lookupMap_nil, Option.getD_none] at this
    omega

theorem mem_countFold_keys {b : Nat} :
    ∀ {vs : List Nat},
      b ∈ vs →
      (lookupMap (vs.foldl (fun counts v => bumpCount counts v) ([] : List (Nat × Nat)))
        b).isSome = true := by
  intro vs hb
  rw [lookupMap_countFold]
  have h0 : vs.count b ≠ 0 := by
    have := List.count_pos_iff.mpr hb
    omega
  rw [if_neg h0]
  rfl

theorem countFold_keys_mem :
    ∀ (vs : List Nat) (c : List (Nat × Nat)) (p : Nat × Nat),
      p ∈ vs.foldl (fun counts v => bumpCount counts v) c →
      p.1 ∈ vs ∨ ∃ q ∈ c, q.1 = p.1 := by
  intro vs
  induction vs with
  | nil =>
      intro c p hp
      exact Or.inr ⟨p, hp, rfl⟩
  | cons v vs ih =>
      intro c p hp
      rw [List.foldl_cons] at hp
      rcases ih (bumpCount c v) p hp with h | ⟨q, hq, hqe⟩
      · exact Or.inl (List.mem_cons_of_mem v h)
      · rw [bumpCount] at hq
        split at hq
        · obtain ⟨r, hr, hre⟩ := List.mem_map.mp hq
          by_cases hrv : r.1 = v
          · have : q.1 = r.1 := by
              rw [← hre]
              simp [hrv]
            exact Or.inr ⟨r, hr, this ▸ hqe⟩
          · have : q = r := by
              rw [← hre]
              simp [hrv]
            exact Or.inr ⟨r, hr, this ▸ hqe⟩
        · rcases List.mem_append.mp hq with hq' | hq'
          · exact Or.inr ⟨q, hq', hqe⟩
          · have : q = (v, 1) := by simpa using hq'
            subst this
            rw [← hqe]
            exact Or.inl (List.mem_cons_self v vs)

theorem newBlocktree_eq {c : List (Nat × Nat)} (h : ∀ p ∈ c, ¬ NCRIT < p.2) :
    ∀ nt₀ : List Nat,
      c.foldl (fun nt p => if NCRIT < p.2 then nt ++ Morton.children p.1 else nt ++ [p.1]) nt₀
        = nt₀ ++ c.map (fun p => p.1) := by
  induction c with
  | nil => intro nt₀; simp
  | cons p c ih =>
      intro nt₀
      rw [List.foldl_cons, if_neg (h p (List.mem_cons_self p c))]
      rw [ih (fun q hq => h q (List.mem_cons_of_mem p hq)) (nt₀ ++ [p.1])]
      simp

theorem find?_strengthen {p q : Nat → Bool} :
    ∀ {xs : List Nat} {v : Nat},
      xs.find? p = some v → q v = true → (∀ x, q x = true → p x = true) →
      xs.find? q = some v := by
  intro xs
  induction xs with
  | nil => intro v hv; cases hv
  | cons x xs ih =>
      intro v hv hqv himp
      by_cases hpx : p x = true
      · rw [List.find?_cons_of_pos _ hpx] at hv
        cases hv
        rw [List.find?_cons_of_pos _ hqv]
      · have hqx : ¬ q x = true := fun h => hpx (himp x h)
        rw [List.find?_cons_of_neg _ (by simpa using hpx)] at hv
        rw [List.find?_cons_of_neg _ (by simpa using hqx)]
        exact ih hv hqv himp

theorem leafValue_restrict {nodes sub : List Nat} (hsub : ∀ x ∈ sub, x ∈ nodes)
    {l : Nat} (hval : ∀ v, leafValue nodes l = some v → v ∈ sub) :
    leafValue sub l = leafValue nodes l := by
  by_cases hmem : l ∈ nodes
  · have hv : leafValue nodes l = some l := by
      rw [leafValue, if_pos hmem]
    have hls : l ∈ sub := hval l hv
    rw [hv, leafValue, if_pos hls]
  · have hms : l ∉ sub := fun h => hmem (hsub l h)
    rw [leafValue, if_neg hms, leafValue, if_neg hmem]
    cases hf : (sortKeys (Morton.ancestors l)).find? (fun ancestor => nodes.contains ancestor)
      with
    | none =>
        rw [List.find?_eq_none]
        intro x hx hcon
        have hxn : nodes.contains x = true := by
          have : x ∈ nodes := hsub x (by simpa using hcon)
          simpa using this
        exact absurd hxn (by have := List.find?_eq_none.mp hf x hx; simpa using this)
    | some v =>
        have hvs : v ∈ sub := by
          refine hval v ?_
          rw [leafValue, if_neg hmem, hf]
        refine find?_strengthen hf (by simpa using hvs) ?_
        intro x hx
        have : x ∈ sub := by simpa using hx
        simpa using hsub x this

theorem assign_congr_go (nodes nodes' : List Nat) :
    ∀ (leaves : List Nat),
      (∀ l ∈ leaves, leafValue nodes l = leafValue nodes' l) →
      ∀ (m : List (Nat × Nat)),
      leaves.foldl
        (fun map leaf =>
          if leaf ∈ nodes then mapInsert map leaf leaf
          else
            match (sortKeys (Morton.ancestors leaf)).find?
                (fun ancestor => nodes.contains ancestor) with
            | some ancestor => mapInsert map leaf ancestor
            | none => map)
        m
      = leaves.foldl
        (fun map leaf =>
          if leaf ∈ nodes' then mapInsert map leaf leaf
          else
            match (sortKeys (Morton.ancestors leaf)).find?
                (fun ancestor => nodes'.contains ancestor) with
            | some ancestor => mapInsert map leaf ancestor
            | none => map)
        m := by
  intro leaves
  induction leaves with
  | nil => intro _ m; rfl
  | cons x rest ih =>
      intro h m
      rw [List.foldl_cons, List.foldl_cons, assign_step_eq, assign_step_eq,
        h x (List.mem_cons_self x rest)]
      exact ih (fun l hl => h l (List.mem_cons_of_mem x hl)) _

theorem assign_congr {nodes nodes' : List Nat} (leaves : List Nat)
    (h : ∀ l ∈ leaves, leafValue nodes l = leafValue nodes' l) :
    assign_nodes_to_leaves leaves nodes = assign_nodes_to_leaves leaves nodes' := by
  rw [assign_nodes_to_leaves, assign_nodes_to_leaves]
  exact assign_congr_go nodes nodes' leaves h []

theorem splitLoop_bounded (leaves : List Nat) :
    ∀ (fuel : Nat) (blocktree : List Nat) (m : List (Nat × Nat)),
      splitLoop leaves fuel blocktree = some m →
      (m.map (fun p => p.1)).Nodup ∧ ∀ b, (m.map (fun p => p.2)).count b ≤ NCRIT := by
  intro fuel
  induction fuel with
  | zero => intro blocktree m h; cases h
  | succ fuel ih =>
      intro blocktree m h
      rw [splitLoop] at h
      split at h
      · rename_i hcheck
        -- the terminating round
        set blocks_to_leaves := assign_nodes_to_leaves leaves blocktree with hbl
        set vs := blocks_to_leaves.map (fun p => p.2) with hvs
        set counts := blocks_to_leaves.foldl (fun c p => bumpCount c p.2) [] with hcounts
        have hfoldvs : counts = vs.foldl (fun c v => bumpCount c v) [] := by
          rw [hcounts, hvs, List.foldl_map]
        have hall : ∀ p ∈ counts, ¬ NCRIT < p.2 := by
          have hfeq := List.Sublist.eq_of_length (List.filter_sublist _) hcheck
          have := List.filter_eq_self.mp hfeq
          intro p hp
          have hdec := this p hp
          simpa using hdec
        have hcount_le : ∀ b, vs.count b ≤ NCRIT := by
          intro b
          refine count_le_of_check ?_ b
          intro p hp
          rw [← hfoldvs] at hp
          have := hall p hp
          omega
        have hnew : counts.foldl
            (fun nt p => if NCRIT < p.2 then nt ++ Morton.children p.1 else nt ++ [p.1]) []
            = counts.map (fun p => p.1) := by
          rw [newBlocktree_eq hall []]
          rfl
        rw [hnew] at h
        -- the new blocktree is a sublist of the old one, value-preserving
        have hsub : ∀ x ∈ counts.map (fun p => p.1), x ∈ blocktree := by
          intro x hx
          obtain ⟨p, hp, hpe⟩ := List.mem_map.mp hx
          rw [hfoldvs] at hp
          rcases countFold_keys_mem vs [] p hp with hv | ⟨q, hq, _⟩
          · rw [hpe] at hv
            obtain ⟨entry, hentry, hentrye⟩ := List.mem_map.mp hv
            have hlv : leafValue blocktree entry.1 = some entry.2 := by
              have : (entry.1, entry.2) ∈ blocks_to_leaves := by
                simpa using hentry
              exact (assign_entry_leafValue this).1
            rw [hentrye] at hlv
            exact leafValue_mem hlv
          · cases hq
        have hval : ∀ l ∈ leaves, ∀ v, leafValue blocktree l = some v →
            v ∈ counts.map (fun p => p.1) := by
          intro l hl v hv
          have hvvs : v ∈ vs := by
            have hlook : lookupMap blocks_to_leaves l = some v := by
              rw [hbl, lookupMap_assign, if_pos ⟨hl, by rw [hv]; rfl⟩]
              exact hv
            have hmem := lookupMap_mem hlook
            exact List.mem_map.mpr ⟨(l, v), hmem, rfl⟩
          have hks := mem_countFold_keys hvvs
          rw [← hfoldvs] at hks
          obtain ⟨n, hn⟩ := Option.isSome_iff_exists.mp hks
          exact List.mem_map.mpr ⟨(v, n), lookupMap_mem hn, rfl⟩
        have hsame : assign_nodes_to_leaves leaves (counts.map (fun p => p.1))
            = blocks_to_leaves := by
          rw [hbl]
          refine assign_congr leaves ?_
          intro l hl
          refine leafValue_restrict hsub ?_
          exact fun v hv => hval l hl v hv
        rw [hsame] at h
        have hm := Option.some.inj h
        subst hm
        refine ⟨assign_keys_nodup _ _, ?_⟩
        intro b
        exact hcount_le b
      · exact ih _ m h

end DistributedTree

namespace Tree

/-- Input block list of the C2 instance: the level-1 key `1` and the level-3 key
`2^60 + 3`, face-adjacent blocks two levels apart. -/
def c2Keys : List Nat := [1, 1152921504606846979]

set_option maxRecDepth 100000 in
theorem c2_levels_high : ∀ lv ∈ [15, 14, 13, 12, 11, 10, 9, 8, 7, 6, 5, 4], balanceLevelStep [1, 1152921504606846979] lv = [1, 1152921504606846979] := by decide

set_option maxRecDepth 400000 in
theorem c2_level3 : balanceLevelStep [1, 1152921504606846979] 3 = [1, 1152921504606846979, 144115188075855874, 2, 288230376151711746, 432345564227567618, 576460752303423490, 720575940379279362, 864691128455135234, 1008806316530991106, 1152921504606846978, 1297036692682702850, 1441151880758558722, 1585267068834414594, 1729382256910270466, 1873497444986126338, 2017612633061982210, 2161727821137838082] := by decide

set_option maxRecDepth 400000 in
theorem c2_filter2 : ([1, 1152921504606846979, 144115188075855874, 2, 288230376151711746, 432345564227567618, 576460752303423490, 720575940379279362, 864691128455135234, 1008806316530991106, 1152921504606846978, 1297036692682702850, 1441151880758558722, 1585267068834414594, 1729382256910270466, 1873497444986126338, 2017612633061982210, 2161727821137838082]).filter (fun k => Morton.find_level k = 2) = [144115188075855874, 2, 288230376151711746, 432345564227567618, 576460752303423490, 720575940379279362, 864691128455135234, 1008806316530991106, 1152921504606846978, 1297036692682702850, 1441151880758558722, 1585267068834414594, 1729382256910270466, 1873497444986126338, 2017612633061982210, 2161727821137838082] := by decide

set_option maxRecDepth 400000 in
theorem c2_step2_0 : balanceKeyStep [1, 1152921504606846979, 144115188075855874, 2, 288230376151711746, 432345564227567618, 576460752303423490, 720575940379279362, 864691128455135234, 1008806316530991106, 1152921504606846978, 1297036692682702850, 1441151880758558722, 1585267068834414594, 1729382256910270466, 1873497444986126338, 2017612633061982210, 2161727821137838082] 144115188075855874 = [1, 1152921504606846979, 144115188075855874, 2, 288230376151711746, 432345564227567618, 576460752303423490, 720575940379279362, 864691128455135234, 1008806316530991106, 1152921504606846978, 1297036692682702850, 1441151880758558722, 1585267068834414594, 1729382256910270466, 1873497444986126338, 2017612633061982210, 2161727821137838082] := by decide

set_option maxRecDepth 400000 in
theorem c2_step2_1 : balanceKeyStep [1, 1152921504606846979, 144115188075855874, 2, 288230376151711746, 432345564227567618, 576460752303423490, 720575940379279362, 864691128455135234, 1008806316530991106, 1152921504606846978, 1297036692682702850, 1441151880758558722, 1585267068834414594, 1729382256910270466, 1873497444986126338, 2017612633061982210, 2161727821137838082] 2 = [1, 1152921504606846979, 144115188075855874, 2, 288230376151711746, 432345564227567618, 576460752303423490, 720575940379279362, 864691128455135234, 1008806316530991106, 1152921504606846978, 1297036692682702850, 1441151880758558722, 1585267068834414594, 1729382256910270466, 1873497444986126338, 2017612633061982210, 2161727821137838082] := by decide

set_option maxRecDepth 400000 in
theorem c2_step2_2 : balanceKeyStep [1, 1152921504606846979, 144115188075855874, 2, 288230376151711746, 432345564227567618, 576460752303423490, 720575940379279362, 864691128455135234, 1008806316530991106, 1152921504606846978, 1297036692682702850, 1441151880758558722, 1585267068834414594, 1729382256910270466, 1873497444986126338, 2017612633061982210, 2161727821137838082] 288230376151711746 = [1, 1152921504606846979, 144115188075855874, 2, 288230376151711746, 432345564227567618, 576460752303423490, 720575940379279362, 864691128455135234, 1008806316530991106, 1152921504606846978, 1297036692682702850, 1441151880758558722, 1585267068834414594, 1729382256910270466, 1873497444986126338, 2017612633061982210, 2161727821137838082, 2305843009213693953, 1152921504606846977, 3458764513820540929, 4611686018427387905, 5764607523034234881, 6917529027641081857, 8070450532247928833] := by decide

set_option maxRecDepth 400000 in
theorem c2_step2_3 : balanceKeyStep [1, 1152921504606846979, 144115188075855874, 2, 288230376151711746, 432345564227567618, 576460752303423490, 720575940379279362, 864691128455135234, 1008806316530991106, 1152921504606846978, 1297036692682702850, 1441151880758558722, 1585267068834414594, 1729382256910270466, 1873497444986126338, 2017612633061982210, 2161727821137838082, 2305843009213693953, 1152921504606846977, 3458764513820540929, 4611686018427387905, 5764607523034234881, 6917529027641081857, 8070450532247928833] 432345564227567618 = [1, 1152921504606846979, 144115188075855874, 2, 288230376151711746, 432345564227567618, 576460752303423490, 720575940379279362, 864691128455135234, 1008806316530991106, 1152921504606846978, 1297036692682702850, 1441151880758558722, 1585267068834414594, 1729382256910270466, 1873497444986126338, 2017612633061982210, 2161727821137838082, 2305843009213693953, 1152921504606846977, 3458764513820540929, 4611686018427387905, 5764607523034234881, 6917529027641081857, 8070450532247928833] := by decide

set_option maxRecDepth 400000 in
theorem c2_step2_4 : balanceKeyStep [1, 1152921504606846979, 144115188075855874, 2, 288230376151711746, 432345564227567618, 576460752303423490, 720575940379279362, 864691128455135234, 1008806316530991106, 1152921504606846978, 1297036692682702850, 1441151880758558722, 1585267068834414594, 1729382256910270466, 1873497444986126338, 2017612633061982210, 2161727821137838082, 2305843009213693953, 1152921504606846977, 3458764513820540929, 4611686018427387905, 5764607523034234881, 6917529027641081857, 8070450532247928833] 576460752303423490 = [1, 1152921504606846979, 144115188075855874, 2, 288230376151711746, 432345564227567618, 576460752303423490, 720575940379279362, 864691128455135234, 1008806316530991106, 1152921504606846978, 1297036692682702850, 1441151880758558722, 1585267068834414594, 1729382256910270466, 1873497444986126338, 2017612633061982210, 2161727821137838082, 2305843009213693953, 1152921504606846977, 3458764513820540929, 4611686018427387905, 5764607523034234881, 6917529027641081857, 8070450532247928833] := by decide

set_option maxRecDepth 400000 in
theorem c2_step2_5 : balanceKeyStep [1, 1152921504606846979, 144115188075855874, 2, 288230376151711746, 432345564227567618, 576460752303423490, 720575940379279362, 864691128455135234, 1008806316530991106, 1152921504606846978, 1297036692682702850, 1441151880758558722, 1585267068834414594, 1729382256910270466, 1873497444986126338, 2017612633061982210, 2161727821137838082, 2305843009213693953, 1152921504606846977, 3458764513820540929, 4611686018427387905, 5764607523034234881, 6917529027641081857, 8070450532247928833] 720575940379279362 = [1, 1152921504606846979, 144115188075855874, 2, 288230376151711746, 432345564227567618, 576460752303423490, 720575940379279362, 864691128455135234, 1008806316530991106, 1152921504606846978, 1297036692682702850, 1441151880758558722, 1585267068834414594, 1729382256910270466, 1873497444986126338, 2017612633061982210, 2161727821137838082, 2305843009213693953, 1152921504606846977, 3458764513820540929, 4611686018427387905, 5764607523034234881, 6917529027641081857, 8070450532247928833] := by decide

set_option maxRecDepth 400000 in
theorem c2_step2_6 : balanceKeyStep [1, 1152921504606846979, 144115188075855874, 2, 288230376151711746, 432345564227567618, 576460752303423490, 720575940379279362, 864691128455135234, 1008806316530991106, 1152921504606846978, 1297036692682702850, 1441151880758558722, 1585267068834414594, 1729382256910270466, 1873497444986126338, 2017612633061982210, 2161727821137838082, 2305843009213693953, 1152921504606846977, 3458764513820540929, 4611686018427387905, 5764607523034234881, 6917529027641081857, 8070450532247928833] 864691128455135234 = [1, 1152921504606846979, 144115188075855874, 2, 288230376151711746, 432345564227567618, 576460752303423490, 720575940379279362, 864691128455135234, 1008806316530991106, 1152921504606846978, 1297036692682702850, 1441151880758558722, 1585267068834414594, 1729382256910270466, 1873497444986126338, 2017612633061982210, 2161727821137838082, 2305843009213693953, 1152921504606846977, 3458764513820540929, 4611686018427387905, 5764607523034234881, 6917529027641081857, 8070450532247928833] := by decide

set_option maxRecDepth 400000 in
theorem c2_step2_7 : balanceKeyStep [1, 1152921504606846979, 144115188075855874, 2, 288230376151711746, 432345564227567618, 576460752303423490, 720575940379279362, 864691128455135234, 1008806316530991106, 1152921504606846978, 1297036692682702850, 1441151880758558722, 1585267068834414594, 1729382256910270466, 1873497444986126338, 2017612633061982210, 2161727821137838082, 2305843009213693953, 1152921504606846977, 3458764513820540929, 4611686018427387905, 5764607523034234881, 6917529027641081857, 8070450532247928833] 1008806316530991106 = [1, 1152921504606846979, 144115188075855874, 2, 288230376151711746, 432345564227567618, 576460752303423490, 720575940379279362, 864691128455135234, 1008806316530991106, 1152921504606846978, 1297036692682702850, 1441151880758558722, 1585267068834414594, 1729382256910270466, 1873497444986126338, 2017612633061982210, 2161727821137838082, 2305843009213693953, 1152921504606846977, 3458764513820540929, 4611686018427387905, 5764607523034234881, 6917529027641081857, 8070450532247928833] := by decide

set_option maxRecDepth 400000 in
theorem c2_step2_8 : balanceKeyStep [1, 1152921504606846979, 144115188075855874, 2, 288230376151711746, 432345564227567618, 576460752303423490, 720575940379279362, 864691128455135234, 1008806316530991106, 1152921504606846978, 1297036692682702850, 1441151880758558722, 1585267068834414594, 1729382256910270466, 1873497444986126338, 2017612633061982210, 2161727821137838082, 2305843009213693953, 1152921504606846977, 3458764513820540929, 4611686018427387905, 5764607523034234881, 6917529027641081857, 8070450532247928833] 1152921504606846978 = [1, 1152921504606846979, 144115188075855874, 2, 288230376151711746, 432345564227567618, 576460752303423490, 720575940379279362, 864691128455135234, 1008806316530991106, 1152921504606846978, 1297036692682702850, 1441151880758558722, 1585267068834414594, 1729382256910270466, 1873497444986126338, 2017612633061982210, 2161727821137838082, 2305843009213693953, 1152921504606846977, 3458764513820540929, 4611686018427387905, 5764607523034234881, 6917529027641081857, 8070450532247928833] := by decide

set_option maxRecDepth 400000 in
theorem c2_step2_9 : balanceKeyStep [1, 1152921504606846979, 144115188075855874, 2, 288230376151711746, 432345564227567618, 576460752303423490, 720575940379279362, 864691128455135234, 1008806316530991106, 1152921504606846978, 1297036692682702850, 1441151880758558722, 1585267068834414594, 1729382256910270466, 1873497444986126338, 2017612633061982210, 2161727821137838082, 2305843009213693953, 1152921504606846977, 3458764513820540929, 4611686018427387905, 5764607523034234881, 6917529027641081857, 8070450532247928833] 1297036692682702850 = [1, 1152921504606846979, 144115188075855874, 2, 288230376151711746, 432345564227567618, 576460752303423490, 720575940379279362, 864691128455135234, 1008806316530991106, 1152921504606846978, 1297036692682702850, 1441151880758558722, 1585267068834414594, 1729382256910270466, 1873497444986126338, 2017612633061982210, 2161727821137838082, 2305843009213693953, 1152921504606846977, 3458764513820540929, 4611686018427387905, 5764607523034234881, 6917529027641081857, 8070450532247928833] := by decide

set_option maxRecDepth 400000 in
theorem c2_step2_10 : balanceKeyStep [1, 1152921504606846979, 144115188075855874, 2, 288230376151711746, 432345564227567618, 576460752303423490, 720575940379279362, 864691128455135234, 1008806316530991106, 1152921504606846978, 1297036692682702850, 1441151880758558722, 1585267068834414594, 1729382256910270466, 1873497444986126338, 2017612633061982210, 2161727821137838082, 2305843009213693953, 1152921504606846977, 3458764513820540929, 4611686018427387905, 5764607523034234881, 6917529027641081857, 8070450532247928833] 1441151880758558722 = [1, 1152921504606846979, 144115188075855874, 2, 288230376151711746, 432345564227567618, 576460752303423490, 720575940379279362, 864691128455135234, 1008806316530991106, 1152921504606846978, 1297036692682702850, 1441151880758558722, 1585267068834414594, 1729382256910270466, 1873497444986126338, 2017612633061982210, 2161727821137838082, 2305843009213693953, 1152921504606846977, 3458764513820540929, 4611686018427387905, 5764607523034234881, 6917529027641081857, 8070450532247928833] := by decide

set_option maxRecDepth 400000 in
theorem c2_step2_11 : balanceKeyStep [1, 1152921504606846979, 144115188075855874, 2, 288230376151711746, 432345564227567618, 576460752303423490, 720575940379279362, 864691128455135234, 1008806316530991106, 1152921504606846978, 1297036692682702850, 1441151880758558722, 1585267068834414594, 1729382256910270466, 1873497444986126338, 2017612633061982210, 2161727821137838082, 2305843009213693953, 1152921504606846977, 3458764513820540929, 4611686018427387905, 5764607523034234881, 6917529027641081857, 8070450532247928833] 1585267068834414594 = [1, 1152921504606846979, 144115188075855874, 2, 288230376151711746, 432345564227567618, 576460752303423490, 720575940379279362, 864691128455135234, 1008806316530991106, 1152921504606846978, 1297036692682702850, 1441151880758558722, 1585267068834414594, 1729382256910270466, 1873497444986126338, 2017612633061982210, 2161727821137838082, 2305843009213693953, 1152921504606846977, 3458764513820540929, 4611686018427387905, 5764607523034234881, 6917529027641081857, 8070450532247928833] := by decide

set_option maxRecDepth 400000 in
theorem c2_step2_12 : balanceKeyStep [1, 1152921504606846979, 144115188075855874, 2, 288230376151711746, 432345564227567618, 576460752303423490, 720575940379279362, 864691128455135234, 1008806316530991106, 1152921504606846978, 1297036692682702850, 1441151880758558722, 1585267068834414594, 1729382256910270466, 1873497444986126338, 2017612633061982210, 2161727821137838082, 2305843009213693953, 1152921504606846977, 3458764513820540929, 4611686018427387905, 5764607523034234881, 6917529027641081857, 8070450532247928833] 1729382256910270466 = [1, 1152921504606846979, 144115188075855874, 2, 288230376151711746, 432345564227567618, 576460752303423490, 720575940379279362, 864691128455135234, 1008806316530991106, 1152921504606846978, 1297036692682702850, 1441151880758558722, 1585267068834414594, 1729382256910270466, 1873497444986126338, 2017612633061982210, 2161727821137838082, 2305843009213693953, 1152921504606846977, 3458764513820540929, 4611686018427387905, 5764607523034234881, 6917529027641081857, 8070450532247928833] := by decide

set_option maxRecDepth 400000 in
theorem c2_step2_13 : balanceKeyStep [1, 1152921504606846979, 144115188075855874, 2, 288230376151711746, 432345564227567618, 576460752303423490, 720575940379279362, 864691128455135234, 1008806316530991106, 1152921504606846978, 1297036692682702850, 1441151880758558722, 1585267068834414594, 1729382256910270466, 1873497444986126338, 2017612633061982210, 2161727821137838082, 2305843009213693953, 1152921504606846977, 3458764513820540929, 4611686018427387905, 5764607523034234881, 6917529027641081857, 8070450532247928833] 1873497444986126338 = [1, 1152921504606846979, 144115188075855874, 2, 288230376151711746, 432345564227567618, 576460752303423490, 720575940379279362, 864691128455135234, 1008806316530991106, 1152921504606846978, 1297036692682702850, 1441151880758558722, 1585267068834414594, 1729382256910270466, 1873497444986126338, 2017612633061982210, 2161727821137838082, 2305843009213693953, 1152921504606846977, 3458764513820540929, 4611686018427387905, 5764607523034234881, 6917529027641081857, 8070450532247928833] := by decide

set_option maxRecDepth 400000 in
theorem c2_step2_14 : balanceKeyStep [1, 1152921504606846979, 144115188075855874, 2, 288230376151711746, 432345564227567618, 576460752303423490, 720575940379279362, 864691128455135234, 1008806316530991106, 1152921504606846978, 1297036692682702850, 1441151880758558722, 1585267068834414594, 1729382256910270466, 1873497444986126338, 2017612633061982210, 2161727821137838082, 2305843009213693953, 1152921504606846977, 3458764513820540929, 4611686018427387905, 5764607523034234881, 6917529027641081857, 8070450532247928833] 2017612633061982210 = [1, 1152921504606846979, 144115188075855874, 2, 288230376151711746, 432345564227567618, 576460752303423490, 720575940379279362, 864691128455135234, 1008806316530991106, 1152921504606846978, 1297036692682702850, 1441151880758558722, 1585267068834414594, 1729382256910270466, 1873497444986126338, 2017612633061982210, 2161727821137838082, 2305843009213693953, 1152921504606846977, 3458764513820540929, 4611686018427387905, 5764607523034234881, 6917529027641081857, 8070450532247928833] := by decide

set_option maxRecDepth 400000 in
theorem c2_step2_15 : balanceKeyStep [1, 1152921504606846979, 144115188075855874, 2, 288230376151711746, 432345564227567618, 576460752303423490, 720575940379279362, 864691128455135234, 1008806316530991106, 1152921504606846978, 1297036692682702850, 1441151880758558722, 1585267068834414594, 1729382256910270466, 1873497444986126338, 2017612633061982210, 2161727821137838082, 2305843009213693953, 1152921504606846977, 3458764513820540929, 4611686018427387905, 5764607523034234881, 6917529027641081857, 8070450532247928833] 2161727821137838082 = [1, 1152921504606846979, 144115188075855874, 2, 288230376151711746, 432345564227567618, 576460752303423490, 720575940379279362, 864691128455135234, 1008806316530991106, 1152921504606846978, 1297036692682702850, 1441151880758558722, 1585267068834414594, 1729382256910270466, 1873497444986126338, 2017612633061982210, 2161727821137838082, 2305843009213693953, 1152921504606846977, 3458764513820540929, 4611686018427387905, 5764607523034234881, 6917529027641081857, 8070450532247928833] := by decide

theorem c2_level2 : balanceLevelStep [1, 1152921504606846979, 144115188075855874, 2, 288230376151711746, 432345564227567618, 576460752303423490, 720575940379279362, 864691128455135234, 1008806316530991106, 1152921504606846978, 1297036692682702850, 1441151880758558722, 1585267068834414594, 1729382256910270466, 1873497444986126338, 2017612633061982210, 2161727821137838082] 2 = [1, 1152921504606846979, 144115188075855874, 2, 288230376151711746, 432345564227567618, 576460752303423490, 720575940379279362, 864691128455135234, 1008806316530991106, 1152921504606846978, 1297036692682702850, 1441151880758558722, 1585267068834414594, 1729382256910270466, 1873497444986126338, 2017612633061982210, 2161727821137838082, 2305843009213693953, 1152921504606846977, 3458764513820540929, 4611686018427387905, 5764607523034234881, 6917529027641081857, 8070450532247928833] := by
  rw [balanceLevelStep, c2_filter2]
  rw [List.foldl_cons, c2_step2_0, List.foldl_cons, c2_step2_1, List.foldl_cons, c2_step2_2, List.foldl_cons, c2_step2_3, List.foldl_cons, c2_step2_4, List.foldl_cons, c2_step2_5, List.foldl_cons, c2_step2_6, List.foldl_cons, c2_step2_7, List.foldl_cons, c2_step2_8, List.foldl_cons, c2_step2_9, List.foldl_cons, c2_step2_10, List.foldl_cons, c2_step2_11, List.foldl_cons, c2_step2_12, List.foldl_cons, c2_step2_13, List.foldl_cons, c2_step2_14, List.foldl_cons, c2_step2_15]
  rfl

set_option maxRecDepth 400000 in
theorem c2_filter1 : ([1, 1152921504606846979, 144115188075855874, 2, 288230376151711746, 432345564227567618, 576460752303423490, 720575940379279362, 864691128455135234, 1008806316530991106, 1152921504606846978, 1297036692682702850, 1441151880758558722, 1585267068834414594, 1729382256910270466, 1873497444986126338, 2017612633061982210, 2161727821137838082, 2305843009213693953, 1152921504606846977, 3458764513820540929, 4611686018427387905, 5764607523034234881, 6917529027641081857, 8070450532247928833]).filter (fun k => Morton.find_level k = 1) = [1, 2305843009213693953, 1152921504606846977, 3458764513820540929, 4611686018427387905, 5764607523034234881, 6917529027641081857, 8070450532247928833] := by decide

set_option maxRecDepth 400000 in
theorem c2_step1_0 : balanceKeyStep [1, 1152921504606846979, 144115188075855874, 2, 288230376151711746, 432345564227567618, 576460752303423490, 720575940379279362, 864691128455135234, 1008806316530991106, 1152921504606846978, 1297036692682702850, 1441151880758558722, 1585267068834414594, 1729382256910270466, 1873497444986126338, 2017612633061982210, 2161727821137838082, 2305843009213693953, 1152921504606846977, 3458764513820540929, 4611686018427387905, 5764607523034234881, 6917529027641081857, 8070450532247928833] 1 = [1, 1152921504606846979, 144115188075855874, 2, 288230376151711746, 432345564227567618, 576460752303423490, 720575940379279362, 864691128455135234, 1008806316530991106, 1152921504606846978, 1297036692682702850, 1441151880758558722, 1585267068834414594, 1729382256910270466, 1873497444986126338, 2017612633061982210, 2161727821137838082, 2305843009213693953, 1152921504606846977, 3458764513820540929, 4611686018427387905, 5764607523034234881, 6917529027641081857, 8070450532247928833] := by decide

set_option maxRecDepth 400000 in
theorem c2_step1_1 : balanceKeyStep [1, 1152921504606846979, 144115188075855874, 2, 288230376151711746, 432345564227567618, 576460752303423490, 720575940379279362, 864691128455135234, 1008806316530991106, 1152921504606846978, 1297036692682702850, 1441151880758558722, 1585267068834414594, 1729382256910270466, 1873497444986126338, 2017612633061982210, 2161727821137838082, 2305843009213693953, 1152921504606846977, 3458764513820540929, 4611686018427387905, 5764607523034234881, 6917529027641081857, 8070450532247928833] 2305843009213693953 = [1, 1152921504606846979, 144115188075855874, 2, 288230376151711746, 432345564227567618, 576460752303423490, 720575940379279362, 864691128455135234, 1008806316530991106, 1152921504606846978, 1297036692682702850, 1441151880758558722, 1585267068834414594, 1729382256910270466, 1873497444986126338, 2017612633061982210, 2161727821137838082, 2305843009213693953, 1152921504606846977, 3458764513820540929, 4611686018427387905, 5764607523034234881, 6917529027641081857, 8070450532247928833] := by decide

set_option maxRecDepth 400000 in
theorem c2_step1_2 : balanceKeyStep [1, 1152921504606846979, 144115188075855874, 2, 288230376151711746, 432345564227567618, 576460752303423490, 720575940379279362, 864691128455135234, 1008806316530991106, 1152921504606846978, 1297036692682702850, 1441151880758558722, 1585267068834414594, 1729382256910270466, 1873497444986126338, 2017612633061982210, 2161727821137838082, 2305843009213693953, 1152921504606846977, 3458764513820540929, 4611686018427387905, 5764607523034234881, 6917529027641081857, 8070450532247928833] 1152921504606846977 = [1, 1152921504606846979, 144115188075855874, 2, 288230376151711746, 432345564227567618, 576460752303423490, 720575940379279362, 864691128455135234, 1008806316530991106, 1152921504606846978, 1297036692682702850, 1441151880758558722, 1585267068834414594, 1729382256910270466, 1873497444986126338, 2017612633061982210, 2161727821137838082, 2305843009213693953, 1152921504606846977, 3458764513820540929, 4611686018427387905, 5764607523034234881, 6917529027641081857, 8070450532247928833] := by decide

set_option maxRecDepth 400000 in
theorem c2_step1_3 : balanceKeyStep [1, 1152921504606846979, 144115188075855874, 2, 288230376151711746, 432345564227567618, 576460752303423490, 720575940379279362, 864691128455135234, 1008806316530991106, 1152921504606846978, 1297036692682702850, 1441151880758558722, 1585267068834414594, 1729382256910270466, 1873497444986126338, 2017612633061982210, 2161727821137838082, 2305843009213693953, 1152921504606846977, 3458764513820540929, 4611686018427387905, 5764607523034234881, 6917529027641081857, 8070450532247928833] 3458764513820540929 = [1, 1152921504606846979, 144115188075855874, 2, 288230376151711746, 432345564227567618, 576460752303423490, 720575940379279362, 864691128455135234, 1008806316530991106, 1152921504606846978, 1297036692682702850, 1441151880758558722, 1585267068834414594, 1729382256910270466, 1873497444986126338, 2017612633061982210, 2161727821137838082, 2305843009213693953, 1152921504606846977, 3458764513820540929, 4611686018427387905, 5764607523034234881, 6917529027641081857, 8070450532247928833] := by decide

set_option maxRecDepth 400000 in
theorem c2_step1_4 : balanceKeyStep [1, 1152921504606846979, 144115188075855874, 2, 288230376151711746, 432345564227567618, 576460752303423490, 720575940379279362, 864691128455135234, 1008806316530991106, 1152921504606846978, 1297036692682702850, 1441151880758558722, 1585267068834414594, 1729382256910270466, 1873497444986126338, 2017612633061982210, 2161727821137838082, 2305843009213693953, 1152921504606846977, 3458764513820540929, 4611686018427387905, 5764607523034234881, 6917529027641081857, 8070450532247928833] 4611686018427387905 = [1, 1152921504606846979, 144115188075855874, 2, 288230376151711746, 432345564227567618, 576460752303423490, 720575940379279362, 864691128455135234, 1008806316530991106, 1152921504606846978, 1297036692682702850, 1441151880758558722, 1585267068834414594, 1729382256910270466, 1873497444986126338, 2017612633061982210, 2161727821137838082, 2305843009213693953, 1152921504606846977, 3458764513820540929, 4611686018427387905, 5764607523034234881, 6917529027641081857, 8070450532247928833] := by decide

set_option maxRecDepth 400000 in
theorem c2_step1_5 : balanceKeyStep [1, 1152921504606846979, 144115188075855874, 2, 288230376151711746, 432345564227567618, 576460752303423490, 720575940379279362, 864691128455135234, 1008806316530991106, 1152921504606846978, 1297036692682702850, 1441151880758558722, 1585267068834414594, 1729382256910270466, 1873497444986126338, 2017612633061982210, 2161727821137838082, 2305843009213693953, 1152921504606846977, 3458764513820540929, 4611686018427387905, 5764607523034234881, 6917529027641081857, 8070450532247928833] 5764607523034234881 = [1, 1152921504606846979, 144115188075855874, 2, 288230376151711746, 432345564227567618, 576460752303423490, 720575940379279362, 864691128455135234, 1008806316530991106, 1152921504606846978, 1297036692682702850, 1441151880758558722, 1585267068834414594, 1729382256910270466, 1873497444986126338, 2017612633061982210, 2161727821137838082, 2305843009213693953, 1152921504606846977, 3458764513820540929, 4611686018427387905, 5764607523034234881, 6917529027641081857, 8070450532247928833] := by decide

set_option maxRecDepth 400000 in
theorem c2_step1_6 : balanceKeyStep [1, 1152921504606846979, 144115188075855874, 2, 288230376151711746, 432345564227567618, 576460752303423490, 720575940379279362, 864691128455135234, 1008806316530991106, 1152921504606846978, 1297036692682702850, 1441151880758558722, 1585267068834414594, 1729382256910270466, 1873497444986126338, 2017612633061982210, 2161727821137838082, 2305843009213693953, 1152921504606846977, 3458764513820540929, 4611686018427387905, 5764607523034234881, 6917529027641081857, 8070450532247928833] 6917529027641081857 = [1, 1152921504606846979, 144115188075855874, 2, 288230376151711746, 432345564227567618, 576460752303423490, 720575940379279362, 864691128455135234, 1008806316530991106, 1152921504606846978, 1297036692682702850, 1441151880758558722, 1585267068834414594, 1729382256910270466, 1873497444986126338, 2017612633061982210, 2161727821137838082, 2305843009213693953, 1152921504606846977, 3458764513820540929, 4611686018427387905, 5764607523034234881, 6917529027641081857, 8070450532247928833] := by decide

set_option maxRecDepth 400000 in
theorem c2_step1_7 : balanceKeyStep [1, 1152921504606846979, 144115188075855874, 2, 288230376151711746, 432345564227567618, 576460752303423490, 720575940379279362, 864691128455135234, 1008806316530991106, 1152921504606846978, 1297036692682702850, 1441151880758558722, 1585267068834414594, 1729382256910270466, 1873497444986126338, 2017612633061982210, 2161727821137838082, 2305843009213693953, 1152921504606846977, 3458764513820540929, 4611686018427387905, 5764607523034234881, 6917529027641081857, 8070450532247928833] 8070450532247928833 = [1, 1152921504606846979, 144115188075855874, 2, 288230376151711746, 432345564227567618, 576460752303423490, 720575940379279362, 864691128455135234, 1008806316530991106, 1152921504606846978, 1297036692682702850, 1441151880758558722, 1585267068834414594, 1729382256910270466, 1873497444986126338, 2017612633061982210, 2161727821137838082, 2305843009213693953, 1152921504606846977, 3458764513820540929, 4611686018427387905, 5764607523034234881, 6917529027641081857, 8070450532247928833] := by decide

theorem c2_level1 : balanceLevelStep [1, 1152921504606846979, 144115188075855874, 2, 288230376151711746, 432345564227567618, 576460752303423490, 720575940379279362, 864691128455135234, 1008806316530991106, 1152921504606846978, 1297036692682702850, 1441151880758558722, 1585267068834414594, 1729382256910270466, 1873497444986126338, 2017612633061982210, 2161727821137838082, 2305843009213693953, 1152921504606846977, 3458764513820540929, 4611686018427387905, 5764607523034234881, 6917529027641081857, 8070450532247928833] 1 = [1, 1152921504606846979, 144115188075855874, 2, 288230376151711746, 432345564227567618, 576460752303423490, 720575940379279362, 864691128455135234, 1008806316530991106, 1152921504606846978, 1297036692682702850, 1441151880758558722, 1585267068834414594, 1729382256910270466, 1873497444986126338, 2017612633061982210, 2161727821137838082, 2305843009213693953, 1152921504606846977, 3458764513820540929, 4611686018427387905, 5764607523034234881, 6917529027641081857, 8070450532247928833] := by
  rw [balanceLevelStep, c2_filter1]
  rw [List.foldl_cons, c2_step1_0, List.foldl_cons, c2_step1_1, List.foldl_cons, c2_step1_2, List.foldl_cons, c2_step1_3, List.foldl_cons, c2_step1_4, List.foldl_cons, c2_step1_5, List.foldl_cons, c2_step1_6, List.foldl_cons, c2_step1_7]
  rfl

set_option maxRecDepth 400000 in
theorem c2_level0 : balanceLevelStep [1, 1152921504606846979, 144115188075855874, 2, 288230376151711746, 432345564227567618, 576460752303423490, 720575940379279362, 864691128455135234, 1008806316530991106, 1152921504606846978, 1297036692682702850, 1441151880758558722, 1585267068834414594, 1729382256910270466, 1873497444986126338, 2017612633061982210, 2161727821137838082, 2305843009213693953, 1152921504606846977, 3458764513820540929, 4611686018427387905, 5764607523034234881, 6917529027641081857, 8070450532247928833] 0 = [1, 1152921504606846979, 144115188075855874, 2, 288230376151711746, 432345564227567618, 576460752303423490, 720575940379279362, 864691128455135234, 1008806316530991106, 1152921504606846978, 1297036692682702850, 1441151880758558722, 1585267068834414594, 1729382256910270466, 1873497444986126338, 2017612633061982210, 2161727821137838082, 2305843009213693953, 1152921504606846977, 3458764513820540929, 4611686018427387905, 5764607523034234881, 6917529027641081857, 8070450532247928833] := by decide

theorem c2_balanced_fold :
    ((List.range Morton.DEEPEST_LEVEL).reverse).foldl balanceLevelStep
      (c2Keys.foldl balanceInsert []) = [1, 1152921504606846979, 144115188075855874, 2, 288230376151711746, 432345564227567618, 576460752303423490, 720575940379279362, 864691128455135234, 1008806316530991106, 1152921504606846978, 1297036692682702850, 1441151880758558722, 1585267068834414594, 1729382256910270466, 1873497444986126338, 2017612633061982210, 2161727821137838082, 2305843009213693953, 1152921504606846977, 3458764513820540929, 4611686018427387905, 5764607523034234881, 6917529027641081857, 8070450532247928833] := by
  have hr : (List.range Morton.DEEPEST_LEVEL).reverse
      = [15, 14, 13, 12, 11, 10, 9, 8, 7, 6, 5, 4, 3, 2, 1, 0] := by decide
  have hinit : c2Keys.foldl balanceInsert [] = [1, 1152921504606846979] := by decide
  rw [hr, hinit]
  rw [List.foldl_cons, c2_levels_high 15 (by decide)]
  rw [List.foldl_cons, c2_levels_high 14 (by decide)]
  rw [List.foldl_cons, c2_levels_high 13 (by decide)]
  rw [List.foldl_cons, c2_levels_high 12 (by decide)]
  rw [List.foldl_cons, c2_levels_high 11 (by decide)]
  rw [List.foldl_cons, c2_levels_high 10 (by decide)]
  rw [List.foldl_cons, c2_levels_high 9 (by decide)]
  rw [List.foldl_cons, c2_levels_high 8 (by decide)]
  rw [List.foldl_cons, c2_levels_high 7 (by decide)]
  rw [List.foldl_cons, c2_levels_high 6 (by decide)]
  rw [List.foldl_cons, c2_levels_high 5 (by decide)]
  rw [List.foldl_cons, c2_levels_high 4 (by decide)]
  rw [List.foldl_cons, c2_level3]
  rw [List.foldl_cons, c2_level2]
  rw [List.foldl_cons, c2_level1]
  rw [List.foldl_cons, c2_level0]
  rfl

set_option maxRecDepth 400000 in
theorem c2_not_mem_balance : 1 ∉ Tree.balance c2Keys := by
  have hb : Tree.balance c2Keys
      = linearize_keys (sortKeys [1, 1152921504606846979, 144115188075855874, 2, 288230376151711746, 432345564227567618, 576460752303423490, 720575940379279362, 864691128455135234, 1008806316530991106, 1152921504606846978, 1297036692682702850, 1441151880758558722, 1585267068834414594, 1729382256910270466, 1873497444986126338, 2017612633061982210, 2161727821137838082, 2305843009213693953, 1152921504606846977, 3458764513820540929, 4611686018427387905, 5764607523034234881, 6917529027641081857, 8070450532247928833]) := by
    rw [show Tree.balance c2Keys
        = linearize_keys (sortKeys (((List.range Morton.DEEPEST_LEVEL).reverse).foldl
            balanceLevelStep (c2Keys.foldl balanceInsert []))) from rfl,
      c2_balanced_fold]
  rw [hb]
  decide

end Tree

set_option maxRecDepth 400000 in
/-- C2: in `balanced_tree` the result of `linearized.balance()` is discarded
(phase 7.ii), and phase 8 assigns points against the *unbalanced* block list:
with local blocks `1` (level 1) and `2^60 + 3` (a face-adjacent level-3 block),
the point with key 16 is assigned block 1, but block 1 is not a member of the
balanced tree `Tree::balance` would return for these blocks (balancing replaces
it by level-2 keys).  The assigned key therefore does not lie in the balanced
block tree, contradicting the claim. -/
theorem C2_balanced_tree_ignores_balance :
    DistributedTree.phase78_map [(16, 1), (2 ^ 60 + 16, 2 ^ 60 + 3)] [16] = [(16, 1)]
    ∧ ([((16 : Nat), (1 : Nat)), (2 ^ 60 + 16, 2 ^ 60 + 3)]).map (fun p => p.2)
        = Tree.c2Keys
    ∧ 1 ∉ Tree.balance Tree.c2Keys := by
  refine ⟨by decide, by decide, Tree.c2_not_mem_balance⟩

/-- C10: `DistributedTree::assign_nodes_to_leaves` never fails: the returned
map is defined on exactly those input leaves that either are themselves members
of the node list or have a strict ancestor in it; a leaf with no containing
node is silently absent from the returned map, and a leaf that is itself a node
maps to itself. -/
theorem C10_assign_nodes_to_leaves_total (leaves nodes : List Nat) (l : Nat) :
    ((DistributedTree.lookupMap
        (DistributedTree.assign_nodes_to_leaves leaves nodes) l).isSome
      ↔ l ∈ leaves ∧ (l ∈ nodes ∨ ∃ n ∈ nodes, Morton.is_ancestor n l = true))
    ∧ (l ∈ leaves → l ∈ nodes →
        DistributedTree.lookupMap (DistributedTree.assign_nodes_to_leaves leaves nodes) l
          = some l) := by
  constructor
  · rw [DistributedTree.lookupMap_assign]
    by_cases h : l ∈ leaves ∧ (DistributedTree.leafValue nodes l).isSome
    · rw [if_pos h]
      constructor
      · intro _
        exact ⟨h.1, (DistributedTree.leafValue_isSome_iff nodes l).mp h.2⟩
      · intro _
        exact h.2
    · rw [if_neg h]
      simp only [Option.isSome_none, Bool.false_eq_true, false_iff]
      intro hcon
      exact h ⟨hcon.1, (DistributedTree.leafValue_isSome_iff nodes l).mpr hcon.2⟩
  · intro hl hn
    have hv : DistributedTree.leafValue nodes l = some l := by
      rw [DistributedTree.leafValue, if_pos hn]
    rw [DistributedTree.lookupMap_assign, if_pos ⟨hl, by rw [hv]; rfl⟩, hv]

/-- Witness for C10 at leaves `[16, 17]`, nodes `[16]`, leaf `16`. -/
theorem C10_assign_nodes_to_leaves_total_witness :
    ((DistributedTree.lookupMap
        (DistributedTree.assign_nodes_to_leaves [16, 17] [16]) 16).isSome
      ↔ 16 ∈ [16, 17] ∧ (16 ∈ [16] ∨ ∃ n ∈ [16], Morton.is_ancestor n 16 = true))
    ∧ (16 ∈ [16, 17] → 16 ∈ [16] →
        DistributedTree.lookupMap (DistributedTree.assign_nodes_to_leaves [16, 17] [16]) 16
          = some 16) :=
  C10_assign_nodes_to_leaves_total [16, 17] [16] 16

set_option maxRecDepth 200000 in
/-- C1 counterexample: 151 copies of the same deepest-level point key 16 under
the root block 0 exceed `NCRIT = 150` points, yet `split_blocks` keeps block 0:
the returned map assigns leaf 16 to block 0, and all 151 input points (counted
with multiplicity, every one a descendant of block 0) lie in block 0's subtree.
The loop counts map entries — one per distinct leaf key — not points. -/
theorem C1_split_blocks_counterexample :
    DistributedTree.split_blocks (List.replicate 151 16) [0] = some [(16, 0)]
    ∧ (List.replicate 151 16).countP
        (fun p => p == 0 || Morton.is_ancestor 0 p) = 151
    ∧ DistributedTree.NCRIT < 151 := by
  refine ⟨by decide, by decide, by decide⟩

/-- C1 amended: whenever `split_blocks` returns a map, the map's keys (the
distinct leaf keys) are pairwise distinct and, for every block `b`, the number
of map entries whose value is `b` — the number of distinct leaf keys assigned
to block `b` — is at most `NCRIT = 150`. -/
theorem C1_split_blocks_ncrit_distinct (leaves blocktree : List Nat)
    (m : List (Nat × Nat))
    (h : DistributedTree.split_blocks leaves blocktree = some m) :
    (m.map (fun p => p.1)).Nodup
    ∧ ∀ b, (m.map (fun p => p.2)).count b ≤ DistributedTree.NCRIT :=
  DistributedTree.splitLoop_bounded leaves _ blocktree m h

set_option maxRecDepth 200000 in
/-- Witness for the amended C1 at leaves `[16]`, block tree `[0]`. -/
theorem C1_split_blocks_ncrit_distinct_witness :
    (([((16 : Nat), (0 : Nat))]).map (fun p => p.1)).Nodup
    ∧ ∀ b, (([((16 : Nat), (0 : Nat))]).map (fun p => p.2)).count b
        ≤ DistributedTree.NCRIT :=
  C1_split_blocks_ncrit_distinct [16] [0] [(16, 0)] (by decide)

set_option maxRecDepth 20000 in
/-- C3 counterexample: for the pair `a = 0` (the root) and `b = 16` (the
deepest-level key at the root's anchor) we have `a < b`, yet
`Tree::complete_region` does not return a list at all: `finest_ancestor`
climbs the ancestors of `b` looking for a member of the root's ancestor set,
which is empty, so the Rust loop underflows `level - 1` past the root and
panics (modelled by `none`). -/
theorem C3_complete_region_counterexample :
    (0 : Nat) < 16 ∧ Tree.complete_region 0 16 = none := by
  refine ⟨by decide, by decide⟩

/-- C3 amended: for valid keys `a < b` with `a` strictly below the root,
`complete_region` returns a list that is sorted ascending, contains neither `a`
nor `b`, and whose members are pairwise non-overlapping (no member is an
ancestor of another). -/
theorem C3_complete_region_correct {a b : Nat} (ha : Morton.ValidKey a)
    (hb : Morton.ValidKey b) (hab : a < b) (ha1 : 1 ≤ Morton.lvl a) :
    ∃ r, Tree.complete_region a b = some r
      ∧ List.Sorted (· ≤ ·) r ∧ a ∉ r ∧ b ∉ r
      ∧ ∀ u ∈ r, ∀ v ∈ r, Morton.is_ancestor u v = false :=
  Tree.complete_region_spec ha hb hab ha1

/-- Witness for the amended C3 at `a = 1`, `b = 16`. -/
theorem C3_complete_region_correct_witness :
    ∃ r, Tree.complete_region 1 16 = some r
      ∧ List.Sorted (· ≤ ·) r ∧ 1 ∉ r ∧ 16 ∉ r
      ∧ ∀ u ∈ r, ∀ v ∈ r, Morton.is_ancestor u v = false :=
  @C3_complete_region_correct 1 16 (by decide) (by decide) (by decide) (by decide)

/-- C4: the work-list loop of `Tree::complete_region` terminates for every pair
of (constructible, i.e. valid) keys `a < b`: run with the ancestor sets the
function builds, any work list, any accumulated output and any fuel of at
least `crFuel work_list` iterations, the loop finishes (the weight
`crFuel` strictly decreases at each step because children are pushed only for
ancestors of `a` or `b`, which lie at levels at most 15 — no key at
`DEEPEST_LEVEL = 16` is ever expanded). -/
theorem C4_complete_region_loop_terminates {a b : Nat} (ha : Morton.ValidKey a)
    (hb : Morton.ValidKey b) (hab : a < b) (fuel : Nat) (wl acc : List Nat)
    (hfuel : Tree.crFuel wl ≤ fuel) :
    (Tree.crLoop a b ((Morton.ancestors a).erase a) ((Morton.ancestors b).erase b)
      fuel wl acc).isSome = true := by
  rw [Morton.erase_ancestors_self, Morton.erase_ancestors_self]
  refine Tree.crLoop_isSome a b _ _ ?_ fuel wl acc hfuel
  intro c hc
  rcases hc with hc | hc
  · have h := Morton.mem_ancestors_valid ha hc
    have := ha.1
    exact ⟨h.1, by omega⟩
  · have h := Morton.mem_ancestors_valid hb hc
    have := hb.1
    exact ⟨h.1, by omega⟩

/-- Witness for C4 at `a = 1`, `b = 2`, work list `[16]`, fuel `9`. -/
theorem C4_complete_region_loop_terminates_witness :
    (Tree.crLoop 1 2 ((Morton.ancestors 1).erase 1) ((Morton.ancestors 2).erase 2)
      9 [16] []).isSome = true :=
  @C4_complete_region_loop_terminates 1 2 (by decide) (by decide) (by decide)
    9 [16] [] (by decide)

/-- C5 counterexample: `[1, 1, 2]` is sorted (`Sorted (· ≤ ·)`), but
`linearize_keys` keeps the duplicated key 1 next to its descendant 2: the
output is `[1, 2]` and 1 is an ancestor of 2, so the output is not an
antichain.  The pairwise walk only drops a key when it is an ancestor of its
immediate successor, which a duplicate never is. -/
theorem C5_linearize_keys_counterexample :
    List.Sorted (· ≤ ·) [1, 1, 2]
    ∧ Tree.linearize_keys [1, 1, 2] = [1, 2]
    ∧ Morton.is_ancestor 1 2 = true := by
  refine ⟨by decide, by decide, by decide⟩

/-- C5 amended: for a strictly sorted list of valid keys, `linearize_keys`
returns a sorted list in which no member is an ancestor of any other. -/
theorem C5_linearize_keys_antichain {l : List Nat}
    (hv : ∀ k ∈ l, Morton.ValidKey k) (hs : List.Pairwise (· < ·) l) :
    List.Sorted (· ≤ ·) (Tree.linearize_keys l)
    ∧ ∀ u ∈ Tree.linearize_keys l, ∀ v ∈ Tree.linearize_keys l,
        Morton.is_ancestor u v = false := by
  constructor
  · exact List.Pairwise.sublist (Tree.linearize_keys_sublist l)
      (hs.imp (fun h => le_of_lt h))
  · match l with
    | [] => intro u hu; cases hu
    | [x] => intro u hu; cases hu
    | a :: b :: rest => exact Tree.linPairs_antichain (a :: b :: rest) hv hs

/-- Witness for the amended C5 at `[1, 16]`. -/
theorem C5_linearize_keys_antichain_witness :
    List.Sorted (· ≤ ·) (Tree.linearize_keys [1, 16])
    ∧ ∀ u ∈ Tree.linearize_keys [1, 16], ∀ v ∈ Tree.linearize_keys [1, 16],
        Morton.is_ancestor u v = false :=
  @C5_linearize_keys_antichain [1, 16] (by decide) (by decide)

/-- C6 counterexample: the one-element sorted input `[0]` is not returned
unchanged: `tuple_windows` yields no pairs on it and nothing is ever emitted,
so `linearize_keys [0] = []` — the output is empty and in particular does not
end with the input's last element. -/
theorem C6_linearize_keys_counterexample :
    List.Sorted (· ≤ ·) [0]
    ∧ Tree.linearize_keys [0] = []
    ∧ ([] : List Nat).getLast? ≠ [0].getLast? := by
  refine ⟨by decide, by decide, by decide⟩

/-- C6 amended: on every input with at least two elements (sorted or not),
`linearize_keys` returns a non-empty list whose last element is the last
element of the input; inputs of length at most one produce `[]`. -/
theorem C6_linearize_keys_keeps_last {keys : List Nat} (h : 2 ≤ keys.length) :
    Tree.linearize_keys keys ≠ []
    ∧ (Tree.linearize_keys keys).getLast? = keys.getLast? := by
  match keys, h with
  | a :: b :: rest, _ =>
      exact ⟨Tree.linPairs_ne_nil a (b :: rest), Tree.linPairs_getLast? (a :: b :: rest)⟩

/-- Witness for the amended C6 at `[1, 16]`. -/
theorem C6_linearize_keys_keeps_last_witness :
    Tree.linearize_keys [1, 16] ≠ []
    ∧ (Tree.linearize_keys [1, 16]).getLast? = [1, 16].getLast? :=
  @C6_linearize_keys_keeps_last [1, 16] (by decide)

set_option maxRecDepth 100000 in
/-- C8: `find_key_in_direction` bounds the shifted anchor by
`1 << level` instead of `1 << DEEPEST_LEVEL = 2^16`: the level-1 key with
anchor `(32768, 0, 0)` and the zero direction shifts every coordinate by 0,
so each stays inside `[0, 2^16)`, yet the function returns `none` because
`32768` is not below `1 << 1 = 2`. -/
theorem C8_find_key_in_direction_bug :
    Morton.decode_key (Morton.encode_anchor (32768, 0, 0) 1) = (32768, 0, 0)
    ∧ Morton.find_level (Morton.encode_anchor (32768, 0, 0) 1) = 1
    ∧ ((32768 : Int) + (1 <<< (16 - 1)) * 0 < 2 ^ 16)
    ∧ Morton.find_key_in_direction (Morton.encode_anchor (32768, 0, 0) 1) (0, 0, 0)
        = none := by
  refine ⟨by decide, by decide, by decide, by decide⟩

set_option maxRecDepth 100000 in
/-- C9: `finest_last_child` of the root is not the deepest-level descendant
with maximal anchor: the interleave bits are never shifted back by
`LEVEL_DISPLACEMENT` and `DEEPEST_LEVEL` is added to the raw interleave, so
the result `2^48 + 15` carries level field 15 (not 16) and differs from the
key that the claim describes, `encode_anchor((65535, 65535, 65535), 16)`. -/
theorem C9_finest_last_child_bug :
    Morton.finest_last_child 0 = 2 ^ 48 + 15
    ∧ Morton.find_level (2 ^ 48 + 15) = 15
    ∧ Morton.encode_anchor (65535, 65535, 65535) 16 = (2 ^ 48 - 1) * 2 ^ 15 + 16
    ∧ Morton.finest_last_child 0 ≠ Morton.encode_anchor (65535, 65535, 65535) 16 := by
  refine ⟨by decide, by decide, by decide, by decide⟩

namespace Tree

theorem specSpread_zero : ∀ m, specSpread m 0 = 0
  | 0 => rfl
  | m + 1 => by rw [specSpread, specSpread_zero m]

theorem specSpread_step (m a : Nat) :
    specSpread m a = (if m = 0 then 0 else a % 2) + 8 * specSpread (m - 1) (a / 2) := by
  match m with
  | 0 => simp [specSpread]
  | m + 1 => rw [specSpread, if_neg (by omega)]; rfl

theorem specCompress_zero : ∀ n, specCompress n 0 = 0
  | 0 => rfl
  | n + 1 => by rw [specCompress, specCompress_zero n]

theorem specCompress_step (n w : Nat) :
    specCompress n w = (if n = 0 then 0 else w % 2) + 2 * specCompress (n - 1) (w / 8) := by
  match n with
  | 0 => simp [specCompress]
  | n + 1 => rw [specCompress, if_neg (by omega)]; rfl

theorem specSpread_bound : ∀ m a b c,
    specSpread m a + 2 * specSpread m b + 4 * specSpread m c < 8 ^ m
  | 0, _, _, _ => by simp [specSpread]
  | m + 1, a, b, c => by
      have ih := specSpread_bound m (a / 2) (b / 2) (c / 2)
      rw [specSpread, specSpread, specSpread]
      have ha : a % 2 < 2 := Nat.mod_lt _ (by norm_num)
      have hb : b % 2 < 2 := Nat.mod_lt _ (by norm_num)
      have hc : c % 2 < 2 := Nat.mod_lt _ (by norm_num)
      have h8 : 8 ^ (m + 1) = 8 * 8 ^ m := by ring
      omega

theorem specSpread_mod : ∀ m x, specSpread m (x % 2 ^ m) = specSpread m x
  | 0, x => rfl
  | m + 1, x => by
      have hsplit : x % 2 ^ (m + 1) = x % 2 + 2 * (x / 2 % 2 ^ m) := by
        have h1 := Nat.div_add_mod x 2
        have h2 := Nat.div_add_mod (x / 2) (2 ^ m)
        have h3 : x % 2 ^ (m + 1) = x % 2 + 2 * (x / 2 % 2 ^ m) := by
          rw [pow_succ, Nat.mul_comm (2 ^ m) 2, Nat.mod_mul]
        exact h3
      rw [specSpread, specSpread, hsplit]
      have hx2 : x % 2 < 2 := Nat.mod_lt _ (by norm_num)
      have hm : (x % 2 + 2 * (x / 2 % 2 ^ m)) % 2 = x % 2 := by omega
      have hd : (x % 2 + 2 * (x / 2 % 2 ^ m)) / 2 = x / 2 % 2 ^ m := by omega
      rw [hm, hd, specSpread_mod m (x / 2)]

theorem specSpread_split : ∀ m n x,
    specSpread (m + n) x = specSpread m x + 8 ^ m * specSpread n (x / 2 ^ m)
  | 0, n, x => by simp [specSpread]
  | m + 1, n, x => by
      have ih := specSpread_split m n (x / 2)
      have hshift : m + 1 + n = (m + n) + 1 := by omega
      rw [hshift, specSpread, ih, specSpread]
      have hdiv : x / 2 / 2 ^ m = x / 2 ^ (m + 1) := by
        rw [Nat.div_div_eq_div_mul, ← pow_succ']
      rw [hdiv]
      ring

theorem specCompress_split : ∀ m n w,
    specCompress (m + n) w = specCompress m w + 2 ^ m * specCompress n (w / 8 ^ m)
  | 0, n, w => by simp [specCompress]
  | m + 1, n, w => by
      have ih := specCompress_split m n (w / 8)
      have hshift : m + 1 + n = (m + n) + 1 := by omega
      rw [hshift, specCompress, ih, specCompress]
      have hdiv : w / 8 / 8 ^ m = w / 8 ^ (m + 1) := by
        rw [Nat.div_div_eq_div_mul, ← pow_succ']
      rw [hdiv]
      ring

theorem specCompress_three (w : Nat) :
    specCompress 3 w = w % 2 + 2 * (w / 8 % 2) + 4 * (w / 64 % 2) := by
  show w % 2 + 2 * (w / 8 % 2 + 2 * (w / 8 / 8 % 2 + 2 * 0)) = _
  have hdiv : w / 8 / 8 = w / 64 := by rw [Nat.div_div_eq_div_mul]
  rw [hdiv]
  ring

theorem or_split_three {x y : Nat} (X Y : Nat) (hx : x < 8) (hy : y < 8) :
    (x + 8 * X) ||| (y + 8 * Y) = (x ||| y) + 8 * (X ||| Y) := by
  have hxe : x + 8 * X = (X <<< 3) ||| x := by
    rw [Morton.shiftLeft_or_eq_add X 3 (show x < 2 ^ 3 by omega)]
    ring
  have hye : y + 8 * Y = (Y <<< 3) ||| y := by
    rw [Morton.shiftLeft_or_eq_add Y 3 (show y < 2 ^ 3 by omega)]
    ring
  have hor : x ||| y < 8 := by
    have := Nat.or_lt_two_pow (n := 3) (by simpa using hx) (by simpa using hy)
    simpa using this
  have hdistrib : ((X ||| Y) <<< 3) = (X <<< 3) ||| (Y <<< 3) := by
    refine Nat.eq_of_testBit_eq ?_
    intro i
    simp [Nat.testBit_shiftLeft, Nat.testBit_or, Bool.and_or_distrib_left]
  rw [hxe, hye]
  rw [show (X <<< 3 ||| x) ||| (Y <<< 3 ||| y) = ((X ||| Y) <<< 3) ||| (x ||| y) by
    rw [hdistrib]
    rw [Nat.or_assoc, Nat.or_assoc]
    congr 1
    rw [← Nat.or_assoc, Nat.or_comm x _, Nat.or_assoc]]
  rw [Morton.shiftLeft_or_eq_add (X ||| Y) 3 (show x ||| y < 2 ^ 3 by omega)]
  ring

theorem or_three_small : ∀ u < 2, ∀ v < 2, ∀ w < 2,
    ((4 * w ||| 2 * v) ||| u) = u + 2 * v + 4 * w := by decide

theorem or_two_small : ∀ v < 2, ∀ w < 2, (4 * w ||| 2 * v) = 2 * v + 4 * w := by decide

theorem specSpread_or_three : ∀ m a b c,
    ((4 * specSpread m c ||| 2 * specSpread m b) ||| specSpread m a)
      = specSpread m a + 2 * specSpread m b + 4 * specSpread m c
  | 0, a, b, c => by simp [specSpread]
  | m + 1, a, b, c => by
      have ih := specSpread_or_three m (a / 2) (b / 2) (c / 2)
      have ha : a % 2 < 2 := Nat.mod_lt _ (by norm_num)
      have hb : b % 2 < 2 := Nat.mod_lt _ (by norm_num)
      have hc : c % 2 < 2 := Nat.mod_lt _ (by norm_num)
      rw [specSpread, specSpread, specSpread]
      have h4 : 4 * (c % 2 + 8 * specSpread m (c / 2))
          = 4 * (c % 2) + 8 * (4 * specSpread m (c / 2)) := by ring
      have h2 : 2 * (b % 2 + 8 * specSpread m (b / 2))
          = 2 * (b % 2) + 8 * (2 * specSpread m (b / 2)) := by ring
      rw [h4, h2]
      rw [or_split_three (4 * specSpread m (c / 2)) (2 * specSpread m (b / 2))
        (by omega) (by omega)]
      rw [or_split_three ((4 * specSpread m (c / 2)) ||| (2 * specSpread m (b / 2)))
        (specSpread m (a / 2))
        (by rw [or_two_small (b % 2) hb (c % 2) hc]; omega) (by omega)]
      rw [or_three_small (a % 2) ha (b % 2) hb (c % 2) hc, ih]
      ring

end Tree

namespace Tree

set_option maxRecDepth 200000 in
theorem encode_table_x : ∀ b < 256, Morton.X_LOOKUP_ENCODE.getD b 0 = specSpread 8 b := by
  decide

set_option maxRecDepth 200000 in
theorem encode_table_y : ∀ b < 256, Morton.Y_LOOKUP_ENCODE.getD b 0 = 2 * specSpread 8 b := by
  decide

set_option maxRecDepth 200000 in
theorem encode_table_z : ∀ b < 256, Morton.Z_LOOKUP_ENCODE.getD b 0 = 4 * specSpread 8 b := by
  decide

theorem byte_hi {x : Nat} (hx : x < 2 ^ 16) :
    (x >>> Morton.BYTE_DISPLACEMENT) &&& Morton.BYTE_MASK = x / 2 ^ 8 := by
  have h1 : x >>> Morton.BYTE_DISPLACEMENT = x / 2 ^ 8 := by
    rw [show Morton.BYTE_DISPLACEMENT = 8 from rfl, Nat.shiftRight_eq_div_pow]
  have h2 : Morton.BYTE_MASK = 2 ^ 8 - 1 := by norm_num [Morton.BYTE_MASK]
  rw [h1, h2, Nat.and_pow_two_sub_one_eq_mod]
  exact Nat.mod_eq_of_lt (by omega)

theorem byte_lo (x : Nat) : x &&& Morton.BYTE_MASK = x % 2 ^ 8 := by
  have h2 : Morton.BYTE_MASK = 2 ^ 8 - 1 := by norm_num [Morton.BYTE_MASK]
  rw [h2, Nat.and_pow_two_sub_one_eq_mod]

theorem byte_lt (x : Nat) : x % 2 ^ 8 < 256 := Nat.mod_lt _ (by norm_num)

theorem byte_hi_lt {x : Nat} (hx : x < 2 ^ 16) : x / 2 ^ 8 < 256 := by omega

/-- The table-driven `encode_anchor` agrees with the spec's arithmetic
interleave on all in-range anchors and levels. -/
theorem encode_anchor_eq_spec {x y z ℓ : Nat} (hx : x < 2 ^ 16) (hy : y < 2 ^ 16)
    (hz : z < 2 ^ 16) (hl : ℓ < 2 ^ 15) :
    Morton.encode_anchor (x, y, z) ℓ = specEncode (x, y, z) ℓ := by
  show ((((Morton.Z_LOOKUP_ENCODE.getD ((z >>> Morton.BYTE_DISPLACEMENT) &&& Morton.BYTE_MASK) 0
      ||| Morton.Y_LOOKUP_ENCODE.getD ((y >>> Morton.BYTE_DISPLACEMENT) &&& Morton.BYTE_MASK) 0
      ||| Morton.X_LOOKUP_ENCODE.getD ((x >>> Morton.BYTE_DISPLACEMENT) &&& Morton.BYTE_MASK) 0)
      <<< 24)
      ||| Morton.Z_LOOKUP_ENCODE.getD (z &&& Morton.BYTE_MASK) 0
      ||| Morton.Y_LOOKUP_ENCODE.getD (y &&& Morton.BYTE_MASK) 0
      ||| Morton.X_LOOKUP_ENCODE.getD (x &&& Morton.BYTE_MASK) 0)
      <<< Morton.LEVEL_DISPLACEMENT) ||| ℓ = specEncode (x, y, z) ℓ
  rw [byte_hi hx, byte_hi hy, byte_hi hz, byte_lo x, byte_lo y, byte_lo z]
  rw [encode_table_x _ (byte_hi_lt hx), encode_table_y _ (byte_hi_lt hy),
    encode_table_z _ (byte_hi_lt hz),
    encode_table_x _ (byte_lt x), encode_table_y _ (byte_lt y), encode_table_z _ (byte_lt z)]
  rw [specSpread_or_three 8 (x / 2 ^ 8) (y / 2 ^ 8) (z / 2 ^ 8)]
  have hlow : 4 * specSpread 8 (z % 2 ^ 8) ||| (2 * specSpread 8 (y % 2 ^ 8)
      ||| specSpread 8 (x % 2 ^ 8))
      = specSpread 8 (x % 2 ^ 8) + 2 * specSpread 8 (y % 2 ^ 8)
        + 4 * specSpread 8 (z % 2 ^ 8) := by
    rw [← Nat.or_assoc]
    exact specSpread_or_three 8 _ _ _
  have hlob := specSpread_bound 8 (x % 2 ^ 8) (y % 2 ^ 8) (z % 2 ^ 8)
  simp only [Nat.or_assoc]
  rw [hlow]
  have hshift : ((specSpread 8 (x / 2 ^ 8) + 2 * specSpread 8 (y / 2 ^ 8)
        + 4 * specSpread 8 (z / 2 ^ 8)) <<< 24)
      ||| (specSpread 8 (x % 2 ^ 8) + 2 * specSpread 8 (y % 2 ^ 8)
        + 4 * specSpread 8 (z % 2 ^ 8))
      = (specSpread 8 (x / 2 ^ 8) + 2 * specSpread 8 (y / 2 ^ 8)
        + 4 * specSpread 8 (z / 2 ^ 8)) * 2 ^ 24
      + (specSpread 8 (x % 2 ^ 8) + 2 * specSpread 8 (y % 2 ^ 8)
        + 4 * specSpread 8 (z % 2 ^ 8)) := by
    refine Morton.shiftLeft_or_eq_add _ 24 ?_
    have h88 : (8 : Nat) ^ 8 = 2 ^ 24 := by norm_num
    omega
  rw [hshift]
  have hkey : (specSpread 8 (x / 2 ^ 8) + 2 * specSpread 8 (y / 2 ^ 8)
        + 4 * specSpread 8 (z / 2 ^ 8)) * 2 ^ 24
      + (specSpread 8 (x % 2 ^ 8) + 2 * specSpread 8 (y % 2 ^ 8)
        + 4 * specSpread 8 (z % 2 ^ 8))
      = specSpread 16 x + 2 * specSpread 16 y + 4 * specSpread 16 z := by
    have hsx := specSpread_split 8 8 x
    have hsy := specSpread_split 8 8 y
    have hsz := specSpread_split 8 8 z
    have hmx := specSpread_mod 8 x
    have hmy := specSpread_mod 8 y
    have hmz := specSpread_mod 8 z
    have h88 : (8 : Nat) ^ 8 = 2 ^ 24 := by norm_num
    rw [show (16 : Nat) = 8 + 8 from rfl, hsx, hsy, hsz, h88, ← hmx, ← hmy, ← hmz]
    ring
  rw [hkey]
  rw [show Morton.LEVEL_DISPLACEMENT = 15 from rfl]
  rw [Morton.shiftLeft_or_eq_add _ 15 hl]
  rfl

end Tree

namespace Tree

set_option maxRecDepth 400000 in
theorem decode_table_x : ∀ c < 512, Morton.X_LOOKUP_DECODE.getD c 0 = specCompress 3 c := by
  decide

set_option maxRecDepth 400000 in
theorem decode_table_y : ∀ c < 512,
    Morton.Y_LOOKUP_DECODE.getD c 0 = specCompress 3 (c / 2) := by
  decide

set_option maxRecDepth 400000 in
theorem decode_table_z : ∀ c < 512,
    Morton.Z_LOOKUP_DECODE.getD c 0 = specCompress 3 (c / 4) := by
  decide

theorem specCompress_three_lt (w : Nat) : specCompress 3 w < 8 := by
  rw [specCompress_three]
  omega

theorem or_acc {acc v : Nat} (s : Nat) (ha : acc < 2 ^ s) (hv : v < 8) :
    acc ||| (v <<< s) = acc + 2 ^ s * v := by
  rw [Nat.or_comm, Morton.shiftLeft_or_eq_add v s ha]
  ring

theorem decode_key_helper_sum (key : Nat) (T : List Nat)
    (hT : ∀ c < 512, T.getD c 0 < 8) :
    Morton.decode_key_helper key T
      = T.getD (key % 512) 0
        + 8 * T.getD (key / 2 ^ 9 % 512) 0
        + 64 * T.getD (key / 2 ^ 18 % 512) 0
        + 512 * T.getD (key / 2 ^ 27 % 512) 0
        + 4096 * T.getD (key / 2 ^ 36 % 512) 0
        + 32768 * T.getD (key / 2 ^ 45 % 512) 0
        + 262144 * T.getD (key / 2 ^ 54 % 512) 0 := by
  have hc : ∀ s : Nat, (key >>> s) &&& Morton.NINE_BIT_MASK = key / 2 ^ s % 512 := by
    intro s
    rw [show Morton.NINE_BIT_MASK = 2 ^ 9 - 1 from rfl, Nat.and_pow_two_sub_one_eq_mod,
      Nat.shiftRight_eq_div_pow]
  have hc0 : (key >>> (0 * 9)) &&& Morton.NINE_BIT_MASK = key % 512 := by
    have h := hc (0 * 9)
    norm_num at h ⊢
    exact h
  have hc1 : (key >>> (1 * 9)) &&& Morton.NINE_BIT_MASK = key / 2 ^ 9 % 512 := by
    have h := hc (1 * 9)
    norm_num at h ⊢
    exact h
  have hc2 : (key >>> (2 * 9)) &&& Morton.NINE_BIT_MASK = key / 2 ^ 18 % 512 := by
    have h := hc (2 * 9)
    norm_num at h ⊢
    exact h
  have hc3 : (key >>> (3 * 9)) &&& Morton.NINE_BIT_MASK = key / 2 ^ 27 % 512 := by
    have h := hc (3 * 9)
    norm_num at h ⊢
    exact h
  have hc4 : (key >>> (4 * 9)) &&& Morton.NINE_BIT_MASK = key / 2 ^ 36 % 512 := by
    have h := hc (4 * 9)
    norm_num at h ⊢
    exact h
  have hc5 : (key >>> (5 * 9)) &&& Morton.NINE_BIT_MASK = key / 2 ^ 45 % 512 := by
    have h := hc (5 * 9)
    norm_num at h ⊢
    exact h
  have hc6 : (key >>> (6 * 9)) &&& Morton.NINE_BIT_MASK = key / 2 ^ 54 % 512 := by
    have h := hc (6 * 9)
    norm_num at h ⊢
    exact h
  rw [Morton.decode_key_helper, show List.range 7 = [0, 1, 2, 3, 4, 5, 6] from rfl]
  simp only [List.foldl_cons, List.foldl_nil]
  rw [hc0, hc1, hc2, hc3, hc4, hc5, hc6]
  simp only [show (3 : Nat) * 0 = 0 from rfl, show (3 : Nat) * 1 = 3 from rfl,
    show (3 : Nat) * 2 = 6 from rfl, show (3 : Nat) * 3 = 9 from rfl,
    show (3 : Nat) * 4 = 12 from rfl, show (3 : Nat) * 5 = 15 from rfl,
    show (3 : Nat) * 6 = 18 from rfl, Nat.shiftLeft_zero, Nat.zero_or]
  have h0 := hT (key % 512) (by omega)
  have h1 := hT (key / 2 ^ 9 % 512) (by omega)
  have h2 := hT (key / 2 ^ 18 % 512) (by omega)
  have h3 := hT (key / 2 ^ 27 % 512) (by omega)
  have h4 := hT (key / 2 ^ 36 % 512) (by omega)
  have h5 := hT (key / 2 ^ 45 % 512) (by omega)
  have h6 := hT (key / 2 ^ 54 % 512) (by omega)
  rw [or_acc 3 (by omega) h1]
  rw [or_acc 6 (by omega) h2]
  rw [or_acc 9 (by omega) h3]
  rw [or_acc 12 (by omega) h4]
  rw [or_acc 15 (by omega) h5]
  rw [or_acc 18 (by omega) h6]
  omega

theorem compress_sum {w : Nat} (hw : w < 2 ^ 48) :
    specCompress 3 w
      + 8 * specCompress 3 (w / 2 ^ 9)
      + 64 * specCompress 3 (w / 2 ^ 18)
      + 512 * specCompress 3 (w / 2 ^ 27)
      + 4096 * specCompress 3 (w / 2 ^ 36)
      + 32768 * specCompress 3 (w / 2 ^ 45)
      + 262144 * specCompress 3 (w / 2 ^ 54)
      = specCompress 16 w := by
  have e16 : specCompress 16 w = specCompress 3 w + 8 * specCompress 13 (w / 2 ^ 9) := by
    have h := specCompress_split 3 13 w
    norm_num at h
    exact h
  have e13 : specCompress 13 (w / 2 ^ 9)
      = specCompress 3 (w / 2 ^ 9) + 8 * specCompress 10 (w / 2 ^ 18) := by
    have h := specCompress_split 3 10 (w / 2 ^ 9)
    norm_num [Nat.div_div_eq_div_mul] at h
    exact h
  have e10 : specCompress 10 (w / 2 ^ 18)
      = specCompress 3 (w / 2 ^ 18) + 8 * specCompress 7 (w / 2 ^ 27) := by
    have h := specCompress_split 3 7 (w / 2 ^ 18)
    norm_num [Nat.div_div_eq_div_mul] at h
    exact h
  have e7 : specCompress 7 (w / 2 ^ 27)
      = specCompress 3 (w / 2 ^ 27) + 8 * specCompress 4 (w / 2 ^ 36) := by
    have h := specCompress_split 3 4 (w / 2 ^ 27)
    norm_num [Nat.div_div_eq_div_mul] at h
    exact h
  have e4 : specCompress 4 (w / 2 ^ 36)
      = specCompress 3 (w / 2 ^ 36) + 8 * specCompress 1 (w / 2 ^ 45) := by
    have h := specCompress_split 3 1 (w / 2 ^ 36)
    norm_num [Nat.div_div_eq_div_mul] at h
    exact h
  have e1 : specCompress 1 (w / 2 ^ 45) = specCompress 3 (w / 2 ^ 45) := by
    have hu : w / 2 ^ 45 < 8 := by omega
    rw [specCompress_three]
    show w / 2 ^ 45 % 2 + 2 * specCompress 0 (w / 2 ^ 45 / 8) = _
    rw [specCompress]
    omega
  have e0 : specCompress 3 (w / 2 ^ 54) = 0 := by
    have hz : w / 2 ^ 54 = 0 := by omega
    rw [hz, specCompress_three]
  rw [e16, e13, e10, e7, e4, e1, e0]
  ring

theorem decode_helper_x {key : Nat} (hkey : key < 2 ^ 48) :
    Morton.decode_key_helper key Morton.X_LOOKUP_DECODE = specCompress 16 key := by
  have hT : ∀ c < 512, Morton.X_LOOKUP_DECODE.getD c 0 < 8 := by
    intro c hc
    rw [decode_table_x c hc]
    exact specCompress_three_lt _
  rw [decode_key_helper_sum key _ hT]
  rw [decode_table_x _ (by omega), decode_table_x _ (by omega), decode_table_x _ (by omega),
    decode_table_x _ (by omega), decode_table_x _ (by omega), decode_table_x _ (by omega),
    decode_table_x _ (by omega)]
  have hmod : ∀ u : Nat, specCompress 3 (u % 512) = specCompress 3 u := by
    intro u
    rw [specCompress_three, specCompress_three]
    omega
  rw [hmod, hmod, hmod, hmod, hmod, hmod, hmod]
  exact compress_sum hkey

theorem decode_helper_y {key : Nat} (hkey : key < 2 ^ 48) :
    Morton.decode_key_helper key Morton.Y_LOOKUP_DECODE = specCompress 16 (key / 2) := by
  have hT : ∀ c < 512, Morton.Y_LOOKUP_DECODE.getD c 0 < 8 := by
    intro c hc
    rw [decode_table_y c hc]
    exact specCompress_three_lt _
  rw [decode_key_helper_sum key _ hT]
  rw [decode_table_y _ (by omega), decode_table_y _ (by omega), decode_table_y _ (by omega),
    decode_table_y _ (by omega), decode_table_y _ (by omega), decode_table_y _ (by omega),
    decode_table_y _ (by omega)]
  have h0 : specCompress 3 (key % 512 / 2) = specCompress 3 (key / 2) := by
    rw [specCompress_three, specCompress_three]
    omega
  have hi : ∀ s : Nat, 0 < s →
      specCompress 3 (key / 2 ^ s % 512 / 2) = specCompress 3 (key / 2 / 2 ^ s) := by
    intro s hs
    rw [specCompress_three, specCompress_three]
    have hd : key / 2 / 2 ^ s = key / 2 ^ s / 2 := by
      rw [Nat.div_div_eq_div_mul, Nat.div_div_eq_div_mul, Nat.mul_comm]
    rw [hd]
    omega
  rw [h0, hi 9 (by norm_num), hi 18 (by norm_num), hi 27 (by norm_num),
    hi 36 (by norm_num), hi 45 (by norm_num), hi 54 (by norm_num)]
  exact compress_sum (by omega)

theorem decode_helper_z {key : Nat} (hkey : key < 2 ^ 48) :
    Morton.decode_key_helper key Morton.Z_LOOKUP_DECODE = specCompress 16 (key / 4) := by
  have hT : ∀ c < 512, Morton.Z_LOOKUP_DECODE.getD c 0 < 8 := by
    intro c hc
    rw [decode_table_z c hc]
    exact specCompress_three_lt _
  rw [decode_key_helper_sum key _ hT]
  rw [decode_table_z _ (by omega), decode_table_z _ (by omega), decode_table_z _ (by omega),
    decode_table_z _ (by omega), decode_table_z _ (by omega), decode_table_z _ (by omega),
    decode_table_z _ (by omega)]
  have h0 : specCompress 3 (key % 512 / 4) = specCompress 3 (key / 4) := by
    rw [specCompress_three, specCompress_three]
    omega
  have hi : ∀ s : Nat, 0 < s →
      specCompress 3 (key / 2 ^ s % 512 / 4) = specCompress 3 (key / 4 / 2 ^ s) := by
    intro s hs
    rw [specCompress_three, specCompress_three]
    have hd : key / 4 / 2 ^ s = key / 2 ^ s / 4 := by
      rw [Nat.div_div_eq_div_mul, Nat.div_div_eq_div_mul, Nat.mul_comm]
    rw [hd]
    omega
  rw [h0, hi 9 (by norm_num), hi 18 (by norm_num), hi 27 (by norm_num),
    hi 36 (by norm_num), hi 45 (by norm_num), hi 54 (by norm_num)]
  exact compress_sum (by omega)

theorem decode_key_eq_specAnchor {m : Nat} (h : m / 2 ^ 15 < 2 ^ 48) :
    Morton.decode_key m = specAnchor m := by
  have hkey : m >>> Morton.LEVEL_DISPLACEMENT = m / 2 ^ 15 := by
    rw [show Morton.LEVEL_DISPLACEMENT = 15 from rfl, Nat.shiftRight_eq_div_pow]
  show (Morton.decode_key_helper (m >>> Morton.LEVEL_DISPLACEMENT) Morton.X_LOOKUP_DECODE,
      Morton.decode_key_helper (m >>> Morton.LEVEL_DISPLACEMENT) Morton.Y_LOOKUP_DECODE,
      Morton.decode_key_helper (m >>> Morton.LEVEL_DISPLACEMENT) Morton.Z_LOOKUP_DECODE)
    = specAnchor m
  rw [hkey, decode_helper_x h, decode_helper_y h, decode_helper_z h]
  rfl

end Tree

namespace Tree

theorem mod_pow_two_succ (a t : Nat) : a % 2 ^ (t + 1) = a % 2 + 2 * (a / 2 % 2 ^ t) := by
  rw [pow_succ, Nat.mul_comm (2 ^ t) 2, Nat.mod_mul]

theorem compress_mixed : ∀ n m1 m2 m3 a b c,
    specCompress n
        (specSpread m1 a + 2 * specSpread m2 b + 4 * specSpread m3 c)
      = a % 2 ^ (min m1 n)
  | 0, m1, m2, m3, a, b, c => by simp [specCompress, Nat.mod_one]
  | n + 1, m1, m2, m3, a, b, c => by
      have ih := compress_mixed n (m1 - 1) (m2 - 1) (m3 - 1) (a / 2) (b / 2) (c / 2)
      have hsa := specSpread_step m1 a
      have hsb := specSpread_step m2 b
      have hsc := specSpread_step m3 c
      have hea : (if m1 = 0 then 0 else a % 2) ≤ 1 := by split <;> omega
      have heb : (if m2 = 0 then 0 else b % 2) ≤ 1 := by split <;> omega
      have hec : (if m3 = 0 then 0 else c % 2) ≤ 1 := by split <;> omega
      rw [specCompress_step, if_neg (Nat.succ_ne_zero n)]
      have hmod : (specSpread m1 a + 2 * specSpread m2 b + 4 * specSpread m3 c) % 2
          = (if m1 = 0 then 0 else a % 2) := by
        rw [hsa, hsb, hsc]
        omega
      have hdiv : (specSpread m1 a + 2 * specSpread m2 b + 4 * specSpread m3 c) / 8
          = specSpread (m1 - 1) (a / 2) + 2 * specSpread (m2 - 1) (b / 2)
            + 4 * specSpread (m3 - 1) (c / 2) := by
        rw [hsa, hsb, hsc]
        omega
      rw [hmod, hdiv, show n + 1 - 1 = n from rfl, ih]
      match m1 with
      | 0 => simp [Nat.mod_one]
      | s + 1 =>
          rw [if_neg (Nat.succ_ne_zero s), Nat.succ_min_succ,
            show s + 1 - 1 = s from rfl, mod_pow_two_succ]

theorem div2_interleave (x y z : Nat) :
    (specSpread 16 x + 2 * specSpread 16 y + 4 * specSpread 16 z) / 2
      = specSpread 16 y + 2 * specSpread 16 z + 4 * specSpread 15 (x / 2) := by
  have hsa := specSpread_step 16 x
  have hsb := specSpread_step 16 y
  have hsc := specSpread_step 16 z
  rw [if_neg (by norm_num), show (16 : Nat) - 1 = 15 from rfl] at hsa hsb hsc
  have ha : x % 2 < 2 := Nat.mod_lt _ (by norm_num)
  have hb : y % 2 < 2 := Nat.mod_lt _ (by norm_num)
  have hc : z % 2 < 2 := Nat.mod_lt _ (by norm_num)
  rw [hsa, hsb, hsc]
  omega

theorem div4_interleave (x y z : Nat) :
    (specSpread 16 x + 2 * specSpread 16 y + 4 * specSpread 16 z) / 4
      = specSpread 16 z + 2 * specSpread 15 (x / 2) + 4 * specSpread 15 (y / 2) := by
  have hsa := specSpread_step 16 x
  have hsb := specSpread_step 16 y
  have hsc := specSpread_step 16 z
  rw [if_neg (by norm_num), show (16 : Nat) - 1 = 15 from rfl] at hsa hsb hsc
  have ha : x % 2 < 2 := Nat.mod_lt _ (by norm_num)
  have hb : y % 2 < 2 := Nat.mod_lt _ (by norm_num)
  have hc : z % 2 < 2 := Nat.mod_lt _ (by norm_num)
  rw [hsa, hsb, hsc]
  omega

end Tree

set_option maxRecDepth 200000 in
/-- C7 counterexample: at anchor `(1, 0, 0)` and level 0 the key stores the
full anchor: decoding returns `(1, 0, 0)`, not the claimed
`a_at_level(0) = (0, 0, 0)` (the anchor with the bits below level 0 zeroed,
i.e. `x / 2^16 * 2^16 = 0`).  `encode_anchor` interleaves all 16 bits of each
coordinate and `decode_key` recovers them all; no truncation to the key's
level ever happens. -/
theorem C7_decode_encode_counterexample :
    Morton.decode_key (Morton.encode_anchor (1, 0, 0) 0) = (1, 0, 0)
    ∧ ((1 : Nat) / 2 ^ (16 - 0) * 2 ^ (16 - 0), (0 : Nat), (0 : Nat)) = ((0 : Nat), 0, 0)
    ∧ ((1 : Nat), (0 : Nat), (0 : Nat)) ≠ ((0 : Nat), 0, 0) := by
  refine ⟨by decide, by decide, by decide⟩

/-- C7 amended: for every anchor with coordinates in `[0, 2^16)` and every
level `ℓ ≤ 16`, decoding the key produced by `encode_anchor` recovers the
level `ℓ` (via `find_level`) and the *full* anchor — not the anchor truncated
to the key's level. -/
theorem C7_encode_decode_roundtrip {x y z ℓ : Nat} (hx : x < 2 ^ 16)
    (hy : y < 2 ^ 16) (hz : z < 2 ^ 16) (hl : ℓ ≤ 16) :
    Morton.decode_key (Morton.encode_anchor (x, y, z) ℓ) = (x, y, z)
    ∧ Morton.find_level (Morton.encode_anchor (x, y, z) ℓ) = ℓ := by
  have hl15 : ℓ < 2 ^ 15 := by omega
  have henc := Tree.encode_anchor_eq_spec hx hy hz hl15
  have hIb := Tree.specSpread_bound 16 x y z
  have hIlt : Tree.specSpread 16 x + 2 * Tree.specSpread 16 y + 4 * Tree.specSpread 16 z
      < 2 ^ 48 := by
    have h816 : (8 : Nat) ^ 16 = 2 ^ 48 := by norm_num
    omega
  have hIdiv : Tree.specEncode (x, y, z) ℓ / 2 ^ 15
      = Tree.specSpread 16 x + 2 * Tree.specSpread 16 y + 4 * Tree.specSpread 16 z := by
    rw [show Tree.specEncode (x, y, z) ℓ
        = (Tree.specSpread 16 x + 2 * Tree.specSpread 16 y + 4 * Tree.specSpread 16 z)
          * 2 ^ 15 + ℓ from rfl]
    exact Morton.mul_pow_add_div hl15
  constructor
  · rw [henc, Tree.decode_key_eq_specAnchor (by rw [hIdiv]; exact hIlt)]
    show (Tree.specCompress 16 (Tree.specEncode (x, y, z) ℓ / 2 ^ 15),
        Tree.specCompress 16 (Tree.specEncode (x, y, z) ℓ / 2 ^ 15 / 2),
        Tree.specCompress 16 (Tree.specEncode (x, y, z) ℓ / 2 ^ 15 / 4)) = (x, y, z)
    rw [hIdiv, Tree.div2_interleave, Tree.div4_interleave]
    rw [Tree.compress_mixed 16 16 16 16 x y z]
    rw [Tree.compress_mixed 16 16 16 15 y z (x / 2)]
    rw [Tree.compress_mixed 16 16 15 15 z (x / 2) (y / 2)]
    rw [show min 16 16 = 16 from rfl]
    rw [Nat.mod_eq_of_lt hx, Nat.mod_eq_of_lt hy, Nat.mod_eq_of_lt hz]
  · rw [henc, Morton.find_level_eq]
    rw [show Tree.specEncode (x, y, z) ℓ
        = (Tree.specSpread 16 x + 2 * Tree.specSpread 16 y + 4 * Tree.specSpread 16 z)
          * 2 ^ 15 + ℓ from rfl]
    exact Morton.lvl_of_form hl15

/-- Witness for the amended C7 at anchor `(5, 7, 9)`, level 3. -/
theorem C7_encode_decode_roundtrip_witness :
    Morton.decode_key (Morton.encode_anchor (5, 7, 9) 3) = (5, 7, 9)
    ∧ Morton.find_level (Morton.encode_anchor (5, 7, 9) 3) = 3 :=
  @C7_encode_decode_roundtrip 5 7 9 3 (by decide) (by decide) (by decide) (by decide)
